import Mathlib

/-!
ALPS touchpad driver: byte framer and bitmap resolver.

A shallow embedding of the protocol decoding engine of
`VoodooPS2Trackpad/alps.cpp`:

* `interruptOccurred`, the byte framer, as a state-passing function over the
  driver fields it touches (`_ringBuffer`, `_packetByteCount`) and the
  read-only protocol data `priv`;
* `alps_get_bitmap_points` and `processBitmap`, the bitmap resolver.

Bytes (`UInt8`) are natural numbers below 256, `unsigned int` values are
natural numbers below `2 ^ 32`, and C `int` values are integers.
-/

namespace Alps

/-! ## Protocol data -/

/-- The protocol revisions the driver assigns to `priv.proto_version`
(`identify`, `matchTable`, `set_protocol`). -/
inductive ProtoVersion where
  | ALPS_PROTO_V1
  | ALPS_PROTO_V2
  | ALPS_PROTO_V3
  | ALPS_PROTO_V3_RUSHMORE
  | ALPS_PROTO_V4
  | ALPS_PROTO_V5
  | ALPS_PROTO_V7
  | ALPS_PROTO_V8
  deriving DecidableEq, Repr

open ProtoVersion

/-- Modelled from the spec: the numeric values of the `ALPS_PROTO_*` constants
are declared in `alps.h`, which is not among the sources. The framer only
compares them with `<`, and the versions that predate `ALPS_PROTO_V5` are
V1, V2, V3, V3_RUSHMORE and V4; the values below realise that order. -/
def ProtoVersion.code : ProtoVersion → Nat
  | ALPS_PROTO_V1 => 0x100
  | ALPS_PROTO_V2 => 0x200
  | ALPS_PROTO_V3 => 0x300
  | ALPS_PROTO_V3_RUSHMORE => 0x310
  | ALPS_PROTO_V4 => 0x400
  | ALPS_PROTO_V5 => 0x500
  | ALPS_PROTO_V7 => 0x700
  | ALPS_PROTO_V8 => 0x800

/-- Flag `ALPS_PS2_INTERLEAVED`: a 3-byte PS/2 packet may be interleaved with
a 6-byte ALPS packet. -/
def ALPS_PS2_INTERLEAVED : Nat := 0x80

/-- The packet size that `deviceSpecificInit` stores in `priv.pktsize`:
`priv.proto_version == ALPS_PROTO_V4 ? 8 : 6`. -/
def pktsizeOf (v : ProtoVersion) : Nat :=
  if v = ALPS_PROTO_V4 then 8 else 6

/-- The constant `kPacketLength` of `VoodooPS2TouchPadBase.h`. -/
def kPacketLength : Nat := 6

/-- Capacity of `_ringBuffer`, declared as
`RingBuffer<UInt8, kPacketLength*32>`. -/
def ringCapacity : Nat := kPacketLength * 32

/-- The fields of `struct alps_data` (the driver field `priv`) read or written
by the framer, by the bitmap resolver and by the packet processing routines.
`multi_data` is the memory starting at the first element of the array
`priv.multi_data`. -/
structure alps_data where
  proto_version : ProtoVersion
  byte0 : Nat := 0x8f
  mask0 : Nat := 0x8f
  flags : Nat := 0
  pktsize : Nat := 6
  x_max : Int := 2000
  y_max : Int := 1400
  x_bits : Int := 15
  y_bits : Int := 11
  second_touch : Int := -1
  quirks : Nat := 0
  multi_packet : Int := 0
  multi_data : Nat → Nat := fun _ => 0
  prev_fin : Int := 0

/-! ## Ring buffer and framer state -/

/-- Modelled from the spec: the class template `RingBuffer` is declared in a
header that is not among the sources. It is a fixed-capacity circular byte
buffer with a producer position `head`, a consumer position `tail` and the
number `count` of bytes queued between them. `buffer` is the memory starting
at the first element of the array; `head()` points at `buffer[head]`. -/
structure RingBuffer where
  buffer : Nat → Nat
  head : Nat := 0
  tail : Nat := 0
  count : Nat := 0

/-- Modelled from the spec: `advanceHead(n)` moves the producer position `n`
bytes forward around the circular buffer and queues those `n` bytes. -/
def RingBuffer.advanceHead (r : RingBuffer) (n : Nat) : RingBuffer :=
  { r with head := (r.head + n) % ringCapacity, count := r.count + n }

/-- The result of one call of the interrupt handler (`PS2InterruptResult`);
`interruptOccurred` returns one of these two values. -/
inductive PS2InterruptResult where
  | kPS2IR_packetBuffering
  | kPS2IR_packetReady
  deriving DecidableEq, Repr

open PS2InterruptResult

/-- The driver fields used by `interruptOccurred`. -/
structure Driver where
  _ringBuffer : RingBuffer
  _packetByteCount : Nat := 0

/-- Byte `i` of the packet under construction: `_ringBuffer.head()[i]`. -/
def Driver.packet (s : Driver) (i : Nat) : Nat :=
  s._ringBuffer.buffer (s._ringBuffer.head + i)

/-- The store `packet[_packetByteCount] = data` through
`packet = _ringBuffer.head()`: it writes at offset `_packetByteCount` from the
ring-buffer head. The array of the ring buffer has `ringCapacity` bytes and
the source does not bound the offset by it. `buffer` is a total map, so this
definition describes the C store only while
`head + _packetByteCount < ringCapacity`; a store at a larger index lies
outside the array (the C program has no defined behaviour there), and
`interruptOccurredChecked` gives no result for it. -/
def Driver.store (s : Driver) (data : Nat) : RingBuffer :=
  { s._ringBuffer with
    buffer := Function.update s._ringBuffer.buffer
      (s._ringBuffer.head + s._packetByteCount) data }

/-- Function `AppleUSBMultitouchDriver::interruptOccurred(UInt8 data)`
(alps.cpp, lines 1458-1541). `packet[_packetByteCount++] = data` stores the
byte and increments the `UInt32` counter; every later test reads the updated
buffer (`packet`) and the updated counter (`cnt`). -/
def interruptOccurred (priv : alps_data) (s : Driver) (data : Nat) :
    Driver × PS2InterruptResult :=
  let rb : RingBuffer := s.store data
  let cnt : Nat := (s._packetByteCount + 1) % 2 ^ 32
  let packet : Nat → Nat := fun i => rb.buffer (rb.head + i)
  let s1 : Driver := { _ringBuffer := rb, _packetByteCount := cnt }
  if priv.proto_version ≠ ALPS_PROTO_V8 ∧ packet 0 &&& 0xc8 = 0x08 then
    if cnt = 3 then
      ({ _ringBuffer := rb.advanceHead priv.pktsize, _packetByteCount := 0 },
        kPS2IR_packetReady)
    else (s1, kPS2IR_packetBuffering)
  else if priv.flags &&& ALPS_PS2_INTERLEAVED ≠ 0 ∧ cnt ≥ 4 ∧
      packet 3 &&& 0x0f = 0x0f then
    (s1, kPS2IR_packetBuffering)
  else if packet 0 &&& priv.mask0 ≠ priv.byte0 then
    (s1, kPS2IR_packetBuffering)
  else if priv.proto_version.code < ALPS_PROTO_V5.code ∧
      cnt ≥ 2 ∧ cnt ≤ priv.pktsize ∧ packet (cnt - 1) &&& 0x80 ≠ 0 then
    if priv.proto_version = ALPS_PROTO_V3_RUSHMORE ∧ cnt = priv.pktsize then
      (s1, kPS2IR_packetReady)
    else (s1, kPS2IR_packetBuffering)
  else if priv.proto_version = ALPS_PROTO_V7 ∧
      ((cnt = 3 ∧ packet 2 &&& 0x40 ≠ 0x40) ∨
       (cnt = 4 ∧ packet 3 &&& 0x48 ≠ 0x48) ∨
       (cnt = 6 ∧ packet 5 &&& 0x40 ≠ 0x0)) then
    (s1, kPS2IR_packetBuffering)
  else if priv.proto_version = ALPS_PROTO_V8 ∧
      ((cnt = 4 ∧ packet 3 &&& 0x08 ≠ 0x08) ∨
       (cnt = 6 ∧ packet 5 &&& 0x10 ≠ 0x0)) then
    (s1, kPS2IR_packetBuffering)
  else if cnt = priv.pktsize then
    ({ _ringBuffer := rb.advanceHead priv.pktsize, _packetByteCount := 0 },
      kPS2IR_packetReady)
  else (s1, kPS2IR_packetBuffering)

/-- Feeding a sequence of bytes, one call of `interruptOccurred` per byte, in
order; returns the final driver state and the result of every call. -/
def feed (priv : alps_data) : Driver → List Nat → Driver × List PS2InterruptResult
  | s, [] => (s, [])
  | s, b :: bs =>
    let r := interruptOccurred priv s b
    let rest := feed priv r.1 bs
    (rest.1, r.2 :: rest.2)

/-- A driver state with the byte counter at 0 and an empty, zero-filled ring
buffer, as after `init` and `initTouchPad`. -/
def Driver.init : Driver :=
  { _ringBuffer := { buffer := fun _ => 0 }, _packetByteCount := 0 }

/-- The call `interruptOccurred(data)` with the bound of the array made
explicit: the store `packet[_packetByteCount++] = data` (alps.cpp, line 1466)
lands inside the `ringCapacity` bytes of the ring buffer exactly when
`head + _packetByteCount < ringCapacity`. The result is that of
`interruptOccurred` in this case and `none` otherwise: the source makes no
such test, and a store past the end of the array has no defined behaviour. -/
def interruptOccurredChecked (priv : alps_data) (s : Driver) (data : Nat) :
    Option (Driver × PS2InterruptResult) :=
  if s._ringBuffer.head + s._packetByteCount < ringCapacity then
    some (interruptOccurred priv s data)
  else none

/-- Feeding a sequence of bytes through `interruptOccurredChecked`: the final
driver state and the result of every call, or `none` as soon as one of the
stores would land outside the ring buffer. -/
def feedChecked (priv : alps_data) :
    Driver → List Nat → Option (Driver × List PS2InterruptResult)
  | s, [] => some (s, [])
  | s, b :: bs =>
    match interruptOccurredChecked priv s b with
    | none => none
    | some r =>
      match feedChecked priv r.1 bs with
      | none => none
      | some rest => some (rest.1, r.2 :: rest.2)

/-- The results of the calls made by `feedChecked`, when all of them are
defined. -/
def feedResults (priv : alps_data) (s : Driver) (bs : List Nat) :
    Option (List PS2InterruptResult) :=
  (feedChecked priv s bs).map Prod.snd

/-- The byte counter left by `feedChecked`, when all the calls are defined. -/
def feedCounter (priv : alps_data) (s : Driver) (bs : List Nat) : Option Nat :=
  (feedChecked priv s bs).map (fun r => r.1._packetByteCount)

/-! ## Bitmap resolver -/

/-- A run of set bits found in an axis bitmap (`struct alps_bitmap_point`). -/
structure alps_bitmap_point where
  start_bit : Int := 0
  num_bits : Int := 0
  deriving DecidableEq, Repr

/-- A contact position (`struct input_mt_pos`). -/
structure input_mt_pos where
  x : Int := 0
  y : Int := 0
  deriving DecidableEq, Repr

/-- The fields of `struct alps_fields`: the two axis bitmaps (`unsigned int`),
the single-touch point, the multi-touch points `mt[0]`, `mt[1]`, ..., the
finger count, the pressure, and the flags `first_mp`, `is_mp` and the button
bits, each holding 0 or a non-zero value. The default value of every field is
the one left by `memset(&f, 0, sizeof(f))`. -/
structure alps_fields where
  x_map : Nat := 0
  y_map : Nat := 0
  st : input_mt_pos := {}
  mt : Nat → input_mt_pos := fun _ => {}
  fingers : Int := 0
  pressure : Int := 0
  first_mp : Nat := 0
  is_mp : Nat := 0
  left : Nat := 0
  right : Nat := 0
  middle : Nat := 0
  ts_left : Nat := 0
  ts_right : Nat := 0
  ts_middle : Nat := 0

/-- The variables that the loop of `alps_get_bitmap_points` writes: the two
output points, the finger counter `*fingers`, and `point`, which is either
`low` (`onHigh = false`) or `high` (`onHigh = true`). -/
structure BitmapScan where
  low : alps_bitmap_point
  high : alps_bitmap_point
  fingers : Int
  onHigh : Bool := false
  deriving DecidableEq, Repr

/-- The body of the loop of `alps_get_bitmap_points` for the current `bit`
(`map & 1`), position `i` and `prev_bit`. -/
def bitmapBody (bit : Nat) (i : Int) (prev_bit : Nat) (st : BitmapScan) : BitmapScan :=
  if bit ≠ 0 then
    let point := if st.onHigh then st.high else st.low
    let point1 : alps_bitmap_point :=
      if prev_bit = 0 then { start_bit := i, num_bits := 0 } else point
    let fingers1 := if prev_bit = 0 then st.fingers + 1 else st.fingers
    let point2 : alps_bitmap_point := { point1 with num_bits := point1.num_bits + 1 }
    if st.onHigh then { st with high := point2, fingers := fingers1 }
    else { st with low := point2, fingers := fingers1 }
  else if prev_bit ≠ 0 then { st with onHigh := true }
  else st

/-- The loop `for (i = 0; map != 0; i++, map >>= 1)` of
`alps_get_bitmap_points`, entered with the current values of `map`, `i`,
`prev_bit` and of the variables in `BitmapScan`. -/
def bitmapLoop (map : Nat) (i : Int) (prev_bit : Nat) (st : BitmapScan) : BitmapScan :=
  if h : map = 0 then st
  else bitmapLoop (map >>> 1) (i + 1) (map &&& 1) (bitmapBody (map &&& 1) i prev_bit st)
termination_by map
decreasing_by
  rw [Nat.shiftRight_one]
  exact Nat.div_lt_self (Nat.pos_of_ne_zero h) (by decide)

/-- Function `alps_get_bitmap_points(map, low, high, fingers)` (alps.cpp, lines
368-392): `point = low`, `prev_bit = 0`, then the loop from `i = 0`. The
result holds the final `*low`, `*high` and `*fingers`. -/
def alps_get_bitmap_points (map : Nat) (low high : alps_bitmap_point) (fingers : Int) :
    BitmapScan :=
  bitmapLoop map 0 0 { low := low, high := high, fingers := fingers, onHigh := false }

/-- The block `if (fingers_x == 1) { ... }` of `processBitmap`: a single run
is divided between the two points. -/
def splitSingle (fingers : Int) (low high : alps_bitmap_point) :
    alps_bitmap_point × alps_bitmap_point :=
  if fingers = 1 then
    let i := low.num_bits.tdiv 2
    ({ low with num_bits := low.num_bits - i },
     { start_bit := low.start_bit + i, num_bits := max i 1 })
  else (low, high)

/-- One corner coordinate:
`(max * (2 * start_bit + num_bits - 1)) / (2 * (bits - 1))`. -/
def cornerCoord (vmax bits : Int) (p : alps_bitmap_point) : Int :=
  (vmax * (2 * p.start_bit + p.num_bits - 1)).tdiv (2 * (bits - 1))

/-- One iteration of the loop that searches the corner closest to the
single-touch point; `acc` is the pair (`priv->second_touch`, `closest`). -/
def closestStep (st : input_mt_pos) (corner : Nat → input_mt_pos) (acc : Int × Int)
    (i : Nat) : Int × Int :=
  let dx := st.x - (corner i).x
  let dy := st.y - (corner i).y
  let distance := dx * dx + dy * dy
  if distance < acc.2 then ((i : Int), distance) else acc

/-- Function `AppleUSBMultitouchDriver::processBitmap(priv, fields)` (alps.cpp,
lines 404-508). Returns the updated `priv`, the updated `fields` and the
return value (the number of fingers). C `int` arithmetic is carried out in
the integers, with `/` and `%` truncating towards zero; the four entries of
`corner` are `corner 0 .. corner 3`, and `corner[priv->second_touch]` is read
with the index converted to a natural number. -/
def processBitmap (priv : alps_data) (fields : alps_fields) : alps_data × alps_fields × Int :=
  if fields.x_map = 0 ∨ fields.y_map = 0 then (priv, fields, 0)
  else
    let sx := alps_get_bitmap_points fields.x_map {} {} 0
    let sy := alps_get_bitmap_points fields.y_map {} {} 0
    let fingers_x := sx.fingers
    let fingers_y := sy.fingers
    let fingers := max fingers_x fingers_y
    let px := splitSingle fingers_x sx.low sx.high
    let py := splitSingle fingers_y sy.low sy.high
    let x_low := px.1
    let x_high := px.2
    let y_low := py.1
    let y_high := py.2
    let c0 : input_mt_pos :=
      { x := cornerCoord priv.x_max priv.x_bits x_low,
        y := cornerCoord priv.y_max priv.y_bits y_low }
    let c1 : input_mt_pos :=
      { x := cornerCoord priv.x_max priv.x_bits x_high,
        y := cornerCoord priv.y_max priv.y_bits y_low }
    let c2 : input_mt_pos :=
      { x := cornerCoord priv.x_max priv.x_bits x_high,
        y := cornerCoord priv.y_max priv.y_bits y_high }
    let c3 : input_mt_pos :=
      { x := cornerCoord priv.x_max priv.x_bits x_low,
        y := cornerCoord priv.y_max priv.y_bits y_high }
    let corner0 : Nat → input_mt_pos := fun i =>
      match i with
      | 0 => c0
      | 1 => c1
      | 2 => c2
      | _ => c3
    let corner1 : Nat → input_mt_pos :=
      if priv.proto_version = ALPS_PROTO_V5 then
        fun i => { corner0 i with x := priv.x_max - (corner0 i).x }
      else corner0
    let corner : Nat → input_mt_pos :=
      if priv.proto_version = ALPS_PROTO_V3 ∨ priv.proto_version = ALPS_PROTO_V4 then
        fun i => { corner1 i with y := priv.y_max - (corner1 i).y }
      else corner1
    let second_touch : Int :=
      if priv.second_touch = -1 then
        let found := [0, 1, 2, 3].foldl (closestStep fields.st corner)
          (priv.second_touch, 0x7fffffff)
        (found.1 + 2).tmod 4
      else priv.second_touch
    let mt1 := Function.update fields.mt 0 fields.st
    let mt2 := Function.update mt1 1 (corner second_touch.toNat)
    ({ priv with second_touch := second_touch }, { fields with mt := mt2 }, fingers)

/-! ## Maximal runs of set bits

The notions used to state what the bitmap resolver computes. Bit positions
of an `unsigned int` are `0 .. 31`. -/

/-- Bits `s .. s + n - 1` of `map` form a maximal run of consecutive set bits:
the run is non-empty, all its bits are set, the bit above it is clear, and the
bit below it (if any) is clear. -/
def IsMaximalRun (map s n : Nat) : Prop :=
  0 < n ∧ (∀ j, j < n → map.testBit (s + j) = true) ∧ map.testBit (s + n) = false ∧
    (s = 0 ∨ map.testBit (s - 1) = false)

instance (map s n : Nat) : Decidable (IsMaximalRun map s n) := by
  unfold IsMaximalRun
  infer_instance

/-- Bit `s` of `map` is the lowest bit of a maximal run. -/
def isRunStart (map s : Nat) : Bool :=
  map.testBit s && (s == 0 || !map.testBit (s - 1))

/-- The number of maximal runs of consecutive set bits in a 32-bit `map`: the
number of bit positions that start a run. -/
def runCount (map : Nat) : Nat :=
  ((List.range 32).filter (isRunStart map)).length

/-- Bit `j` of `map` starts a run when the bit below position 0 is taken to be
`prev` (the value of `prev_bit` on entry to the loop). -/
def isRunStartAfter (prev map j : Nat) : Bool :=
  map.testBit j && (if j = 0 then prev == 0 else !map.testBit (j - 1))

/-- Invariant of the scan of bitmap `M` when the loop of
`alps_get_bitmap_points`, started with `*low = low0`, `*high = high0` and
`*fingers = f0`, is about to look at bit `i` with `prev_bit = prev`:
either no set bit has been seen, or the first run is in progress, or the
first run is complete and recorded in `low`, in which case either no further
run has started or `high` records the latest run seen so far. -/
def ScanInv (M : Nat) (low0 high0 : alps_bitmap_point) (f0 : Int) (i prev : Nat)
    (st : BitmapScan) : Prop :=
  (st.onHigh = false ∧ prev = 0 ∧ st.fingers = f0 ∧ st.low = low0 ∧ st.high = high0 ∧
    (∀ j, j < i → M.testBit j = false)) ∨
  (st.onHigh = false ∧ prev = 1 ∧ st.fingers = f0 + 1 ∧ st.high = high0 ∧
    ∃ s m : Nat, st.low = ⟨s, m⟩ ∧ 0 < m ∧ s + m = i ∧
      (∀ j, j < s → M.testBit j = false) ∧ (∀ j, j < m → M.testBit (s + j) = true)) ∨
  (st.onHigh = true ∧
    ∃ s m : Nat, st.low = ⟨s, m⟩ ∧ IsMaximalRun M s m ∧
      (∀ j, j < s → M.testBit j = false) ∧ s + m < i ∧
      ((st.fingers = f0 + 1 ∧ prev = 0 ∧ st.high = high0 ∧
          (∀ j, s + m ≤ j → j < i → M.testBit j = false)) ∨
       (f0 + 2 ≤ st.fingers ∧
          ∃ s2 m2 : Nat, st.high = ⟨s2, m2⟩ ∧ 0 < m2 ∧ s + m < s2 ∧ s2 + m2 ≤ i ∧
            (∀ j, j < m2 → M.testBit (s2 + j) = true) ∧ M.testBit (s2 - 1) = false ∧
            (∀ j, s2 + m2 ≤ j → j < i → M.testBit j = false) ∧
            prev = (if s2 + m2 = i then 1 else 0))))

/-! ## Notions used to state the framer properties -/

/-- The sync pair (`priv.byte0`, `priv.mask0`) that `set_protocol` assigns for
a protocol version: the default `0x8f / 0x8f`, overridden for V5, V7 and V8. -/
def set_protocol_sync : ProtoVersion → Nat × Nat
  | ALPS_PROTO_V5 => (0xc8, 0xc8)
  | ALPS_PROTO_V7 => (0x48, 0x48)
  | ALPS_PROTO_V8 => (0x18, 0x18)
  | _ => (0x8f, 0x8f)

/-- A complete packet `bs` for the protocol data `priv` that satisfies every
structural check of the framer: it has `priv.pktsize` bytes, its first byte
matches the sync pair, it is not taken for a bare PS/2 packet, the interleave
pattern does not apply, bytes `1 .. pktsize - 1` have the top bit clear on
versions before V5, and the V7 and V8 checks hold on those versions. -/
def StructurallyValid (priv : alps_data) (bs : List Nat) : Prop :=
  bs.length = priv.pktsize ∧
  (bs.getD 0 0 &&& priv.mask0 = priv.byte0) ∧
  (bs.getD 0 0 &&& 0xc8 ≠ 0x08 ∨ priv.proto_version = ALPS_PROTO_V8) ∧
  (priv.flags &&& ALPS_PS2_INTERLEAVED = 0 ∨ bs.getD 3 0 &&& 0x0f ≠ 0x0f) ∧
  (priv.proto_version.code < ALPS_PROTO_V5.code →
      ∀ k, 1 ≤ k → k < priv.pktsize → bs.getD k 0 &&& 0x80 = 0) ∧
  (priv.proto_version = ALPS_PROTO_V7 →
      bs.getD 2 0 &&& 0x40 = 0x40 ∧ bs.getD 3 0 &&& 0x48 = 0x48 ∧
        bs.getD 5 0 &&& 0x40 = 0) ∧
  (priv.proto_version = ALPS_PROTO_V8 →
      bs.getD 3 0 &&& 0x08 = 0x08 ∧ bs.getD 5 0 &&& 0x10 = 0)

/-! ## Field decoders and packet processing -/

/-- Flag `ALPS_DUALPOINT`: the touchpad has a trackstick. -/
def ALPS_DUALPOINT : Nat := 0x02

/-- Flag `ALPS_WHEEL`: a hardware wheel is present. -/
def ALPS_WHEEL : Nat := 0x08

/-- Flag `ALPS_FW_BK_1`: front and back buttons are present. -/
def ALPS_FW_BK_1 : Nat := 0x10

/-- Flag `ALPS_FW_BK_2`: front and back buttons are present. -/
def ALPS_FW_BK_2 : Nat := 0x20

/-- Flag `ALPS_STICK_BITS`: separate stick button bits. -/
def ALPS_STICK_BITS : Nat := 0x100

/-- Flag `ALPS_BUTTONPAD`: the device is a clickpad. -/
def ALPS_BUTTONPAD : Nat := 0x200

/-- Modelled from the spec: the quirk bit `ALPS_QUIRK_TRACKSTICK_BUTTONS` is
declared in `alps.h`, which is not among the sources; it marks a device that
reports its trackstick buttons through the trackstick packets. Only the fact
that it is a single non-zero bit of `priv.quirks` is used. -/
def ALPS_QUIRK_TRACKSTICK_BUTTONS : Nat := 0x01

/-- Modelled from the spec: the length of the array `priv.multi_data`
(`sizeof(priv.multi_data)`), declared in `alps.h`, which is not among the
sources. It holds one packet of the 6-byte protocols; `processPacketV4`
fills its entries `0 .. 5`. -/
def multi_data_size : Nat := 6

/-- The value `MODE_DRAG` of the enumeration `touchmode`
(`VoodooPS2TouchPadBase.h`). -/
def MODE_DRAG : Int := 11

/-- A call made by a packet processing routine to one of its three outlets:
`dispatchRelativePointerEventX(dx, dy, buttons, now)`,
`dispatchScrollWheelEventX(deltaAxis1, deltaAxis2, deltaAxis3, now)` or
`dispatchEventsWithInfo(xraw1, yraw1, xraw2, yraw2, z, fingers, buttonsraw)`.
The time stamp is left out. -/
inductive Event where
  | relativePointer (dx dy : Int) (buttons : Nat)
  | scrollWheel (deltaAxis1 deltaAxis2 deltaAxis3 : Int)
  | eventsWithInfo (xraw1 yraw1 xraw2 yraw2 z fingers : Int) (buttonsraw : Nat)
  deriving DecidableEq, Repr

/-- The C idiom `!!(e)`: 1 if `e` is non-zero, 0 otherwise. -/
def notnot (e : Nat) : Nat := if e ≠ 0 then 1 else 0

/-- `memcpy(priv.multi_data, packet, sizeof(priv.multi_data))`. -/
def memcpy_multi_data (multi_data packet : Nat → Nat) : Nat → Nat :=
  fun i => if i < multi_data_size then packet i else multi_data i

/-- Function `decodeButtonsV3(f, p)` (alps.cpp, lines 593-602). -/
def decodeButtonsV3 (f : alps_fields) (p : Nat → Nat) : alps_fields :=
  { f with
    left := notnot (p 3 &&& 0x01)
    right := notnot (p 3 &&& 0x02)
    middle := notnot (p 3 &&& 0x04)
    ts_left := notnot (p 3 &&& 0x10)
    ts_right := notnot (p 3 &&& 0x20)
    ts_middle := notnot (p 3 &&& 0x40) }

/-- Function `decodePinnacle(f, p)` (alps.cpp, lines 604-625). -/
def decodePinnacle (f : alps_fields) (p : Nat → Nat) : alps_fields :=
  let f1 : alps_fields :=
    { f with first_mp := notnot (p 4 &&& 0x40), is_mp := notnot (p 0 &&& 0x40) }
  if f1.is_mp ≠ 0 then
    { f1 with
      fingers := ((p 5 &&& 0x3 : Nat) : Int) + 1
      x_map := ((p 4 &&& 0x7e) <<< 8) ||| ((p 1 &&& 0x7f) <<< 2) ||| ((p 0 &&& 0x30) >>> 4)
      y_map := ((p 3 &&& 0x70) <<< 4) ||| ((p 2 &&& 0x7f) <<< 1) ||| (p 4 &&& 0x01) }
  else
    decodeButtonsV3
      { f1 with
        st :=
          { x := ((((p 1 &&& 0x7f) <<< 4) ||| ((p 4 &&& 0x30) >>> 2) |||
              ((p 0 &&& 0x30) >>> 4) : Nat) : Int)
            y := ((((p 2 &&& 0x7f) <<< 4) ||| (p 4 &&& 0x0f) : Nat) : Int) }
        pressure := ((p 5 &&& 0x7f : Nat) : Int) } p

/-- Function `decodeRushmore(f, p)` (alps.cpp, lines 627-650). -/
def decodeRushmore (f : alps_fields) (p : Nat → Nat) : alps_fields :=
  let f1 : alps_fields :=
    { f with first_mp := notnot (p 4 &&& 0x40), is_mp := notnot (p 5 &&& 0x40) }
  if f1.is_mp ≠ 0 then
    { f1 with
      fingers := ((max (p 5 &&& 0x3) ((p 5 >>> 2) &&& 0x3) : Nat) : Int) + 1
      x_map := ((p 5 &&& 0x10) <<< 11) ||| ((p 4 &&& 0x7e) <<< 8) |||
        ((p 1 &&& 0x7f) <<< 2) ||| ((p 0 &&& 0x30) >>> 4)
      y_map := ((p 5 &&& 0x20) <<< 6) ||| ((p 3 &&& 0x70) <<< 4) |||
        ((p 2 &&& 0x7f) <<< 1) ||| (p 4 &&& 0x01) }
  else
    decodeButtonsV3
      { f1 with
        st :=
          { x := ((((p 1 &&& 0x7f) <<< 4) ||| ((p 4 &&& 0x30) >>> 2) |||
              ((p 0 &&& 0x30) >>> 4) : Nat) : Int)
            y := ((((p 2 &&& 0x7f) <<< 4) ||| (p 4 &&& 0x0f) : Nat) : Int) }
        pressure := ((p 5 &&& 0x7f : Nat) : Int) } p

/-- The macro `BIT(x)`, `(1 << (x))`. -/
def BIT (x : Int) : Nat := 1 <<< x.toNat

/-- Function `decodeDolphin(f, p)` (alps.cpp, lines 652-683); it reads
`priv.x_bits` and `priv.y_bits`. `palm_data` is a `uint64_t`; the bitmaps are
stored into `unsigned int` fields. -/
def decodeDolphin (priv : alps_data) (f : alps_fields) (p : Nat → Nat) : alps_fields :=
  let f1 : alps_fields :=
    { f with first_mp := notnot (p 0 &&& 0x02), is_mp := notnot (p 0 &&& 0x20) }
  if f1.is_mp = 0 then
    decodeButtonsV3
      { f1 with
        st :=
          { x := (((p 1 &&& 0x7f) ||| ((p 4 &&& 0x0f) <<< 7) : Nat) : Int)
            y := (((p 2 &&& 0x7f) ||| ((p 4 &&& 0xf0) <<< 3) : Nat) : Int) }
        pressure := if p 0 &&& 4 ≠ 0 then 0 else ((p 5 &&& 0x7f : Nat) : Int) } p
  else
    let palm_data : Nat :=
      ((p 1 &&& 0x7f) ||| ((p 2 &&& 0x7f) <<< 7) ||| ((p 4 &&& 0x7f) <<< 14) |||
        ((p 5 &&& 0x7f) <<< 21) ||| ((p 3 &&& 0x07) <<< 28) |||
        ((p 3 &&& 0x70) <<< 27) ||| ((p 0 &&& 0x01) <<< 34)) % 2 ^ 64
    { f1 with
      fingers := ((((p 0 &&& 0x6) >>> 1) ||| ((p 0 &&& 0x10) >>> 2) : Nat) : Int)
      y_map := (palm_data &&& (BIT priv.y_bits - 1)) % 2 ^ 32
      x_map := ((palm_data >>> priv.y_bits.toNat) &&& (BIT priv.x_bits - 1)) % 2 ^ 32 }

/-- The function stored in the member `decode_fields` by `set_protocol` for the
versions handled by `alps_process_touchpad_packet_v3_v5`: `decodePinnacle` for
V3, `decodeRushmore` for V3_RUSHMORE and `decodeDolphin` for V5. -/
def decode_fields_v3_v5 (priv : alps_data) (f : alps_fields) (p : Nat → Nat) : alps_fields :=
  match priv.proto_version with
  | ALPS_PROTO_V3_RUSHMORE => decodeRushmore f p
  | ALPS_PROTO_V5 => decodeDolphin priv f p
  | _ => decodePinnacle f p

/-- The button mask built by `buttons |= f.left ? 0x01 : 0; ...` from three
button flags. -/
def buttonMask (left right middle : Nat) : Nat :=
  (if left ≠ 0 then 0x01 else 0) ||| (if right ≠ 0 then 0x02 else 0) |||
    (if middle ≠ 0 then 0x04 else 0)

/-- The first part of `alps_process_touchpad_packet_v3_v5` (alps.cpp, lines
690-719): the fields are cleared and decoded from `packet`, and the block
`if (priv.multi_packet) { ... }` merges a pending position packet with a
bitmap packet or drops the pending sequence. Returns `priv`, the fields `f`
and the local variable `fingers`, whose value is `fingers0` where the source
has not assigned it. -/
def v3_v5_merge (decode_fields : alps_data → alps_fields → (Nat → Nat) → alps_fields)
    (priv : alps_data) (fingers0 : Int) (packet : Nat → Nat) :
    alps_data × alps_fields × Int :=
  let f1 := decode_fields priv {} packet
  if priv.multi_packet ≠ 0 then
    if f1.is_mp ≠ 0 then
      let r := processBitmap priv (decode_fields priv f1 priv.multi_data)
      (r.1, r.2.1, if r.2.2 = 0 then 0 else f1.fingers)
    else ({ priv with multi_packet := 0 }, f1, fingers0)
  else (priv, f1, fingers0)

/-- The second part of `alps_process_touchpad_packet_v3_v5` (alps.cpp, lines
721-779), from the test `if (f.is_mp) return;` to the call of
`dispatchEventsWithInfo`. -/
def v3_v5_finish (priv1 : alps_data) (f : alps_fields) (fingers last_fingers : Int)
    (packet : Nat → Nat) : alps_data × List Event :=
  if f.is_mp ≠ 0 then (priv1, [])
  else if priv1.multi_packet = 0 ∧ f.first_mp ≠ 0 then
    ({ priv1 with multi_packet := 1,
                  multi_data := memcpy_multi_data priv1.multi_data packet }, [])
  else
    let priv2 : alps_data := { priv1 with multi_packet := 0 }
    let mt1 : Nat → input_mt_pos :=
      if fingers < 2 then Function.update f.mt 0 f.st else f.mt
    let fingers1 : Int := if fingers < 2 then (if f.pressure > 0 then 1 else 0) else fingers
    let priv3 : alps_data := if fingers < 2 then { priv2 with second_touch := -1 } else priv2
    let buttons0 := buttonMask f.left f.right f.middle
    let buttons :=
      if priv3.flags &&& ALPS_DUALPOINT ≠ 0 ∧
          priv3.quirks &&& ALPS_QUIRK_TRACKSTICK_BUTTONS = 0 then
        buttons0 ||| buttonMask f.ts_left f.ts_right f.ts_middle
      else buttons0
    let mt0y := priv3.y_max - (mt1 0).y
    let mt1y := priv3.y_max - (mt1 1).y
    let fingers2 := if last_fingers = 2 ∧ fingers1 = 1 then last_fingers else fingers1
    (priv3, [Event.eventsWithInfo (mt1 0).x mt0y (mt1 1).x mt1y f.pressure fingers2 buttons])

/-- Function `alps_process_touchpad_packet_v3_v5(packet)` (alps.cpp, lines
685-779). `decode_fields` is the member function pointer of that name,
`last_fingers` the driver field, and `fingers0` the value of the local variable
`fingers`, which is declared without an initialiser (`int fingers, buttons = 0;`)
and is read before any assignment when no bitmap packet is being merged.
Returns the updated `priv` and the events dispatched. -/
def alps_process_touchpad_packet_v3_v5
    (decode_fields : alps_data → alps_fields → (Nat → Nat) → alps_fields)
    (priv : alps_data) (last_fingers fingers0 : Int) (packet : Nat → Nat) :
    alps_data × List Event :=
  let merged := v3_v5_merge decode_fields priv fingers0 packet
  v3_v5_finish merged.1 merged.2.1 merged.2.2 last_fingers packet

/-- The value that `processPacketV4` assigns to `f.x_map` (alps.cpp, lines
885-888), as a function of the array `priv.multi_data`. -/
def v4_x_map (multi_data : Nat → Nat) : Nat :=
  ((multi_data 2 &&& 0x1f) <<< 10) ||| ((multi_data 3 &&& 0x60) <<< 3) |||
    ((multi_data 0 &&& 0x3f) <<< 2) ||| ((multi_data 1 &&& 0x60) >>> 5)

/-- The value that `processPacketV4` assigns to `f.y_map` (alps.cpp, lines
889-891), as a function of the array `priv.multi_data`. -/
def v4_y_map (multi_data : Nat → Nat) : Nat :=
  ((multi_data 5 &&& 0x01) <<< 10) ||| ((multi_data 3 &&& 0x1f) <<< 5) |||
    (multi_data 1 &&& 0x1f)

/-- Function `processPacketV4(packet)` (alps.cpp, lines 852-903). The local
`struct alps_fields f` is not initialised by the source; every member that is
read afterwards is assigned first, so the model starts from the default value.
The offsets into `priv.multi_data` are converted to natural numbers. -/
def processPacketV4 (priv : alps_data) (packet : Nat → Nat) : alps_data × List Event :=
  let priv1 : alps_data :=
    if packet 6 &&& 0x40 ≠ 0 then { priv with multi_packet := 0 } else priv
  if priv1.multi_packet > 2 then (priv1, [])
  else
    let offset : Int := 2 * priv1.multi_packet
    let md1 := Function.update priv1.multi_data offset.toNat (packet 6)
    let md2 := Function.update md1 (offset + 1).toNat (packet 7)
    let f : alps_fields :=
      { left := packet 4 &&& 0x01
        right := packet 4 &&& 0x02
        st :=
          { x := ((((packet 1 &&& 0x7f) <<< 4) ||| ((packet 3 &&& 0x30) >>> 2) |||
              ((packet 0 &&& 0x30) >>> 4) : Nat) : Int)
            y := ((((packet 2 &&& 0x7f) <<< 4) ||| (packet 3 &&& 0x0f) : Nat) : Int) }
        pressure := ((packet 5 &&& 0x7f : Nat) : Int) }
    let priv2 : alps_data :=
      { priv1 with multi_data := md2, multi_packet := priv1.multi_packet + 1 }
    let done : alps_data × Int :=
      if priv2.multi_packet > 2 then
        let f1 : alps_fields := { f with x_map := v4_x_map md2, y_map := v4_y_map md2 }
        let r := processBitmap { priv2 with multi_packet := 0 } f1
        (r.1, r.2.2)
      else (priv2, 0)
    let buttons := (if f.left ≠ 0 then 0x01 else 0) ||| (if f.right ≠ 0 then 0x02 else 0)
    (done.1, [Event.eventsWithInfo f.st.x f.st.y 0 0 f.pressure done.2 buttons])

/-- The packet identifiers `SS4_PACKET_ID_*` returned by
`alps_get_pkt_id_ss4_v2`. -/
inductive SS4PacketId where
  | SS4_PACKET_ID_IDLE
  | SS4_PACKET_ID_ONE
  | SS4_PACKET_ID_TWO
  | SS4_PACKET_ID_MULTI
  | SS4_PACKET_ID_STICK
  deriving DecidableEq, Repr

open SS4PacketId

/-- Function `alps_get_pkt_id_ss4_v2(byte)` (alps.cpp, lines 1110-1139). -/
def alps_get_pkt_id_ss4_v2 (byte : Nat → Nat) : SS4PacketId :=
  if byte 3 &&& 0x30 = 0x00 then
    if byte 0 = 0x18 ∧ byte 1 = 0x10 ∧ byte 2 = 0x00 ∧ byte 3 &&& 0x88 = 0x08 ∧
        byte 4 = 0x10 ∧ byte 5 = 0x00 then SS4_PACKET_ID_IDLE
    else SS4_PACKET_ID_ONE
  else if byte 3 &&& 0x30 = 0x10 then SS4_PACKET_ID_TWO
  else if byte 3 &&& 0x30 = 0x20 then SS4_PACKET_ID_STICK
  else if byte 3 &&& 0x30 = 0x30 then SS4_PACKET_ID_MULTI
  else SS4_PACKET_ID_IDLE

/-- The field-extraction macros and constants of the SS4 (V8) protocol used by
`alps_decode_ss4_v2`. They are defined in `alps.h`, which is not among the
sources, and are therefore parameters of the model: each macro is a function
of the packet (and of the contact index where the macro takes one) that
extracts an unsigned bit field. -/
structure SS4Macros where
  SS4_1F_X_V2 : (Nat → Nat) → Nat
  SS4_1F_Y_V2 : (Nat → Nat) → Nat
  SS4_1F_Z_V2 : (Nat → Nat) → Nat
  SS4_BTL_MF_X_V2 : (Nat → Nat) → Nat → Nat
  SS4_BTL_MF_Y_V2 : (Nat → Nat) → Nat → Nat
  SS4_STD_MF_X_V2 : (Nat → Nat) → Nat → Nat
  SS4_STD_MF_Y_V2 : (Nat → Nat) → Nat → Nat
  SS4_MF_Z_V2 : (Nat → Nat) → Nat → Nat
  SS4_IS_MF_CONTINUE : (Nat → Nat) → Bool
  SS4_IS_5F_DETECTED : (Nat → Nat) → Bool
  SS4_BTN_V2 : (Nat → Nat) → Nat
  SS4_MFPACKET_NO_AX : Nat
  SS4_MFPACKET_NO_AY : Nat
  SS4_MFPACKET_NO_AX_BL : Nat
  SS4_MFPACKET_NO_AY_BL : Nat

/-- The macro `abs(x)` of alps.cpp. -/
def c_abs (x : Int) : Int := if x < 0 then -x else x

/-- The `switch (pkt_id)` of `alps_decode_ss4_v2`: the fields after the case
for `pkt_id` and the events dispatched by it. -/
def ss4_decode_switch (m : SS4Macros) (priv : alps_data) (f : alps_fields) (p : Nat → Nat)
    (pkt_id : SS4PacketId) : alps_fields × List Event :=
  match pkt_id with
  | SS4_PACKET_ID_ONE =>
    let f1 : alps_fields :=
      { f with
        mt := Function.update f.mt 0 { x := m.SS4_1F_X_V2 p, y := m.SS4_1F_Y_V2 p }
        pressure := (((m.SS4_1F_Z_V2 p * 2) &&& 0x7f : Nat) : Int) }
    ({ f1 with fingers := if f1.pressure > 0 then 1 else 0, first_mp := 0, is_mp := 0 }, [])
  | SS4_PACKET_ID_TWO =>
    let mt1 : Nat → input_mt_pos :=
      if priv.flags &&& ALPS_BUTTONPAD ≠ 0 then
        Function.update
          (Function.update f.mt 0
            { x := m.SS4_BTL_MF_X_V2 p 0, y := m.SS4_BTL_MF_Y_V2 p 0 })
          1 { x := m.SS4_BTL_MF_X_V2 p 1, y := m.SS4_BTL_MF_Y_V2 p 1 }
      else
        Function.update
          (Function.update f.mt 0
            { x := m.SS4_STD_MF_X_V2 p 0, y := m.SS4_STD_MF_Y_V2 p 0 })
          1 { x := m.SS4_STD_MF_X_V2 p 1, y := m.SS4_STD_MF_Y_V2 p 1 }
    let f1 : alps_fields :=
      { f with mt := mt1, pressure := if m.SS4_MF_Z_V2 p 0 ≠ 0 then 0x30 else 0 }
    let f2 : alps_fields :=
      if m.SS4_IS_MF_CONTINUE p then { f1 with first_mp := 1 }
      else { f1 with fingers := 2, first_mp := 0 }
    ({ f2 with is_mp := 0 }, [])
  | SS4_PACKET_ID_MULTI =>
    let bl : Bool := priv.flags &&& ALPS_BUTTONPAD ≠ 0
    let mt1 : Nat → input_mt_pos :=
      if bl then
        Function.update
          (Function.update f.mt 2
            { x := m.SS4_BTL_MF_X_V2 p 0, y := m.SS4_BTL_MF_Y_V2 p 0 })
          3 { x := m.SS4_BTL_MF_X_V2 p 1, y := m.SS4_BTL_MF_Y_V2 p 1 }
      else
        Function.update
          (Function.update f.mt 2
            { x := m.SS4_STD_MF_X_V2 p 0, y := m.SS4_STD_MF_Y_V2 p 0 })
          3 { x := m.SS4_STD_MF_X_V2 p 1, y := m.SS4_STD_MF_Y_V2 p 1 }
    let no_data_x : Nat := if bl then m.SS4_MFPACKET_NO_AX_BL else m.SS4_MFPACKET_NO_AX
    let no_data_y : Nat := if bl then m.SS4_MFPACKET_NO_AY_BL else m.SS4_MFPACKET_NO_AY
    let f1 : alps_fields := { f with mt := mt1, first_mp := 0, is_mp := 1 }
    if m.SS4_IS_5F_DETECTED p then ({ f1 with fingers := 5 }, [])
    else if (f1.mt 3).x = (no_data_x : Int) ∧ (f1.mt 3).y = (no_data_y : Int) then
      ({ f1 with mt := Function.update f1.mt 3 { x := 0, y := 0 }, fingers := 3 }, [])
    else ({ f1 with fingers := 4 }, [])
  | SS4_PACKET_ID_STICK =>
    if priv.flags &&& ALPS_DUALPOINT = 0 then (f, [])
    else
      let x : Int := ((((p 0 &&& 1) <<< 7) ||| (p 1 &&& 0x7f) : Nat) : Int)
      let y : Int := ((((p 3 &&& 1) <<< 7) ||| (p 2 &&& 0x7f) : Nat) : Int)
      let jump : Bool := c_abs x ≥ 0x7f ∧ c_abs y ≥ 0x7f
      (f, [Event.relativePointer (if jump then 0 else x) (if jump then 0 else y) 0])
  | SS4_PACKET_ID_IDLE => ({}, [])

/-- Function `alps_decode_ss4_v2(f, p)` (alps.cpp, lines 1141-1260): the
`switch` on the packet identifier followed by the button handling. Returns the
decoded fields and the events dispatched while decoding. -/
def alps_decode_ss4_v2 (m : SS4Macros) (priv : alps_data) (f : alps_fields) (p : Nat → Nat) :
    alps_fields × List Event :=
  let pkt_id := alps_get_pkt_id_ss4_v2 p
  let r := ss4_decode_switch m priv f p pkt_id
  let f1 := r.1
  let f2 : alps_fields :=
    if pkt_id = SS4_PACKET_ID_STICK then
      let g : alps_fields := { f1 with ts_left := notnot (m.SS4_BTN_V2 p &&& 0x01) }
      if priv.flags &&& ALPS_BUTTONPAD = 0 then
        { g with ts_right := notnot (m.SS4_BTN_V2 p &&& 0x02),
                 ts_middle := notnot (m.SS4_BTN_V2 p &&& 0x04) }
      else g
    else
      let g : alps_fields := { f1 with left := notnot (m.SS4_BTN_V2 p &&& 0x01) }
      if priv.flags &&& ALPS_BUTTONPAD = 0 then
        { g with right := notnot (m.SS4_BTN_V2 p &&& 0x02),
                 middle := notnot (m.SS4_BTN_V2 p &&& 0x04) }
      else g
  (f2, r.2)

/-- Function `alps_process_packet_ss4_v2(packet)` (alps.cpp, lines 1262-1311),
with `decode_fields` bound to `alps_decode_ss4_v2` as `set_protocol` does for
V8. Returns the updated `priv` and the events dispatched, those of
`decode_fields` included, in order. -/
def alps_process_packet_ss4_v2 (m : SS4Macros) (priv : alps_data) (packet : Nat → Nat) :
    alps_data × List Event :=
  let d1 := alps_decode_ss4_v2 m priv {} packet
  let merged : alps_data × alps_fields × List Event :=
    if priv.multi_packet ≠ 0 then
      if d1.1.is_mp ≠ 0 then
        let d2 := alps_decode_ss4_v2 m priv d1.1 priv.multi_data
        (priv, d2.1, d1.2 ++ d2.2)
      else ({ priv with multi_packet := 0 }, d1.1, d1.2)
    else (priv, d1.1, d1.2)
  let priv1 := merged.1
  let f := merged.2.1
  let evs := merged.2.2
  if f.is_mp ≠ 0 then (priv1, evs)
  else if priv1.multi_packet = 0 ∧ f.first_mp ≠ 0 then
    ({ priv1 with multi_packet := 1,
                  multi_data := memcpy_multi_data priv1.multi_data packet }, evs)
  else
    let buttons0 := buttonMask f.left f.right f.middle
    let buttons :=
      if priv1.flags &&& ALPS_DUALPOINT ≠ 0 then
        buttons0 ||| buttonMask f.ts_left f.ts_right f.ts_middle
      else buttons0
    ({ priv1 with multi_packet := 0 },
      evs ++ [Event.eventsWithInfo (f.mt 0).x (f.mt 0).y (f.mt 1).x (f.mt 1).y f.pressure
        f.fingers buttons])

set_option linter.unusedVariables false in
/-- Function `processPacketV1V2(packet)` (alps.cpp, lines 260-366), with the
driver field `touchmode` passed and returned next to `priv`. The variables
`back` and `forward`, and the values given to `left`, `right` and `middle` by
the `ALPS_STICK_BITS` block, are not read again by the source. -/
def processPacketV1V2 (priv : alps_data) (touchmode : Int) (packet : Nat → Nat) :
    alps_data × Int × List Event :=
  let v1 : Bool := priv.proto_version = ALPS_PROTO_V1
  let left0 : Nat := if v1 then packet 2 &&& 0x10 else packet 3 &&& 1
  let right0 : Nat := if v1 then packet 2 &&& 0x08 else packet 3 &&& 2
  let middle0 : Nat := if v1 then 0 else packet 3 &&& 4
  let x : Int :=
    if v1 then ((packet 1 ||| ((packet 0 &&& 0x07) <<< 7) : Nat) : Int)
    else ((packet 1 ||| ((packet 2 &&& 0x78) <<< (7 - 3)) : Nat) : Int)
  let y : Int :=
    if v1 then ((packet 4 ||| ((packet 3 &&& 0x07) <<< 7) : Nat) : Int)
    else ((packet 4 ||| ((packet 3 &&& 0x70) <<< (7 - 4)) : Nat) : Int)
  let z0 : Int := (packet 5 : Int)
  let back1 : Nat := if priv.flags &&& ALPS_FW_BK_1 ≠ 0 then packet 0 &&& 0x10 else 0
  let forward1 : Nat := if priv.flags &&& ALPS_FW_BK_1 ≠ 0 then packet 2 &&& 4 else 0
  let bk2 : Bool := priv.flags &&& ALPS_FW_BK_2 ≠ 0
  let middle1 : Nat :=
    if bk2 then (if packet 2 &&& 4 ≠ 0 ∧ packet 3 &&& 4 ≠ 0 then 1 else 0) else middle0
  let back2 : Nat := if bk2 then (if middle1 ≠ 0 then 0 else packet 3 &&& 4) else back1
  let forward2 : Nat := if bk2 then (if middle1 ≠ 0 then 0 else packet 2 &&& 4) else forward1
  let ges : Nat := packet 2 &&& 1
  let fin : Nat := packet 2 &&& 2
  let buttons : Nat := buttonMask left0 right0 middle1
  if priv.flags &&& ALPS_DUALPOINT ≠ 0 ∧ z0 = 127 then
    let dx : Int := if x > 383 then x - 768 else x
    let dy : Int := -(if y > 255 then y - 512 else y)
    (priv, touchmode, [Event.relativePointer dx dy buttons])
  else
    let stick : Bool := priv.flags &&& ALPS_STICK_BITS ≠ 0
    let left1 : Nat := if stick then left0 ||| (packet 0 &&& 1) else left0
    let right1 : Nat := if stick then right0 ||| (packet 0 &&& 2) else right0
    let middle2 : Nat := if stick then middle1 ||| (packet 0 &&& 4) else middle1
    let z : Int := if ges ≠ 0 ∧ fin = 0 then 40 else z0
    let touchmode1 : Int :=
      if ges ≠ 0 ∧ fin ≠ 0 ∧ priv.prev_fin = 0 then MODE_DRAG else touchmode
    let priv1 : alps_data := { priv with prev_fin := (fin : Int) }
    let fingers0 : Int := if z > 30 then 1 else 0
    let fingers : Int := if z < 25 then 0 else fingers0
    let ev := Event.eventsWithInfo x y 0 0 z fingers buttons
    let scrollAmount : Int :=
      ((((packet 2 <<< 1) &&& 0x08 : Nat) : Int)) - ((((packet 0 >>> 4) &&& 0x07 : Nat) : Int))
    if priv.flags &&& ALPS_WHEEL ≠ 0 ∧ scrollAmount ≠ 0 then
      (priv1, touchmode1, [ev, Event.scrollWheel scrollAmount 0 0])
    else (priv1, touchmode1, [ev])

/-! ## Notions used to state the properties of the decoders -/

/-- The array `corner` of `processBitmap` as it stands when the closest corner
is searched: the four bounding-box corners, scaled into device coordinates,
after the axis reversals for V5 (x) and for V3 and V4 (y). -/
def bitmapCorners (priv : alps_data) (fields : alps_fields) : Nat → input_mt_pos :=
  let sx := alps_get_bitmap_points fields.x_map {} {} 0
  let sy := alps_get_bitmap_points fields.y_map {} {} 0
  let px := splitSingle sx.fingers sx.low sx.high
  let py := splitSingle sy.fingers sy.low sy.high
  let c0 : input_mt_pos :=
    { x := cornerCoord priv.x_max priv.x_bits px.1,
      y := cornerCoord priv.y_max priv.y_bits py.1 }
  let c1 : input_mt_pos :=
    { x := cornerCoord priv.x_max priv.x_bits px.2,
      y := cornerCoord priv.y_max priv.y_bits py.1 }
  let c2 : input_mt_pos :=
    { x := cornerCoord priv.x_max priv.x_bits px.2,
      y := cornerCoord priv.y_max priv.y_bits py.2 }
  let c3 : input_mt_pos :=
    { x := cornerCoord priv.x_max priv.x_bits px.1,
      y := cornerCoord priv.y_max priv.y_bits py.2 }
  let corner0 : Nat → input_mt_pos := fun i =>
    match i with
    | 0 => c0
    | 1 => c1
    | 2 => c2
    | _ => c3
  let corner1 : Nat → input_mt_pos :=
    if priv.proto_version = ALPS_PROTO_V5 then
      fun i => { corner0 i with x := priv.x_max - (corner0 i).x }
    else corner0
  if priv.proto_version = ALPS_PROTO_V3 ∨ priv.proto_version = ALPS_PROTO_V4 then
    fun i => { corner1 i with y := priv.y_max - (corner1 i).y }
  else corner1

/-- The squared Euclidean distance between two points. -/
def sqDist (a b : input_mt_pos) : Int :=
  (a.x - b.x) * (a.x - b.x) + (a.y - b.y) * (a.y - b.y)

/-- The axis reversals that `processBitmap` applies to a corner: x is mirrored
on V5, y is mirrored on V3 and V4. -/
def reverseAxes (priv : alps_data) (c : input_mt_pos) : input_mt_pos :=
  { x := if priv.proto_version = ALPS_PROTO_V5 then priv.x_max - c.x else c.x
    y := if priv.proto_version = ALPS_PROTO_V3 ∨ priv.proto_version = ALPS_PROTO_V4 then
        priv.y_max - c.y else c.y }

/-- A sequence of calls of `processBitmap`, one per element of `fs`, each call
starting from the `priv` left by the previous one; returns the final `priv`. -/
def processBitmapSeq (priv : alps_data) (fs : List alps_fields) : alps_data :=
  fs.foldl (fun p f => (processBitmap p f).1) priv

/-- The value of `priv->second_touch` after the block
`if (priv->second_touch == -1) { ... }` of `processBitmap`: a committed index
is kept; otherwise the corner closest to the single-touch point is searched
and the opposite index is taken. -/
def committedCorner (priv : alps_data) (fields : alps_fields) : Int :=
  if priv.second_touch = -1 then
    (([0, 1, 2, 3].foldl (closestStep fields.st (bitmapCorners priv fields))
      (priv.second_touch, 0x7fffffff)).1 + 2).tmod 4
  else priv.second_touch

/-- The packet whose bytes are the elements of `bs` (bytes beyond the list
read as 0). -/
def packetOf (bs : List Nat) : Nat → Nat := fun i => bs.getD i 0

/-- A sample valuation of the SS4 macros, used to instantiate statements about
`alps_process_packet_ss4_v2`: the continuation test reads bit 4 of byte 2, and
every other macro extracts 0. -/
def ss4MacrosSample : SS4Macros :=
  { SS4_1F_X_V2 := fun _ => 0
    SS4_1F_Y_V2 := fun _ => 0
    SS4_1F_Z_V2 := fun _ => 0
    SS4_BTL_MF_X_V2 := fun _ _ => 0
    SS4_BTL_MF_Y_V2 := fun _ _ => 0
    SS4_STD_MF_X_V2 := fun _ _ => 0
    SS4_STD_MF_Y_V2 := fun _ _ => 0
    SS4_MF_Z_V2 := fun _ _ => 0
    SS4_IS_MF_CONTINUE := fun b => b 2 &&& 0x10 = 0x10
    SS4_IS_5F_DETECTED := fun _ => false
    SS4_BTN_V2 := fun _ => 0
    SS4_MFPACKET_NO_AX := 0
    SS4_MFPACKET_NO_AY := 0
    SS4_MFPACKET_NO_AX_BL := 0
    SS4_MFPACKET_NO_AY_BL := 0 }

/-! ## Trackstick packets and the V7 decoder -/

/-- The conversion `(SInt8) e` applied to a non-negative `int` value: the low
8 bits of `e` read as a two's-complement number. -/
def SInt8 (e : Nat) : Int :=
  if e % 256 < 128 then ((e % 256 : Nat) : Int) else ((e % 256 : Nat) : Int) - 256

/-- Function `processTrackstickPacketV3(packet)` (alps.cpp, lines 510-591),
with the driver field `lastbuttons` passed and returned next to `priv`. The
division `x /= 3` of `int` truncates towards zero. The variable `z` is not
read by the source. -/
def processTrackstickPacketV3 (priv : alps_data) (lastbuttons : Nat) (packet : Nat → Nat) :
    alps_data × Nat × List Event :=
  if priv.flags &&& ALPS_DUALPOINT = 0 then (priv, lastbuttons, [])
  else if packet 0 &&& 0x40 = 0 then (priv, lastbuttons, [])
  else if packet 1 = 0x7f ∧ packet 2 = 0x7f ∧ packet 3 = 0x7f then (priv, lastbuttons, [])
  else
    let x0 : Int := SInt8 (((packet 0 &&& 0x20) <<< 2) ||| (packet 1 &&& 0x7f))
    let y0 : Int := SInt8 (((packet 0 &&& 0x10) <<< 3) ||| (packet 2 &&& 0x7f))
    let x1 : Int := if c_abs x0 ≥ 0x7f ∧ c_abs y0 ≥ 0x7f then 0 else x0
    let y1 : Int := if c_abs x0 ≥ 0x7f ∧ c_abs y0 ≥ 0x7f then 0 else y0
    let x : Int := Int.tdiv x1 3
    let y : Int := -(Int.tdiv y1 3)
    let left : Nat := packet 3 &&& 0x01
    let right : Nat := packet 3 &&& 0x02
    let middle : Nat := packet 3 &&& 0x04
    let quirks1 : Nat :=
      if priv.quirks &&& ALPS_QUIRK_TRACKSTICK_BUTTONS = 0 ∧
          (left ≠ 0 ∨ middle ≠ 0 ∨ right ≠ 0) then
        priv.quirks ||| ALPS_QUIRK_TRACKSTICK_BUTTONS
      else priv.quirks
    let raw_buttons : Nat :=
      if quirks1 &&& ALPS_QUIRK_TRACKSTICK_BUTTONS ≠ 0 then buttonMask left right middle
      else 0
    let buttons : Nat := if raw_buttons = 0 then lastbuttons else raw_buttons
    let lastbuttons1 : Nat := if raw_buttons = 0 then lastbuttons else raw_buttons
    let priv1 : alps_data := { priv with quirks := quirks1 }
    if buttons &&& 0x04 = 0 then (priv1, lastbuttons1, [Event.relativePointer x y buttons])
    else (priv1, lastbuttons1, [Event.scrollWheel (-y) (-x) 0])

/-- Function `processPacketV3(packet)` (alps.cpp, lines 780-794): a packet
whose last byte is `0x3f` goes to `processTrackstickPacketV3`, any other to
`alps_process_touchpad_packet_v3_v5`. -/
def processPacketV3
    (decode_fields : alps_data → alps_fields → (Nat → Nat) → alps_fields)
    (priv : alps_data) (lastbuttons : Nat) (last_fingers fingers0 : Int)
    (packet : Nat → Nat) : alps_data × Nat × List Event :=
  if packet 5 = 0x3f then processTrackstickPacketV3 priv lastbuttons packet
  else
    let r := alps_process_touchpad_packet_v3_v5 decode_fields priv last_fingers fingers0 packet
    (r.1, lastbuttons, r.2)

/-- The packet identifiers `V7_PACKET_ID_*` returned by
`alps_get_packet_id_v7`. -/
inductive V7PacketId where
  | V7_PACKET_ID_IDLE
  | V7_PACKET_ID_TWO
  | V7_PACKET_ID_MULTI
  | V7_PACKET_ID_NEW
  | V7_PACKET_ID_UNKNOWN
  deriving DecidableEq, Repr

open V7PacketId

/-- Function `alps_get_packet_id_v7(byte)` (alps.cpp, lines 905-921). -/
def alps_get_packet_id_v7 (byte : Nat → Nat) : V7PacketId :=
  if byte 4 &&& 0x40 ≠ 0 then V7_PACKET_ID_TWO
  else if byte 4 &&& 0x01 ≠ 0 then V7_PACKET_ID_MULTI
  else if byte 0 &&& 0x10 ≠ 0 ∧ byte 4 &&& 0x43 = 0 then V7_PACKET_ID_NEW
  else if byte 1 = 0x00 ∧ byte 4 = 0x00 then V7_PACKET_ID_IDLE
  else V7_PACKET_ID_UNKNOWN

/-- Modelled from the spec: the constant `MAX_TOUCHES` is defined in `alps.h`,
which is not among the sources; the decoded fields hold up to four multi-touch
points. -/
def MAX_TOUCHES : Nat := 4

/-- The value of `mt[0].x` assembled by `alps_get_finger_coordinate_v7`
(alps.cpp, lines 927-930). -/
def v7_mt0_x (pkt : Nat → Nat) : Nat :=
  ((pkt 2 &&& 0x80) <<< 4) ||| ((pkt 2 &&& 0x3F) <<< 5) ||| ((pkt 3 &&& 0x30) >>> 1) |||
    (pkt 3 &&& 0x07)

/-- The value of `mt[0].y` assembled by `alps_get_finger_coordinate_v7`
(alps.cpp, line 931). -/
def v7_mt0_y (pkt : Nat → Nat) : Nat := (pkt 1 <<< 3) ||| (pkt 0 &&& 0x07)

/-- The value of `mt[1].x` assembled by `alps_get_finger_coordinate_v7` before
the `switch` (alps.cpp, lines 933-935). -/
def v7_mt1_x (pkt : Nat → Nat) : Nat :=
  ((pkt 3 &&& 0x80) <<< 4) ||| ((pkt 4 &&& 0x80) <<< 3) ||| ((pkt 4 &&& 0x3F) <<< 4)

/-- The value of `mt[1].y` assembled by `alps_get_finger_coordinate_v7` before
the `switch` (alps.cpp, lines 936-937). -/
def v7_mt1_y (pkt : Nat → Nat) : Nat := ((pkt 5 &&& 0x80) <<< 3) ||| ((pkt 5 &&& 0x3F) <<< 4)

/-- In the case `V7_PACKET_ID_TWO`, the value of `mt[1].x` after
`mt[1].x &= ~0x000F` (alps.cpp, line 941), at the point where the test for a
false-positive touch reads it. The mask `~0x000F` is written as a 32-bit
pattern. -/
def v7_two_x1 (pkt : Nat → Nat) : Nat := v7_mt1_x pkt &&& 0xFFFFFFF0

/-- In the case `V7_PACKET_ID_TWO`, the value of `mt[1].y` after
`mt[1].y |= 0x000F` (alps.cpp, line 942), before the inversion
`mt[1].y = 0x7FF - mt[1].y`. -/
def v7_two_y1 (pkt : Nat → Nat) : Nat := v7_mt1_y pkt ||| 0x000F

/-- Function `alps_get_finger_coordinate_v7(mt, pkt, pkt_id)` (alps.cpp, lines
923-965). The pair `x1y1` holds `mt[1].x` and `mt[1].y` after the `switch`,
which has no case for the identifiers `IDLE` and `UNKNOWN`. -/
def alps_get_finger_coordinate_v7 (mt : Nat → input_mt_pos) (pkt : Nat → Nat)
    (pkt_id : V7PacketId) : Nat → input_mt_pos :=
  let x1y1 : Nat × Nat :=
    match pkt_id with
    | V7_PACKET_ID_TWO =>
      (if v7_two_y1 pkt = 0x7ff ∧ v7_two_x1 pkt = 0xff0 then 0 else v7_two_x1 pkt,
        v7_two_y1 pkt)
    | V7_PACKET_ID_MULTI =>
      (v7_mt1_x pkt &&& 0xFFFFFFC0,
        ((v7_mt1_y pkt &&& 0xFFFFFFDF) ||| ((pkt 4 &&& 0x02) <<< 4)) ||| 0x001F)
    | V7_PACKET_ID_NEW =>
      ((v7_mt1_x pkt &&& 0xFFFFFFC0) ||| (pkt 0 &&& 0x20), v7_mt1_y pkt ||| 0x000F)
    | _ => (v7_mt1_x pkt, v7_mt1_y pkt)
  Function.update
    (Function.update mt 0 { x := (v7_mt0_x pkt : Int), y := 0x7FF - (v7_mt0_y pkt : Int) })
    1 { x := (x1y1.1 : Int), y := 0x7FF - (x1y1.2 : Int) }

/-- Function `alps_get_mt_count(mt)` (alps.cpp, lines 967-977): the loop over
`i = 0 .. MAX_TOUCHES - 1` counting the points that are not `(0, 0)`. -/
def alps_get_mt_count (mt : Nat → input_mt_pos) : Int :=
  (List.range MAX_TOUCHES).foldl
    (fun fingers i => if (mt i).x ≠ 0 ∨ (mt i).y ≠ 0 then fingers + 1 else fingers) 0

/-- The button handling of `decodeV7` (alps.cpp, lines 1018-1027): `f->left`
is set, and then either the finger count is raised for the button bits of a
clickpad (`ALPS_BUTTONPAD`) or `f->right` and `f->middle` are set. -/
def decodeV7_buttons (priv : alps_data) (f1 : alps_fields) (p : Nat → Nat) : alps_fields :=
  let g0 : alps_fields := { f1 with left := (p 0 &&& 0x80) >>> 7 }
  if priv.flags &&& ALPS_BUTTONPAD ≠ 0 then
    let g : alps_fields :=
      if p 0 &&& 0x20 ≠ 0 then { g0 with fingers := g0.fingers + 1 } else g0
    if p 0 &&& 0x10 ≠ 0 then { g with fingers := g.fingers + 1 } else g
  else { g0 with right := (p 0 &&& 0x20) >>> 5, middle := (p 0 &&& 0x10) >>> 4 }

/-- The last block of `decodeV7` (alps.cpp, lines 1029-1035): a single touch
reported in `mt[1]` rather than `mt[0]` is moved to `mt[0]`. -/
def decodeV7_single_touch (f2 : alps_fields) : alps_fields :=
  if f2.fingers = 1 ∧ (f2.mt 0).x = 0 ∧ (f2.mt 0).y = 0 then
    { f2 with
      mt := Function.update
        (Function.update f2.mt 0 { x := (f2.mt 1).x, y := (f2.mt 1).y })
        1 { x := 0, y := 0 } }
  else f2

/-- Function `decodeV7(f, p)` (alps.cpp, lines 979-1037); it reads
`priv.flags`. Returns the fields and the `bool` result. -/
def decodeV7 (priv : alps_data) (f : alps_fields) (p : Nat → Nat) : alps_fields × Bool :=
  let pkt_id := alps_get_packet_id_v7 p
  if pkt_id = V7_PACKET_ID_IDLE then (f, true)
  else if pkt_id = V7_PACKET_ID_UNKNOWN then (f, false)
  else if pkt_id = V7_PACKET_ID_NEW then (f, true)
  else
    let mt1 := alps_get_finger_coordinate_v7 f.mt p pkt_id
    let fingers1 : Int :=
      if pkt_id = V7_PACKET_ID_TWO then alps_get_mt_count mt1
      else 3 + ((p 5 &&& 0x03 : Nat) : Int)
    (decodeV7_single_touch
      (decodeV7_buttons priv { f with mt := mt1, fingers := fingers1 } p), true)

/-- Function `processTrackstickPacketV7(packet)` (alps.cpp, lines 1039-1069).
It writes no driver state; the result is the list of events dispatched. The
variable `z` is not read by the source. -/
def processTrackstickPacketV7 (priv : alps_data) (packet : Nat → Nat) : List Event :=
  if priv.flags &&& ALPS_DUALPOINT = 0 then []
  else
    let x0 : Int := (((packet 2 &&& 0xbf) ||| ((packet 3 &&& 0x10) <<< 2) : Nat) : Int)
    let y0 : Int :=
      (((packet 3 &&& 0x07) ||| (packet 4 &&& 0xb8) ||| ((packet 3 &&& 0x20) <<< 1) : Nat) : Int)
    let x : Int := if c_abs x0 ≥ 0x7f ∧ c_abs y0 ≥ 0x7f then 0 else x0
    let y : Int := if c_abs x0 ≥ 0x7f ∧ c_abs y0 ≥ 0x7f then 0 else y0
    let left : Nat := packet 1 &&& 0x01
    let right : Nat := (packet 1 &&& 0x02) >>> 1
    let middle : Nat := (packet 1 &&& 0x04) >>> 2
    [Event.relativePointer x y (buttonMask left right middle)]

/-- Function `processTouchpadPacketV7(packet)` (alps.cpp, lines 1071-1101),
with `decode_fields` bound to `decodeV7` as `set_protocol` does for V7. It
writes no driver state; the result is the list of events dispatched. -/
def processTouchpadPacketV7 (priv : alps_data) (packet : Nat → Nat) : List Event :=
  let d := decodeV7 priv {} packet
  let f := d.1
  if d.2 = false then []
  else
    let buttons0 := buttonMask f.left f.right f.middle
    let buttons :=
      if priv.flags &&& ALPS_DUALPOINT ≠ 0 ∧
          priv.quirks &&& ALPS_QUIRK_TRACKSTICK_BUTTONS = 0 then
        buttons0 ||| buttonMask f.ts_left f.ts_right f.ts_middle
      else buttons0
    let pressure : Int :=
      if f.fingers ≠ 0 ∧ ((f.mt 0).x ≠ 0 ∧ (f.mt 0).y ≠ 0) then 40 else 0
    [Event.eventsWithInfo (f.mt 0).x (f.mt 0).y (f.mt 1).x (f.mt 1).y pressure f.fingers
      buttons]

/-- Function `processPacketV7(packet)` (alps.cpp, lines 1103-1108). -/
def processPacketV7 (priv : alps_data) (packet : Nat → Nat) : List Event :=
  if packet 0 = 0x48 ∧ packet 4 &&& 0x47 = 0x06 then processTrackstickPacketV7 priv packet
  else processTouchpadPacketV7 priv packet

/-! ## Event dispatch state, packet dispatcher and protocol selection -/

/-- The driver fields written by `dispatchEventsWithInfo`. -/
structure DispatchState where
  _xraw1 : Int
  _yraw1 : Int
  _xraw2 : Int
  _yraw2 : Int
  _fingerCount : Int
  _buttonDown : Bool
  deriving DecidableEq, Repr

/-- Function `dispatchEventsWithInfo(xraw1, yraw1, xraw2, yraw2, z, fingers,
buttonsraw)` (alps.cpp, lines 1313-1353); `z_finger` is the driver field of
that name. The divisions by 5 of `int` truncate towards zero. Returns the six
driver fields as stored, and the value that the last statement,
`fingers = z > z_finger ? fingers : 0;`, leaves in the parameter `fingers`
when the function returns. -/
def dispatchEventsWithInfo (z_finger : Int) (xraw1 yraw1 xraw2 yraw2 z fingers : Int)
    (buttonsraw : Nat) : DispatchState × Int :=
  let x1a : Int := Int.tdiv xraw1 5
  let x2a : Int := Int.tdiv xraw2 5
  let y1a : Int := Int.tdiv yraw1 5
  let y2a : Int := Int.tdiv yraw2 5
  let x1b : Int := if x1a = 0 then -1 else x1a
  let x2b : Int := if x2a = 0 then -1 else x2a
  let y1b : Int := if y1a = 0 then -1 else y1a
  let y2b : Int := if y2a = 0 then -1 else y2a
  let x2c : Int := if fingers < 2 then -1 else x2b
  let y2c : Int := if fingers < 2 then -1 else y2b
  let x1d : Int := if fingers < 1 then -1 else x1b
  let x2d : Int := if fingers < 1 then -1 else x2c
  ({ _fingerCount := fingers, _xraw1 := x1d, _yraw1 := y1b, _xraw2 := x2d, _yraw2 := y2c,
     _buttonDown := decide (buttonsraw ≠ 0) },
    if z > z_finger then fingers else 0)

/-- Modelled from the spec: `advanceTail(n)` of the class template
`RingBuffer` moves the consumer position `n` bytes forward around the circular
buffer and retires those `n` bytes. -/
def RingBuffer.advanceTail (r : RingBuffer) (n : Nat) : RingBuffer :=
  { r with tail := (r.tail + n) % ringCapacity, count := r.count - n }

/-- Function `packetReady()` (alps.cpp, lines 1543-1550). `process_packet` is
the member function pointer of that name, acting on the driver state `σ`
outside the ring buffer; `packet = _ringBuffer.tail()` is the memory starting
at `buffer[tail]`. The loop is unrolled at most `fuel` times: the result is
`none` if the loop has not ended by then, otherwise the final ring buffer, the
final driver state and the tail positions at which `process_packet` was
called, in order. -/
def packetReady {σ : Type} (process_packet : σ → (Nat → Nat) → σ) (pktsize : Nat) :
    Nat → RingBuffer → σ → Option (RingBuffer × σ × List Nat)
  | 0, _, _ => none
  | fuel + 1, rb, s =>
    if rb.count ≥ pktsize then
      let packet : Nat → Nat := fun i => rb.buffer (rb.tail + i)
      let s1 := process_packet s packet
      match packetReady process_packet pktsize fuel (rb.advanceTail pktsize) s1 with
      | none => none
      | some r => some (r.1, r.2.1, rb.tail :: r.2.2)
    else some (rb, s, [])

/-- The routines that `set_protocol` stores in the member `hw_init`. -/
inductive HwInitRoutine where
  | hwInitV1V2
  | hwInitV3
  | hwInitRushmoreV3
  | hwInitV4
  | alps_hw_init_dolphin_v1
  | hwInitV7
  | alps_hw_init_ss4_v2
  deriving DecidableEq, Repr

/-- The routines that `set_protocol` stores in the member `process_packet`. -/
inductive ProcessPacketRoutine where
  | processPacketV1V2
  | processPacketV3
  | processPacketV4
  | alps_process_touchpad_packet_v3_v5
  | processPacketV7
  | alps_process_packet_ss4_v2
  deriving DecidableEq, Repr

/-- The routines that `set_protocol` stores in the member `decode_fields`. -/
inductive DecodeFieldsRoutine where
  | decodePinnacle
  | decodeRushmore
  | decodeDolphin
  | decodeV7
  | alps_decode_ss4_v2
  deriving DecidableEq, Repr

/-- The three member function pointers `hw_init`, `process_packet` and
`decode_fields`; `none` stands for a pointer that has not been assigned. -/
structure RoutineTable where
  hw_init : Option HwInitRoutine := none
  process_packet : Option ProcessPacketRoutine := none
  decode_fields : Option DecodeFieldsRoutine := none
  deriving DecidableEq, Repr

/-- The assignments to `hw_init`, `process_packet` and `decode_fields` made by
the `switch (priv.proto_version)` of `set_protocol()` (alps.cpp, lines
2433-2554); a pointer that a case does not assign keeps its value in `old`. -/
def set_protocol_routines (proto_version : ProtoVersion) (old : RoutineTable) : RoutineTable :=
  match proto_version with
  | ALPS_PROTO_V1 | ALPS_PROTO_V2 =>
    { old with hw_init := some HwInitRoutine.hwInitV1V2,
               process_packet := some ProcessPacketRoutine.processPacketV1V2 }
  | ALPS_PROTO_V3 =>
    { hw_init := some HwInitRoutine.hwInitV3,
      process_packet := some ProcessPacketRoutine.processPacketV3,
      decode_fields := some DecodeFieldsRoutine.decodePinnacle }
  | ALPS_PROTO_V3_RUSHMORE =>
    { hw_init := some HwInitRoutine.hwInitRushmoreV3,
      process_packet := some ProcessPacketRoutine.processPacketV3,
      decode_fields := some DecodeFieldsRoutine.decodeRushmore }
  | ALPS_PROTO_V4 =>
    { old with hw_init := some HwInitRoutine.hwInitV4,
               process_packet := some ProcessPacketRoutine.processPacketV4 }
  | ALPS_PROTO_V5 =>
    { hw_init := some HwInitRoutine.alps_hw_init_dolphin_v1,
      process_packet := some ProcessPacketRoutine.alps_process_touchpad_packet_v3_v5,
      decode_fields := some DecodeFieldsRoutine.decodeDolphin }
  | ALPS_PROTO_V7 =>
    { hw_init := some HwInitRoutine.hwInitV7,
      process_packet := some ProcessPacketRoutine.processPacketV7,
      decode_fields := some DecodeFieldsRoutine.decodeV7 }
  | ALPS_PROTO_V8 =>
    { hw_init := some HwInitRoutine.alps_hw_init_ss4_v2,
      process_packet := some ProcessPacketRoutine.alps_process_packet_ss4_v2,
      decode_fields := some DecodeFieldsRoutine.alps_decode_ss4_v2 }

/-- Whether a packet routine calls through the pointer `decode_fields`
(`(this->*decode_fields)(...)`), itself or in a routine it calls:
`alps_process_touchpad_packet_v3_v5` (lines 692, 712), reached also from
`processPacketV3`; `processTouchpadPacketV7` (line 1078), reached from
`processPacketV7`; `alps_process_packet_ss4_v2` (lines 1267, 1277).
`processPacketV1V2` and `processPacketV4` contain no such call. -/
def ProcessPacketRoutine.callsDecodeFields : ProcessPacketRoutine → Bool
  | ProcessPacketRoutine.processPacketV1V2 => false
  | ProcessPacketRoutine.processPacketV3 => true
  | ProcessPacketRoutine.processPacketV4 => false
  | ProcessPacketRoutine.alps_process_touchpad_packet_v3_v5 => true
  | ProcessPacketRoutine.processPacketV7 => true
  | ProcessPacketRoutine.alps_process_packet_ss4_v2 => true

/-- The driver state read or written by the packet routines: `priv` and the
fields `touchmode`, `lastbuttons` and `last_fingers`. -/
structure DriverState where
  priv : alps_data
  touchmode : Int := 0
  lastbuttons : Nat := 0
  last_fingers : Int := 0

/-- The call `(this->*process_packet)(packet)` made by `packetReady`, with
`process_packet` and `decode_fields` as `set_protocol` assigns them for
`priv.proto_version`. `m` gives the SS4 macros and `fingers0` the value of the
uninitialised local of `alps_process_touchpad_packet_v3_v5`. Returns the new
driver state and the events dispatched by the call, in order. -/
def process_packet (m : SS4Macros) (fingers0 : Int) (s : DriverState) (packet : Nat → Nat) :
    DriverState × List Event :=
  match s.priv.proto_version with
  | ALPS_PROTO_V1 | ALPS_PROTO_V2 =>
    let r := processPacketV1V2 s.priv s.touchmode packet
    ({ s with priv := r.1, touchmode := r.2.1 }, r.2.2)
  | ALPS_PROTO_V3 | ALPS_PROTO_V3_RUSHMORE =>
    let r := processPacketV3 decode_fields_v3_v5 s.priv s.lastbuttons s.last_fingers fingers0
      packet
    ({ s with priv := r.1, lastbuttons := r.2.1 }, r.2.2)
  | ALPS_PROTO_V4 =>
    let r := processPacketV4 s.priv packet
    ({ s with priv := r.1 }, r.2)
  | ALPS_PROTO_V5 =>
    let r := alps_process_touchpad_packet_v3_v5 decode_fields_v3_v5 s.priv s.last_fingers
      fingers0 packet
    ({ s with priv := r.1 }, r.2)
  | ALPS_PROTO_V7 => (s, processPacketV7 s.priv packet)
  | ALPS_PROTO_V8 =>
    let r := alps_process_packet_ss4_v2 m s.priv packet
    ({ s with priv := r.1 }, r.2)

/-- The position packet whose decoded fields reach the dispatch in
`alps_process_touchpad_packet_v3_v5`: the pending packet `priv.multi_data`
when a sequence is pending and `packet` is a bitmap packet (the fields are
then decoded again from `priv.multi_data`), and `packet` itself otherwise. -/
def positionPacket (decode_fields : alps_data → alps_fields → (Nat → Nat) → alps_fields)
    (priv : alps_data) (packet : Nat → Nat) : Nat → Nat :=
  if priv.multi_packet ≠ 0 ∧ (decode_fields priv {} packet).is_mp ≠ 0 then priv.multi_data
  else packet

/-- The spec's reading of a trackstick coordinate, used to state the
properties of `processTrackstickPacketV3`: the two's-complement signed 8-bit
value with sign bit `sign` and low seven bits `low7`. -/
def specSigned8 (sign : Bool) (low7 : Nat) : Int :=
  (low7 : Int) - (if sign then 128 else 0)

/-! ## Device table and configured widths -/

/-- Flag `ALPS_PASS`: the device has a pass-through port. -/
def ALPS_PASS : Nat := 0x04

/-- Flag `ALPS_FOUR_BUTTONS`: a four-direction button is present. -/
def ALPS_FOUR_BUTTONS : Nat := 0x40

/-- Modelled from the spec: `struct alps_model_info` is declared in `alps.h`,
which is not among the sources. The positional initialisers of
`alps_model_data` are read as signature, `command_mode_resp`, `proto_version`,
`byte0`, `mask0`, `flags`, the members that `matchTable` reads; the order of
`byte0` and `mask0` is the one under which the second entry has sync value
`0x88` under mask `0xf8`. -/
structure alps_model_info where
  signature : List Nat
  command_mode_resp : Nat
  proto_version : ProtoVersion
  byte0 : Nat
  mask0 : Nat
  flags : Nat
  deriving DecidableEq, Repr

/-- The table `alps_model_data` (alps.cpp, lines 118-150). -/
def alps_model_data : List alps_model_info :=
  [ ⟨[0x32, 0x02, 0x14], 0x00, ALPS_PROTO_V2, 0xf8, 0xf8, ALPS_PASS ||| ALPS_DUALPOINT⟩,
    ⟨[0x33, 0x02, 0x0a], 0x00, ALPS_PROTO_V1, 0x88, 0xf8, 0⟩,
    ⟨[0x53, 0x02, 0x0a], 0x00, ALPS_PROTO_V2, 0xf8, 0xf8, 0⟩,
    ⟨[0x53, 0x02, 0x14], 0x00, ALPS_PROTO_V2, 0xf8, 0xf8, 0⟩,
    ⟨[0x60, 0x03, 0xc8], 0x00, ALPS_PROTO_V2, 0xf8, 0xf8, 0⟩,
    ⟨[0x63, 0x02, 0x0a], 0x00, ALPS_PROTO_V2, 0xf8, 0xf8, 0⟩,
    ⟨[0x63, 0x02, 0x14], 0x00, ALPS_PROTO_V2, 0xf8, 0xf8, 0⟩,
    ⟨[0x63, 0x02, 0x28], 0x00, ALPS_PROTO_V2, 0xf8, 0xf8, ALPS_FW_BK_2⟩,
    ⟨[0x63, 0x02, 0x3c], 0x00, ALPS_PROTO_V2, 0x8f, 0x8f, ALPS_WHEEL⟩,
    ⟨[0x63, 0x02, 0x50], 0x00, ALPS_PROTO_V2, 0xef, 0xef, ALPS_FW_BK_1⟩,
    ⟨[0x63, 0x02, 0x64], 0x00, ALPS_PROTO_V2, 0xf8, 0xf8, 0⟩,
    ⟨[0x63, 0x03, 0xc8], 0x00, ALPS_PROTO_V2, 0xf8, 0xf8, ALPS_PASS ||| ALPS_DUALPOINT⟩,
    ⟨[0x73, 0x00, 0x0a], 0x00, ALPS_PROTO_V2, 0xf8, 0xf8, ALPS_DUALPOINT⟩,
    ⟨[0x73, 0x02, 0x0a], 0x00, ALPS_PROTO_V2, 0xf8, 0xf8, 0⟩,
    ⟨[0x73, 0x02, 0x14], 0x00, ALPS_PROTO_V2, 0xf8, 0xf8, ALPS_FW_BK_2⟩,
    ⟨[0x20, 0x02, 0x0e], 0x00, ALPS_PROTO_V2, 0xf8, 0xf8, ALPS_PASS ||| ALPS_DUALPOINT⟩,
    ⟨[0x22, 0x02, 0x0a], 0x00, ALPS_PROTO_V2, 0xf8, 0xf8, ALPS_PASS ||| ALPS_DUALPOINT⟩,
    ⟨[0x22, 0x02, 0x14], 0x00, ALPS_PROTO_V2, 0xff, 0xff, ALPS_PASS ||| ALPS_DUALPOINT⟩,
    ⟨[0x62, 0x02, 0x14], 0x00, ALPS_PROTO_V2, 0xcf, 0xcf,
      ALPS_PASS ||| ALPS_DUALPOINT ||| ALPS_PS2_INTERLEAVED⟩,
    ⟨[0x73, 0x02, 0x50], 0x00, ALPS_PROTO_V2, 0xcf, 0xcf, ALPS_FOUR_BUTTONS⟩,
    ⟨[0x52, 0x01, 0x14], 0x00, ALPS_PROTO_V2, 0xff, 0xff,
      ALPS_PASS ||| ALPS_DUALPOINT ||| ALPS_PS2_INTERLEAVED⟩,
    ⟨[0x73, 0x02, 0x64], 0x8a, ALPS_PROTO_V4, 0x8f, 0x8f, 0⟩ ]

/-- The pair (`priv.x_bits`, `priv.y_bits`) that `set_protocol` assigns for a
protocol version: the default `15 / 11`, overridden for V3_RUSHMORE and V5. -/
def set_protocol_bits : ProtoVersion → Int × Int
  | ALPS_PROTO_V3_RUSHMORE => (16, 12)
  | ALPS_PROTO_V5 => (23, 12)
  | _ => (15, 11)

/-- The pair (`priv.x_max`, `priv.y_max`) that `set_protocol` assigns for a
protocol version: the default `2000 / 1400`, overridden for V1, V2, V5, V7 and
V8. -/
def set_protocol_max : ProtoVersion → Int × Int
  | ALPS_PROTO_V1 => (1023, 767)
  | ALPS_PROTO_V2 => (1023, 767)
  | ALPS_PROTO_V5 => (1360, 660)
  | ALPS_PROTO_V7 => (0xfff, 0x7ff)
  | ALPS_PROTO_V8 => (8192, 4096)
  | _ => (2000, 1400)

/-- The value of `priv.multi_packet` in `processPacketV4` after the sync check
`if (packet[6] & 0x40) priv.multi_packet = 0;`: the position of the packet in
the three-packet bitmap sequence. -/
def v4_position (priv : alps_data) (packet : Nat → Nat) : Int :=
  if packet 6 &&& 0x40 ≠ 0 then 0 else priv.multi_packet

/-- The finger count returned by `processBitmap` for the bitmaps that
`processPacketV4` builds from the array `multi_data`. -/
def v4_bitmap_fingers (multi_data : Nat → Nat) : Int :=
  if v4_x_map multi_data = 0 ∨ v4_y_map multi_data = 0 then 0
  else max (alps_get_bitmap_points (v4_x_map multi_data) {} {} 0).fingers
    (alps_get_bitmap_points (v4_y_map multi_data) {} {} 0).fingers

/-- Sample decoded fields: the column bitmap `0b0110` (one run of two bits)
and the row bitmap `0b1` (one run of one bit), single-touch point at the
origin. -/
def fields_6_1 : alps_fields := { x_map := 0b0110, y_map := 0b1 }

/-! ## Returns that precede the dispatch -/

/-- The state of `alps_process_packet_ss4_v2` (alps.cpp, lines 1262-1281) when
it reaches the test `if (f.is_mp) return;`: `priv`, the decoded fields `f`,
and the events dispatched by the calls of `decode_fields` made so far. -/
def ss4_merge (m : SS4Macros) (priv : alps_data) (packet : Nat → Nat) :
    alps_data × alps_fields × List Event :=
  let d1 := alps_decode_ss4_v2 m priv {} packet
  if priv.multi_packet ≠ 0 then
    if d1.1.is_mp ≠ 0 then
      let d2 := alps_decode_ss4_v2 m priv d1.1 priv.multi_data
      (priv, d2.1, d1.2 ++ d2.2)
    else ({ priv with multi_packet := 0 }, d1.1, d1.2)
  else (priv, d1.1, d1.2)

/-- Whether `alps_process_touchpad_packet_v3_v5` leaves through one of its two
`return;` statements (alps.cpp, lines 729-737): `if (f.is_mp) return;` and
`if (!priv.multi_packet && f.first_mp) { ...; return; }`, both tested on the
state left by the merge block. -/
def v3_v5_returns (decode_fields : alps_data → alps_fields → (Nat → Nat) → alps_fields)
    (priv : alps_data) (fingers0 : Int) (packet : Nat → Nat) : Bool :=
  decide ((v3_v5_merge decode_fields priv fingers0 packet).2.1.is_mp ≠ 0 ∨
    ((v3_v5_merge decode_fields priv fingers0 packet).1.multi_packet = 0 ∧
      (v3_v5_merge decode_fields priv fingers0 packet).2.1.first_mp ≠ 0))

/-- Whether the call `(this->*process_packet)(packet)` leaves its routine
through a `return;` statement that precedes the routine's dispatch call, so
that the packet is not decoded to the end. These statements are at alps.cpp
lines 517, 523 and 530 (`processTrackstickPacketV3`), 730 and 736
(`alps_process_touchpad_packet_v3_v5`), 869 (`processPacketV4`), 1048
(`processTrackstickPacketV7`), 1079 (`processTouchpadPacketV7`), 1288 and 1295
(`alps_process_packet_ss4_v2`); `processPacketV1V2` has none. -/
def returnsBeforeDispatch (m : SS4Macros) (fingers0 : Int) (s : DriverState)
    (packet : Nat → Nat) : Bool :=
  match s.priv.proto_version with
  | ALPS_PROTO_V1 | ALPS_PROTO_V2 => false
  | ALPS_PROTO_V3 | ALPS_PROTO_V3_RUSHMORE =>
    if packet 5 = 0x3f then
      decide (s.priv.flags &&& ALPS_DUALPOINT = 0 ∨ packet 0 &&& 0x40 = 0 ∨
        (packet 1 = 0x7f ∧ packet 2 = 0x7f ∧ packet 3 = 0x7f))
    else v3_v5_returns decode_fields_v3_v5 s.priv fingers0 packet
  | ALPS_PROTO_V4 => decide (v4_position s.priv packet > 2)
  | ALPS_PROTO_V5 => v3_v5_returns decode_fields_v3_v5 s.priv fingers0 packet
  | ALPS_PROTO_V7 =>
    if packet 0 = 0x48 ∧ packet 4 &&& 0x47 = 0x06 then
      decide (s.priv.flags &&& ALPS_DUALPOINT = 0)
    else !(decodeV7 s.priv {} packet).2
  | ALPS_PROTO_V8 =>
    decide ((ss4_merge m s.priv packet).2.1.is_mp ≠ 0 ∨
      ((ss4_merge m s.priv packet).1.multi_packet = 0 ∧
        (ss4_merge m s.priv packet).2.1.first_mp ≠ 0))

/-! ## The byte framer: auxiliary facts -/

theorem interruptOccurred_pass (priv : alps_data) (s : Driver) (b : Nat) (bs : List Nat)
    (hv : StructurallyValid priv bs) (hsz : priv.pktsize < 2 ^ 32)
    (hc : s._packetByteCount < bs.length)
    (hpre : ∀ j, j < s._packetByteCount → s.packet j = bs.getD j 0)
    (hb : bs.getD s._packetByteCount 0 = b) :
    interruptOccurred priv s b =
      if s._packetByteCount + 1 = priv.pktsize then
        ({ _ringBuffer := (s.store b).advanceHead priv.pktsize,
           _packetByteCount := 0 }, kPS2IR_packetReady)
      else
        ({ _ringBuffer := s.store b,
           _packetByteCount := s._packetByteCount + 1 }, kPS2IR_packetBuffering) := by
  obtain ⟨hlen, hsync, hps2, hint, hhigh, hv7, hv8⟩ := hv
  have hpk : ∀ j, j ≤ s._packetByteCount →
      (s.store b).buffer ((s.store b).head + j) = bs.getD j 0 := by
    intro j hj
    simp only [Driver.store]
    rcases Nat.lt_or_eq_of_le hj with h | h
    · rw [Function.update_noteq (by omega)]
      exact hpre j h
    · subst h
      rw [Function.update_same]
      exact hb.symm
  have hmod : (s._packetByteCount + 1) % 2 ^ 32 = s._packetByteCount + 1 :=
    Nat.mod_eq_of_lt (by omega)
  have c1 : ¬ (priv.proto_version ≠ ALPS_PROTO_V8 ∧
      (s.store b).buffer ((s.store b).head + 0) &&& 0xc8 = 0x08) := by
    rw [hpk 0 (Nat.zero_le _)]
    rintro ⟨h1, h2⟩
    rcases hps2 with h | h
    · exact h h2
    · exact h1 h
  have c2 : ¬ (priv.flags &&& ALPS_PS2_INTERLEAVED ≠ 0 ∧ s._packetByteCount + 1 ≥ 4 ∧
      (s.store b).buffer ((s.store b).head + 3) &&& 0x0f = 0x0f) := by
    rintro ⟨h1, h2, h3⟩
    rw [hpk 3 (by omega)] at h3
    rcases hint with h | h
    · exact h1 h
    · exact h h3
  have c3 : ¬ ((s.store b).buffer ((s.store b).head + 0) &&& priv.mask0 ≠ priv.byte0) := by
    rw [hpk 0 (Nat.zero_le _)]
    exact fun h => h hsync
  have c4 : ¬ (priv.proto_version.code < ALPS_PROTO_V5.code ∧ s._packetByteCount + 1 ≥ 2 ∧
      s._packetByteCount + 1 ≤ priv.pktsize ∧
      (s.store b).buffer ((s.store b).head + (s._packetByteCount + 1 - 1)) &&& 0x80 ≠ 0) := by
    rintro ⟨h1, h2, h3, h4⟩
    rw [Nat.add_sub_cancel, hpk _ (Nat.le_refl _)] at h4
    exact h4 (hhigh h1 _ (by omega) (by omega))
  have c5 : ¬ (priv.proto_version = ALPS_PROTO_V7 ∧
      ((s._packetByteCount + 1 = 3 ∧ (s.store b).buffer ((s.store b).head + 2) &&& 0x40 ≠ 0x40) ∨
       (s._packetByteCount + 1 = 4 ∧ (s.store b).buffer ((s.store b).head + 3) &&& 0x48 ≠ 0x48) ∨
       (s._packetByteCount + 1 = 6 ∧ (s.store b).buffer ((s.store b).head + 5) &&& 0x40 ≠ 0x0))) := by
    rintro ⟨h1, h2⟩
    obtain ⟨g2, g3, g5⟩ := hv7 h1
    rcases h2 with ⟨e, h⟩ | ⟨e, h⟩ | ⟨e, h⟩
    · rw [hpk 2 (by omega)] at h
      exact h g2
    · rw [hpk 3 (by omega)] at h
      exact h g3
    · rw [hpk 5 (by omega)] at h
      exact h g5
  have c6 : ¬ (priv.proto_version = ALPS_PROTO_V8 ∧
      ((s._packetByteCount + 1 = 4 ∧ (s.store b).buffer ((s.store b).head + 3) &&& 0x08 ≠ 0x08) ∨
       (s._packetByteCount + 1 = 6 ∧ (s.store b).buffer ((s.store b).head + 5) &&& 0x10 ≠ 0x0))) := by
    rintro ⟨h1, h2⟩
    obtain ⟨g3, g5⟩ := hv8 h1
    rcases h2 with ⟨e, h⟩ | ⟨e, h⟩
    · rw [hpk 3 (by omega)] at h
      exact h g3
    · rw [hpk 5 (by omega)] at h
      exact h g5
  unfold interruptOccurred
  simp only [hmod]
  rw [if_neg c1, if_neg c2, if_neg c3, if_neg c4, if_neg c5, if_neg c6]

theorem store_packet (s : Driver) (b n j : Nat) :
    Driver.packet { _ringBuffer := s.store b, _packetByteCount := n } j =
      if j = s._packetByteCount then b else s.packet j := by
  show Function.update s._ringBuffer.buffer (s._ringBuffer.head + s._packetByteCount) b
    (s._ringBuffer.head + j) = _
  by_cases h : j = s._packetByteCount
  · rw [if_pos h, h, Function.update_same]
  · rw [if_neg h, Function.update_noteq (by omega)]
    rfl

theorem feed_valid_from (priv : alps_data) (bs : List Nat)
    (hv : StructurallyValid priv bs) (hsz : priv.pktsize < 2 ^ 32) :
    ∀ (k : Nat) (s : Driver), s._packetByteCount + k + 1 = bs.length →
      (∀ j, j < s._packetByteCount → s.packet j = bs.getD j 0) →
      (feed priv s (bs.drop s._packetByteCount)).2 =
          List.replicate k kPS2IR_packetBuffering ++ [kPS2IR_packetReady] ∧
        (feed priv s (bs.drop s._packetByteCount)).1._ringBuffer.head =
          (s._ringBuffer.head + priv.pktsize) % ringCapacity ∧
        (feed priv s (bs.drop s._packetByteCount)).1._ringBuffer.count =
          s._ringBuffer.count + priv.pktsize ∧
        (feed priv s (bs.drop s._packetByteCount)).1._packetByteCount = 0 := by
  have hlen : bs.length = priv.pktsize := hv.1
  intro k
  induction k with
  | zero =>
    intro s hk hpre
    have hc : s._packetByteCount < bs.length := by omega
    have hdrop : bs.drop s._packetByteCount = [bs.getD s._packetByteCount 0] := by
      rw [List.drop_eq_getElem_cons hc, List.drop_of_length_le (by omega),
        List.getD_eq_getElem _ _ hc]
    have hstep := interruptOccurred_pass priv s _ bs hv hsz hc hpre rfl
    rw [if_pos (by omega)] at hstep
    rw [hdrop]
    simp only [feed, hstep]
    exact ⟨rfl, rfl, rfl, trivial⟩
  | succ k ih =>
    intro s hk hpre
    have hc : s._packetByteCount < bs.length := by omega
    have hdrop : bs.drop s._packetByteCount =
        bs.getD s._packetByteCount 0 :: bs.drop (s._packetByteCount + 1) := by
      rw [List.drop_eq_getElem_cons hc, List.getD_eq_getElem _ _ hc]
    have hstep := interruptOccurred_pass priv s _ bs hv hsz hc hpre rfl
    rw [if_neg (by omega)] at hstep
    have hnext := ih { _ringBuffer := s.store (bs.getD s._packetByteCount 0),
                       _packetByteCount := s._packetByteCount + 1 }
      (by simp only; omega)
      (by
        intro j hj
        rw [store_packet]
        by_cases h : j = s._packetByteCount
        · rw [if_pos h, h]
        · rw [if_neg h]
          exact hpre j (by simp only at hj; omega))
    simp only [hdrop, feed, hstep]
    simp only at hnext
    refine ⟨?_, hnext.2.1, hnext.2.2.1, hnext.2.2.2⟩
    rw [hnext.1]
    rfl

theorem interruptOccurred_unsynced (priv : alps_data) (s : Driver) (b p0 : Nat)
    (hc : s._packetByteCount + 1 < 2 ^ 32)
    (h0 : (if s._packetByteCount = 0 then b else s.packet 0) = p0)
    (hsync : p0 &&& priv.mask0 ≠ priv.byte0)
    (hps2 : p0 &&& 0xc8 ≠ 0x08 ∨ priv.proto_version = ALPS_PROTO_V8) :
    interruptOccurred priv s b =
      ({ _ringBuffer := s.store b, _packetByteCount := s._packetByteCount + 1 },
        kPS2IR_packetBuffering) := by
  have hp0 : (s.store b).buffer ((s.store b).head + 0) = p0 := by
    have h := store_packet s b 0 0
    unfold Driver.packet at h
    simp only at h
    rw [h, ← h0]
    by_cases hz : s._packetByteCount = 0
    · rw [if_pos hz, if_pos hz.symm]
    · rw [if_neg hz, if_neg (fun e => hz e.symm)]
      rfl
  have hmod : (s._packetByteCount + 1) % 2 ^ 32 = s._packetByteCount + 1 :=
    Nat.mod_eq_of_lt hc
  have c1 : ¬ (priv.proto_version ≠ ALPS_PROTO_V8 ∧
      (s.store b).buffer ((s.store b).head + 0) &&& 0xc8 = 0x08) := by
    rw [hp0]
    rintro ⟨h1, h2⟩
    rcases hps2 with h | h
    · exact h h2
    · exact h1 h
  have c3 : (s.store b).buffer ((s.store b).head + 0) &&& priv.mask0 ≠ priv.byte0 := by
    rw [hp0]
    exact hsync
  unfold interruptOccurred
  simp only [hmod]
  rw [if_neg c1]
  split <;> rfl

theorem interruptOccurred_ps2 (priv : alps_data) (s : Driver) (b p0 : Nat)
    (hc : s._packetByteCount + 1 < 2 ^ 32)
    (h0 : (if s._packetByteCount = 0 then b else s.packet 0) = p0)
    (hv : priv.proto_version ≠ ALPS_PROTO_V8)
    (hps2 : p0 &&& 0xc8 = 0x08) :
    interruptOccurred priv s b =
      if s._packetByteCount + 1 = 3 then
        ({ _ringBuffer := (s.store b).advanceHead priv.pktsize, _packetByteCount := 0 },
          kPS2IR_packetReady)
      else
        ({ _ringBuffer := s.store b, _packetByteCount := s._packetByteCount + 1 },
          kPS2IR_packetBuffering) := by
  have hp0 : (s.store b).buffer ((s.store b).head + 0) = p0 := by
    have h := store_packet s b 0 0
    unfold Driver.packet at h
    simp only at h
    rw [h, ← h0]
    by_cases hz : s._packetByteCount = 0
    · rw [if_pos hz, if_pos hz.symm]
    · rw [if_neg hz, if_neg (fun e => hz e.symm)]
      rfl
  have hmod : (s._packetByteCount + 1) % 2 ^ 32 = s._packetByteCount + 1 :=
    Nat.mod_eq_of_lt hc
  have c1 : priv.proto_version ≠ ALPS_PROTO_V8 ∧
      (s.store b).buffer ((s.store b).head + 0) &&& 0xc8 = 0x08 := by
    rw [hp0]
    exact ⟨hv, hps2⟩
  unfold interruptOccurred
  simp only [hmod]
  rw [if_pos c1]

theorem store_head_zero (s : Driver) (b : Nat) :
    (s.store b).buffer ((s.store b).head + 0) =
      if s._packetByteCount = 0 then b else s.packet 0 := by
  have h := store_packet s b 0 0
  unfold Driver.packet at h
  simp only at h
  rw [h]
  by_cases hz : s._packetByteCount = 0
  · rw [if_pos hz, if_pos hz.symm]
  · rw [if_neg hz, if_neg (fun e => hz e.symm)]
    rfl

theorem store_at (s : Driver) (b j : Nat) :
    (s.store b).buffer ((s.store b).head + j) =
      if j = s._packetByteCount then b else s.packet j :=
  store_packet s b 0 j

theorem interruptOccurred_short (priv : alps_data) (s : Driver) (b p0 : Nat)
    (hc : s._packetByteCount + 1 < 2 ^ 32)
    (h0 : (if s._packetByteCount = 0 then b else s.packet 0) = p0)
    (hps2 : p0 &&& 0xc8 ≠ 0x08 ∨ priv.proto_version = ALPS_PROTO_V8)
    (hne : s._packetByteCount + 1 ≠ priv.pktsize) :
    interruptOccurred priv s b =
      ({ _ringBuffer := s.store b, _packetByteCount := s._packetByteCount + 1 },
        kPS2IR_packetBuffering) := by
  have hmod : (s._packetByteCount + 1) % 2 ^ 32 = s._packetByteCount + 1 :=
    Nat.mod_eq_of_lt hc
  have c1 : ¬ (priv.proto_version ≠ ALPS_PROTO_V8 ∧
      (s.store b).buffer ((s.store b).head + 0) &&& 0xc8 = 0x08) := by
    rw [store_head_zero, h0]
    rintro ⟨h1, h2⟩
    rcases hps2 with h | h
    · exact h h2
    · exact h1 h
  unfold interruptOccurred
  simp only [hmod]
  rw [if_neg c1]
  split_ifs with h2 h3 h4 h5 h6 h7
  all_goals first
    | rfl
    | exact absurd h5.2 hne

theorem interruptOccurred_v7v8_reject (priv : alps_data) (s : Driver) (b p0 : Nat)
    (hc : s._packetByteCount + 1 < 2 ^ 32)
    (h0 : (if s._packetByteCount = 0 then b else s.packet 0) = p0)
    (hps2 : p0 &&& 0xc8 ≠ 0x08 ∨ priv.proto_version = ALPS_PROTO_V8)
    (hfail :
      (priv.proto_version = ALPS_PROTO_V7 ∧
        ((s._packetByteCount = 2 ∧ b &&& 0x40 ≠ 0x40) ∨
         (s._packetByteCount = 3 ∧ b &&& 0x48 ≠ 0x48) ∨
         (s._packetByteCount = 5 ∧ b &&& 0x40 ≠ 0))) ∨
      (priv.proto_version = ALPS_PROTO_V8 ∧
        ((s._packetByteCount = 3 ∧ b &&& 0x08 ≠ 0x08) ∨
         (s._packetByteCount = 5 ∧ b &&& 0x10 ≠ 0)))) :
    interruptOccurred priv s b =
      ({ _ringBuffer := s.store b, _packetByteCount := s._packetByteCount + 1 },
        kPS2IR_packetBuffering) := by
  have hmod : (s._packetByteCount + 1) % 2 ^ 32 = s._packetByteCount + 1 :=
    Nat.mod_eq_of_lt hc
  have c1 : ¬ (priv.proto_version ≠ ALPS_PROTO_V8 ∧
      (s.store b).buffer ((s.store b).head + 0) &&& 0xc8 = 0x08) := by
    rw [store_head_zero, h0]
    rintro ⟨h1, h2⟩
    rcases hps2 with h | h
    · exact h h2
    · exact h1 h
  have c4 : ¬ (priv.proto_version.code < ALPS_PROTO_V5.code ∧ s._packetByteCount + 1 ≥ 2 ∧
      s._packetByteCount + 1 ≤ priv.pktsize ∧
      (s.store b).buffer ((s.store b).head + (s._packetByteCount + 1 - 1)) &&& 0x80 ≠ 0) := by
    rintro ⟨h1, -⟩
    rcases hfail with ⟨hv, -⟩ | ⟨hv, -⟩ <;> rw [hv] at h1 <;> exact absurd h1 (by decide)
  have hcur : ∀ j, j = s._packetByteCount → (s.store b).buffer ((s.store b).head + j) = b := by
    intro j hj
    rw [store_at, if_pos hj]
  have c56 :
      (priv.proto_version = ALPS_PROTO_V7 ∧
        ((s._packetByteCount + 1 = 3 ∧
            (s.store b).buffer ((s.store b).head + 2) &&& 0x40 ≠ 0x40) ∨
         (s._packetByteCount + 1 = 4 ∧
            (s.store b).buffer ((s.store b).head + 3) &&& 0x48 ≠ 0x48) ∨
         (s._packetByteCount + 1 = 6 ∧
            (s.store b).buffer ((s.store b).head + 5) &&& 0x40 ≠ 0x0))) ∨
      (priv.proto_version = ALPS_PROTO_V8 ∧
        ((s._packetByteCount + 1 = 4 ∧
            (s.store b).buffer ((s.store b).head + 3) &&& 0x08 ≠ 0x08) ∨
         (s._packetByteCount + 1 = 6 ∧
            (s.store b).buffer ((s.store b).head + 5) &&& 0x10 ≠ 0x0))) := by
    rcases hfail with ⟨hv, hf⟩ | ⟨hv, hf⟩
    · refine Or.inl ⟨hv, ?_⟩
      rcases hf with ⟨e, h⟩ | ⟨e, h⟩ | ⟨e, h⟩
      · exact Or.inl ⟨by omega, by rw [hcur 2 e.symm]; exact h⟩
      · exact Or.inr (Or.inl ⟨by omega, by rw [hcur 3 e.symm]; exact h⟩)
      · exact Or.inr (Or.inr ⟨by omega, by rw [hcur 5 e.symm]; exact h⟩)
    · refine Or.inr ⟨hv, ?_⟩
      rcases hf with ⟨e, h⟩ | ⟨e, h⟩
      · exact Or.inl ⟨by omega, by rw [hcur 3 e.symm]; exact h⟩
      · exact Or.inr ⟨by omega, by rw [hcur 5 e.symm]; exact h⟩
  unfold interruptOccurred
  simp only [hmod]
  rw [if_neg c1]
  split_ifs with h2 h3 h4 h5 h6
  all_goals first
    | rfl
    | exact absurd h4 c4
    | (rcases c56 with h | h <;> contradiction)

theorem feed_short (priv : alps_data) (p0 : Nat)
    (hps2 : p0 &&& 0xc8 ≠ 0x08 ∨ priv.proto_version = ALPS_PROTO_V8)
    (hsz : priv.pktsize < 2 ^ 32) :
    ∀ (bs : List Nat) (s : Driver), s._packetByteCount + bs.length < priv.pktsize →
      (if s._packetByteCount = 0 then bs.getD 0 0 else s.packet 0) = p0 →
      (feed priv s bs).2 = List.replicate bs.length kPS2IR_packetBuffering ∧
        (feed priv s bs).1._packetByteCount = s._packetByteCount + bs.length ∧
        (0 < s._packetByteCount + bs.length → (feed priv s bs).1.packet 0 = p0) := by
  intro bs
  induction bs with
  | nil =>
    intro s _ h0
    refine ⟨rfl, rfl, ?_⟩
    intro hpos
    rw [if_neg (by simp only [List.length_nil] at hpos; omega)] at h0
    exact h0
  | cons b rest ih =>
    intro s hlen h0
    simp only [List.length_cons] at hlen
    have hstep := interruptOccurred_short priv s b p0 (by omega)
      (by simpa using h0) hps2 (by omega)
    have hnext := ih { _ringBuffer := s.store b, _packetByteCount := s._packetByteCount + 1 }
      (by simp only; omega)
      (by
        rw [if_neg (by simp only; omega), store_packet]
        by_cases h : s._packetByteCount = 0
        · rw [if_pos h.symm]
          simpa [h] using h0
        · rw [if_neg (fun e => h e.symm)]
          simpa [h] using h0)
    simp only [feed, hstep, List.length_cons, List.replicate_succ]
    simp only at hnext
    refine ⟨?_, ?_, ?_⟩
    · rw [hnext.1]
    · rw [hnext.2.1]
      omega
    · intro _
      exact hnext.2.2 (by omega)

theorem feed_append (priv : alps_data) :
    ∀ (xs ys : List Nat) (s : Driver),
      feed priv s (xs ++ ys) =
        ((feed priv (feed priv s xs).1 ys).1, (feed priv s xs).2 ++ (feed priv (feed priv s xs).1 ys).2) := by
  intro xs
  induction xs with
  | nil =>
    intro ys s
    rfl
  | cons x xs ih =>
    intro ys s
    show feed priv s (x :: (xs ++ ys)) = _
    simp only [feed, ih, List.cons_append]

theorem sync48_not_ps2 (p0 : Nat) (h : p0 &&& 0x48 = 0x48) : p0 &&& 0xc8 ≠ 0x08 := by
  intro h2
  have a1 : (p0 &&& 0x48) &&& 0x40 = p0 &&& 0x40 := by
    rw [Nat.land_assoc]
    rfl
  have a2 : (p0 &&& 0xc8) &&& 0x40 = p0 &&& 0x40 := by
    rw [Nat.land_assoc]
    rfl
  rw [h] at a1
  rw [h2] at a2
  rw [← a1] at a2
  exact absurd a2 (by decide)

theorem feed_reject_last (priv : alps_data) (p0 : Nat)
    (hps2 : p0 &&& 0xc8 ≠ 0x08 ∨ priv.proto_version = ALPS_PROTO_V8)
    (hsz : priv.pktsize < 2 ^ 32)
    (pre : List Nat) (b : Nat) (s : Driver)
    (hcnt : s._packetByteCount = 0) (hlen : pre.length < priv.pktsize)
    (hpos : 0 < pre.length) (h0 : pre.getD 0 0 = p0)
    (hfail :
      (priv.proto_version = ALPS_PROTO_V7 ∧
        ((pre.length = 2 ∧ b &&& 0x40 ≠ 0x40) ∨
         (pre.length = 3 ∧ b &&& 0x48 ≠ 0x48) ∨
         (pre.length = 5 ∧ b &&& 0x40 ≠ 0))) ∨
      (priv.proto_version = ALPS_PROTO_V8 ∧
        ((pre.length = 3 ∧ b &&& 0x08 ≠ 0x08) ∨
         (pre.length = 5 ∧ b &&& 0x10 ≠ 0)))) :
    (feed priv s (pre ++ [b])).2 =
      List.replicate (pre.length + 1) kPS2IR_packetBuffering := by
  have h := feed_short priv p0 hps2 hsz pre s (by omega) (by rw [if_pos hcnt]; exact h0)
  have hc : (feed priv s pre).1._packetByteCount = pre.length := by
    rw [h.2.1, hcnt, Nat.zero_add]
  have hstep := interruptOccurred_v7v8_reject priv (feed priv s pre).1 b p0
    (by rw [hc]; omega)
    (by rw [if_neg (by rw [hc]; omega)]; exact h.2.2 (by omega)) hps2
    (by rw [hc]; exact hfail)
  rw [feed_append]
  simp only [feed, hstep, h.1]
  rw [List.replicate_succ', List.append_cancel_left_eq]

theorem feedChecked_nil (priv : alps_data) (s : Driver)
    (hle : s._ringBuffer.head + s._packetByteCount ≤ ringCapacity) :
    feedResults priv s [] =
        (if s._ringBuffer.head + s._packetByteCount + ([] : List Nat).length ≤ ringCapacity
          then some (List.replicate ([] : List Nat).length kPS2IR_packetBuffering)
          else none) ∧
      feedCounter priv s [] =
        (if s._ringBuffer.head + s._packetByteCount + ([] : List Nat).length ≤ ringCapacity
          then some (s._packetByteCount + ([] : List Nat).length)
          else none) := by
  have hle0 : s._ringBuffer.head + s._packetByteCount + ([] : List Nat).length ≤
      ringCapacity := hle
  simp only [feedResults, feedCounter, feedChecked, if_pos hle0, Option.map_some']
  exact ⟨rfl, rfl⟩

theorem feedChecked_overrun (priv : alps_data) (s : Driver) (b : Nat) (rest : List Nat)
    (hin : ¬ s._ringBuffer.head + s._packetByteCount < ringCapacity) :
    feedResults priv s (b :: rest) =
        (if s._ringBuffer.head + s._packetByteCount + (b :: rest).length ≤ ringCapacity
          then some (List.replicate (b :: rest).length kPS2IR_packetBuffering)
          else none) ∧
      feedCounter priv s (b :: rest) =
        (if s._ringBuffer.head + s._packetByteCount + (b :: rest).length ≤ ringCapacity
          then some (s._packetByteCount + (b :: rest).length)
          else none) := by
  have hroom : ¬ (s._ringBuffer.head + s._packetByteCount + (b :: rest).length ≤
      ringCapacity) := by
    simp only [List.length_cons]
    omega
  simp only [feedResults, feedCounter, feedChecked, interruptOccurredChecked, if_neg hin,
    if_neg hroom]
  exact ⟨rfl, rfl⟩

theorem feedChecked_cons_buffering (priv : alps_data) (s : Driver) (b : Nat)
    (rest : List Nat)
    (hin : s._ringBuffer.head + s._packetByteCount < ringCapacity)
    (hres : interruptOccurred priv s b =
      ({ _ringBuffer := s.store b, _packetByteCount := s._packetByteCount + 1 },
        kPS2IR_packetBuffering))
    (hnext :
      feedResults priv
          { _ringBuffer := s.store b, _packetByteCount := s._packetByteCount + 1 } rest =
        (if s._ringBuffer.head + (s._packetByteCount + 1) + rest.length ≤ ringCapacity
          then some (List.replicate rest.length kPS2IR_packetBuffering)
          else none) ∧
      feedCounter priv
          { _ringBuffer := s.store b, _packetByteCount := s._packetByteCount + 1 } rest =
        (if s._ringBuffer.head + (s._packetByteCount + 1) + rest.length ≤ ringCapacity
          then some (s._packetByteCount + 1 + rest.length)
          else none)) :
    feedResults priv s (b :: rest) =
        (if s._ringBuffer.head + s._packetByteCount + (b :: rest).length ≤ ringCapacity
          then some (List.replicate (b :: rest).length kPS2IR_packetBuffering)
          else none) ∧
      feedCounter priv s (b :: rest) =
        (if s._ringBuffer.head + s._packetByteCount + (b :: rest).length ≤ ringCapacity
          then some (s._packetByteCount + (b :: rest).length)
          else none) := by
  have hcond : (s._ringBuffer.head + s._packetByteCount + (b :: rest).length ≤
      ringCapacity) ↔
      (s._ringBuffer.head + (s._packetByteCount + 1) + rest.length ≤ ringCapacity) := by
    simp only [List.length_cons]
    omega
  simp only [feedResults, feedCounter] at hnext ⊢
  simp only [feedChecked, interruptOccurredChecked, if_pos hin, hres]
  by_cases hroom : s._ringBuffer.head + (s._packetByteCount + 1) + rest.length ≤
      ringCapacity
  · simp only [if_pos hroom] at hnext
    simp only [if_pos (hcond.mpr hroom)]
    cases hf : feedChecked priv
        { _ringBuffer := s.store b, _packetByteCount := s._packetByteCount + 1 } rest with
    | none =>
      rw [hf] at hnext
      exact absurd hnext.1 (by simp)
    | some r =>
      rw [hf] at hnext
      simp only [Option.map_some', Option.some.injEq] at hnext ⊢
      refine ⟨?_, ?_⟩
      · rw [hnext.1, List.length_cons, List.replicate_succ]
      · rw [hnext.2, List.length_cons]
        omega
  · simp only [if_neg hroom] at hnext
    simp only [if_neg (fun h => hroom (hcond.mp h))]
    cases hf : feedChecked priv
        { _ringBuffer := s.store b, _packetByteCount := s._packetByteCount + 1 } rest with
    | none => exact ⟨rfl, rfl⟩
    | some r =>
      rw [hf] at hnext
      exact absurd hnext.1 (by simp)

theorem feedChecked_all_buffering (priv : alps_data) (Inv : Driver → Prop)
    (hstep : ∀ (s : Driver) (b : Nat), Inv s →
      s._ringBuffer.head + s._packetByteCount < ringCapacity →
      interruptOccurred priv s b =
          ({ _ringBuffer := s.store b, _packetByteCount := s._packetByteCount + 1 },
            kPS2IR_packetBuffering) ∧
        Inv { _ringBuffer := s.store b, _packetByteCount := s._packetByteCount + 1 }) :
    ∀ (bs : List Nat) (s : Driver), Inv s →
      s._ringBuffer.head + s._packetByteCount ≤ ringCapacity →
      feedResults priv s bs =
          (if s._ringBuffer.head + s._packetByteCount + bs.length ≤ ringCapacity then
            some (List.replicate bs.length kPS2IR_packetBuffering)
          else none) ∧
        feedCounter priv s bs =
          (if s._ringBuffer.head + s._packetByteCount + bs.length ≤ ringCapacity then
            some (s._packetByteCount + bs.length)
          else none) := by
  intro bs
  induction bs with
  | nil =>
    intro s _ hle
    exact feedChecked_nil priv s hle
  | cons b rest ih =>
    intro s hinv hle
    by_cases hin : s._ringBuffer.head + s._packetByteCount < ringCapacity
    · obtain ⟨hres, hinv1⟩ := hstep s b hinv hin
      exact feedChecked_cons_buffering priv s b rest hin hres
        (ih { _ringBuffer := s.store b, _packetByteCount := s._packetByteCount + 1 }
          hinv1 (by show s._ringBuffer.head + (s._packetByteCount + 1) ≤ ringCapacity; omega))
    · exact feedChecked_overrun priv s b rest hin

theorem feedChecked_unsynced (priv : alps_data) (s : Driver) (bs : List Nat)
    (hcnt : s._packetByteCount = 0) (hhead : s._ringBuffer.head < ringCapacity)
    (hsync : bs.getD 0 0 &&& priv.mask0 ≠ priv.byte0)
    (hps2 : bs.getD 0 0 &&& 0xc8 ≠ 0x08 ∨ priv.proto_version = ALPS_PROTO_V8) :
    feedResults priv s bs =
        (if s._ringBuffer.head + s._packetByteCount + bs.length ≤ ringCapacity then
          some (List.replicate bs.length kPS2IR_packetBuffering)
        else none) ∧
      feedCounter priv s bs =
        (if s._ringBuffer.head + s._packetByteCount + bs.length ≤ ringCapacity then
          some (s._packetByteCount + bs.length)
        else none) := by
  have hcap : ringCapacity = 192 := rfl
  cases bs with
  | nil => exact feedChecked_nil priv s (by omega)
  | cons b rest =>
    have hb : (b :: rest).getD 0 0 = b := rfl
    rw [hb] at hsync hps2
    have hin : s._ringBuffer.head + s._packetByteCount < ringCapacity := by omega
    have hres := interruptOccurred_unsynced priv s b b (by omega) (by rw [if_pos hcnt])
      hsync hps2
    refine feedChecked_cons_buffering priv s b rest hin hres ?_
    have hstep : ∀ (t : Driver) (c : Nat),
        (t._packetByteCount ≠ 0 ∧ t.packet 0 = b) →
        t._ringBuffer.head + t._packetByteCount < ringCapacity →
        interruptOccurred priv t c =
            ({ _ringBuffer := t.store c, _packetByteCount := t._packetByteCount + 1 },
              kPS2IR_packetBuffering) ∧
          (({ _ringBuffer := t.store c, _packetByteCount := t._packetByteCount + 1 } :
              Driver)._packetByteCount ≠ 0 ∧
            Driver.packet
              { _ringBuffer := t.store c, _packetByteCount := t._packetByteCount + 1 } 0 =
              b) := by
      intro t c hinv hlt
      refine ⟨interruptOccurred_unsynced priv t c b (by omega) (by rw [if_neg hinv.1, hinv.2])
        hsync hps2, Nat.succ_ne_zero _, ?_⟩
      rw [store_packet, if_neg (fun e => hinv.1 e.symm)]
      exact hinv.2
    exact feedChecked_all_buffering priv
      (fun t => t._packetByteCount ≠ 0 ∧ t.packet 0 = b) hstep rest
      { _ringBuffer := s.store b, _packetByteCount := s._packetByteCount + 1 }
      ⟨Nat.succ_ne_zero _, by rw [store_packet, if_pos hcnt.symm]⟩
      (by show s._ringBuffer.head + (s._packetByteCount + 1) ≤ ringCapacity; omega)

theorem feedResults_overrun_example :
    feedResults { proto_version := ALPS_PROTO_V2, byte0 := 0xf8, mask0 := 0xf8 } Driver.init
        (List.replicate 192 0) = some (List.replicate 192 kPS2IR_packetBuffering) ∧
      feedResults { proto_version := ALPS_PROTO_V2, byte0 := 0xf8, mask0 := 0xf8 } Driver.init
        (List.replicate 193 0) = none := by
  have hg : ∀ n : Nat, (List.replicate (n + 1) 0).getD 0 0 = 0 := fun _ => rfl
  have h1 := (feedChecked_unsynced
    { proto_version := ALPS_PROTO_V2, byte0 := 0xf8, mask0 := 0xf8 }
    Driver.init (List.replicate 192 0) rfl (by decide)
    (by rw [hg 191]; decide) (Or.inl (by rw [hg 191]; decide))).1
  have h2 := (feedChecked_unsynced
    { proto_version := ALPS_PROTO_V2, byte0 := 0xf8, mask0 := 0xf8 }
    Driver.init (List.replicate 193 0) rfl (by decide)
    (by rw [hg 192]; decide) (Or.inl (by rw [hg 192]; decide))).1
  rw [List.length_replicate] at h1 h2
  rw [if_pos (by decide)] at h1
  rw [if_neg (by decide)] at h2
  exact ⟨h1, h2⟩

/-! ## The byte framer: the claims -/

/-- Claim C1. For every protocol data `priv` whose packet size is the one
`deviceSpecificInit` selects (8 for V4, 6 otherwise) and every driver state
with the byte counter at 0: feeding a structurally valid packet of exactly
`pktsize` bytes returns Buffering for the first `pktsize - 1` calls and
PacketReady for the last one; afterwards the ring-buffer head has advanced by
exactly `pktsize` (and that many bytes are queued) and the counter is 0. -/
theorem C1_full_packet_ready (priv : alps_data) (s : Driver) (bs : List Nat)
    (hsize : priv.pktsize = pktsizeOf priv.proto_version)
    (hcnt : s._packetByteCount = 0)
    (hvalid : StructurallyValid priv bs) :
    (feed priv s bs).2 =
        List.replicate (priv.pktsize - 1) kPS2IR_packetBuffering ++ [kPS2IR_packetReady] ∧
      (feed priv s bs).1._ringBuffer.head =
        (s._ringBuffer.head + priv.pktsize) % ringCapacity ∧
      (feed priv s bs).1._ringBuffer.count = s._ringBuffer.count + priv.pktsize ∧
      (feed priv s bs).1._packetByteCount = 0 := by
  have hlen : bs.length = priv.pktsize := hvalid.1
  have hpos : 0 < priv.pktsize ∧ priv.pktsize < 2 ^ 32 := by
    rw [hsize]
    unfold pktsizeOf
    split <;> decide
  have h := feed_valid_from priv bs hvalid hpos.2 (priv.pktsize - 1) s (by omega)
    (by intro j hj; omega)
  rw [hcnt, List.drop_zero] at h
  exact h

/-- Witness for claim C1: the V1 packet `88 10 20 04 00 00` under the sync pair
`0xf8 / 0x88`, fed to a freshly initialised driver. -/
theorem C1_full_packet_ready_witness :
    StructurallyValid { proto_version := ALPS_PROTO_V1, byte0 := 0x88, mask0 := 0xf8 }
        [0x88, 0x10, 0x20, 0x04, 0x00, 0x00] ∧
      (feed { proto_version := ALPS_PROTO_V1, byte0 := 0x88, mask0 := 0xf8 } Driver.init
          [0x88, 0x10, 0x20, 0x04, 0x00, 0x00]).2 =
        List.replicate (6 - 1) kPS2IR_packetBuffering ++ [kPS2IR_packetReady] ∧
      (feed { proto_version := ALPS_PROTO_V1, byte0 := 0x88, mask0 := 0xf8 } Driver.init
          [0x88, 0x10, 0x20, 0x04, 0x00, 0x00]).1._ringBuffer.head =
        (0 + 6) % ringCapacity ∧
      (feed { proto_version := ALPS_PROTO_V1, byte0 := 0x88, mask0 := 0xf8 } Driver.init
          [0x88, 0x10, 0x20, 0x04, 0x00, 0x00]).1._ringBuffer.count = 0 + 6 ∧
      (feed { proto_version := ALPS_PROTO_V1, byte0 := 0x88, mask0 := 0xf8 } Driver.init
          [0x88, 0x10, 0x20, 0x04, 0x00, 0x00]).1._packetByteCount = 0 :=
  have hv : StructurallyValid { proto_version := ALPS_PROTO_V1, byte0 := 0x88, mask0 := 0xf8 }
      [0x88, 0x10, 0x20, 0x04, 0x00, 0x00] := by
    unfold StructurallyValid
    decide
  ⟨hv, C1_full_packet_ready { proto_version := ALPS_PROTO_V1, byte0 := 0x88, mask0 := 0xf8 }
    Driver.init [0x88, 0x10, 0x20, 0x04, 0x00, 0x00] rfl rfl hv⟩

/-- Claim C3, evaluated at its failing input. On a V2 device (sync pair
`0xf8 / 0xf8`) the byte `0x00` fails the sync test; the structurally valid
packet `f8 00 00 00 00 00` fed next yields Buffering on every call, and the
counter is left at 7: the framer does not resynchronise. -/
theorem C3_no_resync_at_failing_input :
    ((0x00 : Nat) &&& 0xf8 ≠ 0xf8) ∧
      StructurallyValid { proto_version := ALPS_PROTO_V2, byte0 := 0xf8, mask0 := 0xf8 }
        [0xf8, 0x00, 0x00, 0x00, 0x00, 0x00] ∧
      (feed { proto_version := ALPS_PROTO_V2, byte0 := 0xf8, mask0 := 0xf8 } Driver.init
          (0x00 :: [0xf8, 0x00, 0x00, 0x00, 0x00, 0x00])).2 =
        List.replicate 7 kPS2IR_packetBuffering ∧
      (feed { proto_version := ALPS_PROTO_V2, byte0 := 0xf8, mask0 := 0xf8 } Driver.init
          (0x00 :: [0xf8, 0x00, 0x00, 0x00, 0x00, 0x00])).1._packetByteCount = 7 := by
  unfold StructurallyValid
  decide

/-- Claim C4, evaluated at its failing input. On a V3 Rushmore device (sync
pair `0x8f / 0x8f`) the packet `8f 00 00 00 00 ff`, whose last byte has the
top bit set, makes the sixth call return PacketReady while the byte counter
stays at 6 and the ring-buffer head does not move. -/
theorem C4_ready_without_reset_at_failing_input :
    (feed { proto_version := ALPS_PROTO_V3_RUSHMORE } Driver.init
          [0x8f, 0x00, 0x00, 0x00, 0x00, 0xff]).2 =
        List.replicate 5 kPS2IR_packetBuffering ++ [kPS2IR_packetReady] ∧
      (feed { proto_version := ALPS_PROTO_V3_RUSHMORE } Driver.init
          [0x8f, 0x00, 0x00, 0x00, 0x00, 0xff]).1._packetByteCount = 6 ∧
      (feed { proto_version := ALPS_PROTO_V3_RUSHMORE } Driver.init
          [0x8f, 0x00, 0x00, 0x00, 0x00, 0xff]).1._ringBuffer.head = 0 := by
  decide

/-- Claim C5, as stated, fails: on a V2 device the bare PS/2 packet `08 00 00`
is reported as Buffering, Buffering, PacketReady with the counter back at 0,
but the ring-buffer head has advanced by 6 (the packet size), not by 3. -/
theorem C5_counterexample :
    ((0x08 : Nat) &&& 0xc8 = 0x08) ∧
      (feed { proto_version := ALPS_PROTO_V2, byte0 := 0xf8, mask0 := 0xf8 } Driver.init
          [0x08, 0x00, 0x00]).2 =
        [kPS2IR_packetBuffering, kPS2IR_packetBuffering, kPS2IR_packetReady] ∧
      (feed { proto_version := ALPS_PROTO_V2, byte0 := 0xf8, mask0 := 0xf8 } Driver.init
          [0x08, 0x00, 0x00]).1._ringBuffer.head ≠
        (Driver.init._ringBuffer.head + 3) % ringCapacity ∧
      (feed { proto_version := ALPS_PROTO_V2, byte0 := 0xf8, mask0 := 0xf8 } Driver.init
          [0x08, 0x00, 0x00]).1._ringBuffer.head = 6 := by
  decide

/-- Claim C5, amended. For every version other than V8 (packet size 8 for V4,
6 otherwise), starting with the counter at 0, three bytes whose first byte
`b0` satisfies `(b0 & 0xc8) == 0x08` make `interruptOccurred` return
Buffering, Buffering, PacketReady; the counter is then 0 and the ring-buffer
head has advanced by exactly the packet size (which is not 3), that many
bytes being queued for the dispatcher. -/
theorem C5_bare_ps2_packet (priv : alps_data) (s : Driver) (b0 b1 b2 : Nat)
    (hsize : priv.pktsize = pktsizeOf priv.proto_version)
    (hv : priv.proto_version ≠ ALPS_PROTO_V8)
    (hcnt : s._packetByteCount = 0)
    (hps2 : b0 &&& 0xc8 = 0x08) :
    (feed priv s [b0, b1, b2]).2 =
        [kPS2IR_packetBuffering, kPS2IR_packetBuffering, kPS2IR_packetReady] ∧
      (feed priv s [b0, b1, b2]).1._packetByteCount = 0 ∧
      (feed priv s [b0, b1, b2]).1._ringBuffer.head =
        (s._ringBuffer.head + priv.pktsize) % ringCapacity ∧
      (feed priv s [b0, b1, b2]).1._ringBuffer.count = s._ringBuffer.count + priv.pktsize ∧
      priv.pktsize ≠ 3 := by
  have e1 := interruptOccurred_ps2 priv s b0 b0 (by omega) (by rw [if_pos hcnt]) hv hps2
  rw [if_neg (by omega)] at e1
  have e2 := interruptOccurred_ps2 priv
    { _ringBuffer := s.store b0, _packetByteCount := s._packetByteCount + 1 } b1 b0
    (by simp only; omega)
    (by rw [if_neg (by simp only; omega), store_packet, if_pos hcnt.symm]) hv hps2
  rw [if_neg (by simp only; omega)] at e2
  have e3 := interruptOccurred_ps2 priv
    { _ringBuffer := Driver.store
        { _ringBuffer := s.store b0, _packetByteCount := s._packetByteCount + 1 } b1,
      _packetByteCount := s._packetByteCount + 1 + 1 } b2 b0
    (by simp only; omega)
    (by
      rw [if_neg (by simp only; omega), store_packet, if_neg (by simp only; omega),
        store_packet, if_pos hcnt.symm]) hv hps2
  rw [if_pos (by simp only; omega)] at e3
  have h3 : priv.pktsize ≠ 3 := by
    rw [hsize]
    unfold pktsizeOf
    split <;> decide
  have hfeed : feed priv s [b0, b1, b2] =
      ({ _ringBuffer := RingBuffer.advanceHead (Driver.store
          { _ringBuffer := Driver.store
              { _ringBuffer := s.store b0, _packetByteCount := s._packetByteCount + 1 } b1,
            _packetByteCount := s._packetByteCount + 1 + 1 } b2) priv.pktsize,
         _packetByteCount := 0 },
       [kPS2IR_packetBuffering, kPS2IR_packetBuffering, kPS2IR_packetReady]) := by
    simp only [feed, e1, e2, e3]
  rw [hfeed]
  exact ⟨rfl, rfl, rfl, rfl, h3⟩

/-- Witness for claim C5 (amended): the bare PS/2 packet `08 00 00` on a V4
device, whose packet size is 8. -/
theorem C5_bare_ps2_packet_witness :
    (feed { proto_version := ALPS_PROTO_V4, pktsize := 8 } Driver.init [0x08, 0, 0]).2 =
        [kPS2IR_packetBuffering, kPS2IR_packetBuffering, kPS2IR_packetReady] ∧
      (feed { proto_version := ALPS_PROTO_V4, pktsize := 8 } Driver.init
        [0x08, 0, 0]).1._packetByteCount = 0 ∧
      (feed { proto_version := ALPS_PROTO_V4, pktsize := 8 } Driver.init
        [0x08, 0, 0]).1._ringBuffer.head = (0 + 8) % ringCapacity ∧
      (feed { proto_version := ALPS_PROTO_V4, pktsize := 8 } Driver.init
        [0x08, 0, 0]).1._ringBuffer.count = 0 + 8 ∧
      (8 : Nat) ≠ 3 :=
  C5_bare_ps2_packet { proto_version := ALPS_PROTO_V4, pktsize := 8 } Driver.init 0x08 0 0
    rfl (by decide) rfl (by decide)

/-- Claim C6. For every version earlier than V5 (V1, V2, V3, V3_RUSHMORE, V4)
with the packet in progress holding a first byte that satisfies sync and does
not match the bare PS/2 pattern, and with the interleave pattern not applying:
if the byte received at zero-based position `k` (`1 <= k <= pktsize - 1`, the
value of the counter on entry) has its top bit set, `interruptOccurred`
returns Buffering, except on V3_RUSHMORE at the final position
`k = pktsize - 1`, where it returns PacketReady. -/
theorem C6_top_bit_rejected (priv : alps_data) (s : Driver) (data : Nat)
    (hsize : priv.pktsize = pktsizeOf priv.proto_version)
    (hver : priv.proto_version ∈
      [ALPS_PROTO_V1, ALPS_PROTO_V2, ALPS_PROTO_V3, ALPS_PROTO_V3_RUSHMORE, ALPS_PROTO_V4])
    (hk1 : 1 ≤ s._packetByteCount) (hk2 : s._packetByteCount ≤ priv.pktsize - 1)
    (hsync : s.packet 0 &&& priv.mask0 = priv.byte0)
    (hps2 : s.packet 0 &&& 0xc8 ≠ 0x08)
    (hint : priv.flags &&& ALPS_PS2_INTERLEAVED = 0 ∨ s._packetByteCount < 3 ∨
      (if s._packetByteCount = 3 then data else s.packet 3) &&& 0x0f ≠ 0x0f)
    (htop : data &&& 0x80 ≠ 0) :
    (interruptOccurred priv s data).2 =
      if priv.proto_version = ALPS_PROTO_V3_RUSHMORE ∧ s._packetByteCount = priv.pktsize - 1
      then kPS2IR_packetReady else kPS2IR_packetBuffering := by
  have hn : 6 ≤ priv.pktsize ∧ priv.pktsize ≤ 8 := by
    rw [hsize]
    unfold pktsizeOf
    split <;> decide
  have hcode : priv.proto_version.code < ALPS_PROTO_V5.code := by
    simp only [List.mem_cons, List.mem_singleton, List.not_mem_nil, or_false] at hver
    rcases hver with h | h | h | h | h <;> rw [h] <;> decide
  have hmod : (s._packetByteCount + 1) % 2 ^ 32 = s._packetByteCount + 1 :=
    Nat.mod_eq_of_lt (by omega)
  have hz : ¬ s._packetByteCount = 0 := by omega
  have c1 : ¬ (priv.proto_version ≠ ALPS_PROTO_V8 ∧
      (s.store data).buffer ((s.store data).head + 0) &&& 0xc8 = 0x08) := by
    rw [store_head_zero, if_neg hz]
    exact fun h => hps2 h.2
  have c2 : ¬ (priv.flags &&& ALPS_PS2_INTERLEAVED ≠ 0 ∧ s._packetByteCount + 1 ≥ 4 ∧
      (s.store data).buffer ((s.store data).head + 3) &&& 0x0f = 0x0f) := by
    rintro ⟨h1, h2, h3⟩
    rw [store_at] at h3
    rcases hint with h | h | h
    · exact h1 h
    · omega
    · by_cases e : s._packetByteCount = 3
      · rw [if_pos e] at h
        rw [if_pos e.symm] at h3
        exact h h3
      · rw [if_neg e] at h
        rw [if_neg (fun x => e x.symm)] at h3
        exact h h3
  have c3 : ¬ ((s.store data).buffer ((s.store data).head + 0) &&& priv.mask0 ≠ priv.byte0) := by
    rw [store_head_zero, if_neg hz]
    exact fun h => h hsync
  have c4 : priv.proto_version.code < ALPS_PROTO_V5.code ∧ s._packetByteCount + 1 ≥ 2 ∧
      s._packetByteCount + 1 ≤ priv.pktsize ∧
      (s.store data).buffer ((s.store data).head + (s._packetByteCount + 1 - 1)) &&& 0x80 ≠ 0 := by
    refine ⟨hcode, by omega, by omega, ?_⟩
    rw [Nat.add_sub_cancel, store_at, if_pos rfl]
    exact htop
  unfold interruptOccurred
  simp only [hmod]
  rw [if_neg c1, if_neg c2, if_neg c3, if_pos c4]
  by_cases hr : priv.proto_version = ALPS_PROTO_V3_RUSHMORE ∧
      s._packetByteCount = priv.pktsize - 1
  · rw [if_pos hr, if_pos ⟨hr.1, by omega⟩]
  · rw [if_neg hr, if_neg (fun h => hr ⟨h.1, by omega⟩)]

/-- Witness for claim C6: a V3 Rushmore device that has buffered
`8f 00 00 00 00` and now receives `0xff` as the final byte. -/
theorem C6_top_bit_rejected_witness :
    (interruptOccurred { proto_version := ALPS_PROTO_V3_RUSHMORE }
        (feed { proto_version := ALPS_PROTO_V3_RUSHMORE } Driver.init
          [0x8f, 0x00, 0x00, 0x00, 0x00]).1 0xff).2 =
      if ALPS_PROTO_V3_RUSHMORE = ALPS_PROTO_V3_RUSHMORE ∧
          (feed { proto_version := ALPS_PROTO_V3_RUSHMORE } Driver.init
            [0x8f, 0x00, 0x00, 0x00, 0x00]).1._packetByteCount = 6 - 1
      then kPS2IR_packetReady else kPS2IR_packetBuffering :=
  C6_top_bit_rejected { proto_version := ALPS_PROTO_V3_RUSHMORE }
    (feed { proto_version := ALPS_PROTO_V3_RUSHMORE } Driver.init
      [0x8f, 0x00, 0x00, 0x00, 0x00]).1 0xff
    rfl (by decide) (by decide) (by decide) (by decide) (by decide) (Or.inl (by decide))
    (by decide)

/-- Claim C7. On a V7 or V8 device as `set_protocol` configures it (sync pair
`0x48 / 0x48` resp. `0x18 / 0x18`, packet size 6), starting with the counter
at 0 and a first byte `b0` that satisfies sync: on V7 the 3rd call returns
Buffering if `(b2 & 0x40) != 0x40`, the 4th if `(b3 & 0x48) != 0x48` and the
6th if `(b5 & 0x40) != 0`; on V8 the 4th call returns Buffering if
`(b3 & 0x08) != 0x08` and the 6th if `(b5 & 0x10) != 0`. In each case all the
earlier calls return Buffering too, so a 6-byte V7 or V8 packet that fails its
6th-byte check yields no PacketReady. -/
theorem C7_v7_v8_checks (priv : alps_data) (s : Driver) (b0 b1 b2 b3 b4 b5 : Nat)
    (hsize : priv.pktsize = pktsizeOf priv.proto_version)
    (hpair : (priv.byte0, priv.mask0) = set_protocol_sync priv.proto_version)
    (hcnt : s._packetByteCount = 0)
    (hsync : b0 &&& priv.mask0 = priv.byte0) :
    (priv.proto_version = ALPS_PROTO_V7 →
      (b2 &&& 0x40 ≠ 0x40 →
        (feed priv s [b0, b1, b2]).2 = List.replicate 3 kPS2IR_packetBuffering) ∧
      (b3 &&& 0x48 ≠ 0x48 →
        (feed priv s [b0, b1, b2, b3]).2 = List.replicate 4 kPS2IR_packetBuffering) ∧
      (b5 &&& 0x40 ≠ 0 →
        (feed priv s [b0, b1, b2, b3, b4, b5]).2 = List.replicate 6 kPS2IR_packetBuffering ∧
        kPS2IR_packetReady ∉ (feed priv s [b0, b1, b2, b3, b4, b5]).2)) ∧
    (priv.proto_version = ALPS_PROTO_V8 →
      (b3 &&& 0x08 ≠ 0x08 →
        (feed priv s [b0, b1, b2, b3]).2 = List.replicate 4 kPS2IR_packetBuffering) ∧
      (b5 &&& 0x10 ≠ 0 →
        (feed priv s [b0, b1, b2, b3, b4, b5]).2 = List.replicate 6 kPS2IR_packetBuffering ∧
        kPS2IR_packetReady ∉ (feed priv s [b0, b1, b2, b3, b4, b5]).2)) := by
  have hnr : kPS2IR_packetReady ∉ List.replicate 6 kPS2IR_packetBuffering := by decide
  constructor
  · intro hv
    have hn : priv.pktsize = 6 := by rw [hsize, hv]; rfl
    have hm : priv.byte0 = 0x48 ∧ priv.mask0 = 0x48 := by
      rw [hv] at hpair
      exact ⟨congrArg Prod.fst hpair, congrArg Prod.snd hpair⟩
    have hps2 : b0 &&& 0xc8 ≠ 0x08 ∨ priv.proto_version = ALPS_PROTO_V8 :=
      Or.inl (sync48_not_ps2 b0 (by rw [hm.1, hm.2] at hsync; exact hsync))
    refine ⟨?_, ?_, ?_⟩
    · intro hb
      exact feed_reject_last priv b0 hps2 (by omega) [b0, b1] b2 s hcnt
        (by rw [hn]; simp) (by simp) rfl (Or.inl ⟨hv, Or.inl ⟨rfl, hb⟩⟩)
    · intro hb
      exact feed_reject_last priv b0 hps2 (by omega) [b0, b1, b2] b3 s hcnt
        (by rw [hn]; simp) (by simp) rfl (Or.inl ⟨hv, Or.inr (Or.inl ⟨rfl, hb⟩)⟩)
    · intro hb
      have h := feed_reject_last priv b0 hps2 (by omega) [b0, b1, b2, b3, b4] b5 s hcnt
        (by rw [hn]; simp) (by simp) rfl (Or.inl ⟨hv, Or.inr (Or.inr ⟨rfl, hb⟩)⟩)
      refine ⟨h, ?_⟩
      rw [show [b0, b1, b2, b3, b4, b5] = [b0, b1, b2, b3, b4] ++ [b5] from rfl, h]
      exact hnr
  · intro hv
    have hn : priv.pktsize = 6 := by rw [hsize, hv]; rfl
    have hps2 : b0 &&& 0xc8 ≠ 0x08 ∨ priv.proto_version = ALPS_PROTO_V8 := Or.inr hv
    refine ⟨?_, ?_⟩
    · intro hb
      exact feed_reject_last priv b0 hps2 (by omega) [b0, b1, b2] b3 s hcnt
        (by rw [hn]; simp) (by simp) rfl (Or.inr ⟨hv, Or.inl ⟨rfl, hb⟩⟩)
    · intro hb
      have h := feed_reject_last priv b0 hps2 (by omega) [b0, b1, b2, b3, b4] b5 s hcnt
        (by rw [hn]; simp) (by simp) rfl (Or.inr ⟨hv, Or.inr ⟨rfl, hb⟩⟩)
      refine ⟨h, ?_⟩
      rw [show [b0, b1, b2, b3, b4, b5] = [b0, b1, b2, b3, b4] ++ [b5] from rfl, h]
      exact hnr

/-- Witness for claim C7: a V7 device receives `48 00 40 48 00 40`, whose sixth
byte has bit 6 set; all six calls return Buffering. -/
theorem C7_v7_v8_checks_witness :
    (0x48 : Nat) &&& 0x48 = 0x48 ∧ (0x40 : Nat) &&& 0x40 ≠ 0 ∧
      (feed { proto_version := ALPS_PROTO_V7, byte0 := 0x48, mask0 := 0x48 } Driver.init
          [0x48, 0x00, 0x40, 0x48, 0x00, 0x40]).2 =
        List.replicate 6 kPS2IR_packetBuffering ∧
      kPS2IR_packetReady ∉
        (feed { proto_version := ALPS_PROTO_V7, byte0 := 0x48, mask0 := 0x48 } Driver.init
          [0x48, 0x00, 0x40, 0x48, 0x00, 0x40]).2 :=
  ⟨by decide, by decide,
    ((C7_v7_v8_checks { proto_version := ALPS_PROTO_V7, byte0 := 0x48, mask0 := 0x48 }
      Driver.init 0x48 0x00 0x40 0x48 0x00 0x40 rfl rfl rfl (by decide)).1 rfl).2.2
      (by decide)⟩

/-- Claim C8. The packet size chosen by `deviceSpecificInit` depends on the
version only (8 for V4, 6 for every other version), and the ring-buffer
capacity `kPacketLength * 32 = 192` is an exact multiple of the packet size of
every supported version. -/
theorem C8_packet_size_divides_capacity (v : ProtoVersion) :
    (v = ALPS_PROTO_V4 → pktsizeOf v = 8) ∧ (v ≠ ALPS_PROTO_V4 → pktsizeOf v = 6) ∧
      ringCapacity = 192 ∧ ringCapacity % pktsizeOf v = 0 := by
  cases v <;> decide

/-! ## The bitmap resolver: auxiliary facts -/

theorem bitmapLoop_zero (i : Int) (prev : Nat) (st : BitmapScan) :
    bitmapLoop 0 i prev st = st := by
  rw [bitmapLoop]
  simp

theorem bitmapLoop_step (map : Nat) (h : map ≠ 0) (i : Int) (prev : Nat) (st : BitmapScan) :
    bitmapLoop map i prev st =
      bitmapLoop (map >>> 1) (i + 1) (map &&& 1) (bitmapBody (map &&& 1) i prev st) := by
  rw [bitmapLoop, dif_neg h]

theorem bitmapBody_fingers (bit : Nat) (i : Int) (prev : Nat) (st : BitmapScan) :
    (bitmapBody bit i prev st).fingers =
      st.fingers + ((if bit ≠ 0 ∧ prev = 0 then 1 else 0 : Nat) : Int) := by
  unfold bitmapBody
  by_cases hb : bit ≠ 0
  · by_cases hp : prev = 0 <;> by_cases ho : st.onHigh = true <;> simp [hb, hp, ho]
  · by_cases hp : prev = 0 <;> simp [hb, hp]

theorem isRunStartAfter_zero (prev j : Nat) : isRunStartAfter prev 0 j = false := by
  simp [isRunStartAfter]

theorem runStarts_succ (n prev map : Nat) :
    ((List.range (n + 1)).filter (isRunStartAfter prev map)).length =
      (if map &&& 1 ≠ 0 ∧ prev = 0 then 1 else 0) +
        ((List.range n).filter (isRunStartAfter (map &&& 1) (map >>> 1))).length := by
  have hpt : (isRunStartAfter prev map ∘ Nat.succ) = isRunStartAfter (map &&& 1) (map >>> 1) := by
    funext j
    simp only [Function.comp, isRunStartAfter, Nat.succ_eq_add_one, Nat.add_sub_cancel,
      Nat.testBit_shiftRight, Nat.and_one_is_mod]
    rw [Nat.add_comm 1 j, if_neg (Nat.succ_ne_zero j)]
    congr 1
    by_cases hj : j = 0
    · subst hj
      rw [if_pos rfl, Nat.testBit_zero]
      rcases Nat.mod_two_eq_zero_or_one map with h | h <;> simp [h]
    · rw [if_neg hj]
      congr 2
      omega
  have h0 : isRunStartAfter prev map 0 = decide (map &&& 1 ≠ 0 ∧ prev = 0) := by
    simp only [isRunStartAfter, if_pos, Nat.testBit_zero, Nat.and_one_is_mod]
    rcases Nat.mod_two_eq_zero_or_one map with h | h <;> by_cases hp : prev = 0 <;> simp [h, hp]
  rw [List.range_succ_eq_map, List.filter_cons, List.filter_map, hpt, h0]
  by_cases hc : map &&& 1 ≠ 0 ∧ prev = 0
  · rw [if_pos (by simpa using hc), if_pos hc, List.length_cons, List.length_map]
    omega
  · rw [if_neg (by simpa using hc), if_neg hc, List.length_map]
    omega

theorem bitmapLoop_fingers :
    ∀ (n map : Nat) (i : Int) (prev : Nat) (st : BitmapScan), map < 2 ^ n →
      (bitmapLoop map i prev st).fingers =
        st.fingers + (((List.range n).filter (isRunStartAfter prev map)).length : Nat) := by
  intro n
  induction n with
  | zero =>
    intro map i prev st h
    have hz : map = 0 := by simpa using h
    subst hz
    rw [bitmapLoop_zero]
    simp
  | succ n ih =>
    intro map i prev st h
    by_cases hz : map = 0
    · subst hz
      rw [bitmapLoop_zero]
      have : (List.range (n + 1)).filter (isRunStartAfter prev 0) = [] := by
        rw [List.filter_eq_nil_iff]
        intro a _
        simp [isRunStartAfter_zero]
      rw [this]
      simp
    · rw [bitmapLoop_step map hz, ih _ _ _ _ (by rw [Nat.shiftRight_one]; omega),
        runStarts_succ, bitmapBody_fingers]
      push_cast
      omega

theorem runCount_eq (map : Nat) :
    runCount map = ((List.range 32).filter (isRunStartAfter 0 map)).length := by
  have h : isRunStart map = isRunStartAfter 0 map := by
    funext j
    unfold isRunStart isRunStartAfter
    by_cases hj : j = 0
    · simp [hj]
    · have hb : (j == 0) = false := by simpa using hj
      rw [if_neg hj, hb, Bool.false_or]
  unfold runCount
  rw [h]

theorem get_bitmap_points_fingers (map : Nat) (hmap : map < 2 ^ 32)
    (low high : alps_bitmap_point) (fingers : Int) :
    (alps_get_bitmap_points map low high fingers).fingers = fingers + (runCount map : Nat) := by
  unfold alps_get_bitmap_points
  rw [bitmapLoop_fingers 32 map 0 0 _ hmap, runCount_eq]

theorem runCount_pos (map : Nat) (hmap : map < 2 ^ 32) (h : map ≠ 0) : 0 < runCount map := by
  have hex : ∃ j, map.testBit j = true := by
    by_contra hne
    push_neg at hne
    apply h
    apply Nat.eq_of_testBit_eq
    intro j
    simp [hne j]
  classical
  let j0 := Nat.find hex
  have hj0 : map.testBit j0 = true := Nat.find_spec hex
  have hmin : ∀ j, j < j0 → ¬ map.testBit j = true := fun j hj => Nat.find_min hex hj
  have hlt : j0 < 32 := by
    by_contra hge
    have := Nat.testBit_eq_false_of_lt (lt_of_lt_of_le hmap
      (Nat.pow_le_pow_right (by decide) (Nat.le_of_not_lt hge)))
    rw [this] at hj0
    exact absurd hj0 (by decide)
  have hstart : isRunStart map j0 = true := by
    unfold isRunStart
    rw [hj0]
    by_cases hz : j0 = 0
    · simp [hz]
    · have := hmin (j0 - 1) (by omega)
      simp [hz, this]
  unfold runCount
  apply List.length_pos_of_mem
  exact List.mem_filter.mpr ⟨List.mem_range.mpr hlt, hstart⟩

theorem and_one_shift (M i : Nat) : (M >>> i) &&& 1 = if M.testBit i = true then 1 else 0 := by
  rw [Nat.and_one_is_mod, Nat.testBit_to_div_mod, Nat.shiftRight_eq_div_pow]
  rcases Nat.mod_two_eq_zero_or_one (M / 2 ^ i) with h | h <;> simp [h]

theorem shift_eq_zero_iff (M i : Nat) : M >>> i = 0 ↔ ∀ j, i ≤ j → M.testBit j = false := by
  constructor
  · intro h j hj
    have : M < 2 ^ i := by
      rw [Nat.shiftRight_eq_div_pow] at h
      exact (Nat.div_eq_zero_iff (Nat.two_pow_pos i)).mp h
    exact Nat.testBit_eq_false_of_lt (lt_of_lt_of_le this (Nat.pow_le_pow_right (by decide) hj))
  · intro h
    have : M < 2 ^ i := Nat.lt_pow_two_of_testBit M h
    rw [Nat.shiftRight_eq_div_pow]
    exact Nat.div_eq_of_lt this

theorem ScanInv_step (M : Nat) (low0 high0 : alps_bitmap_point) (f0 : Int) (i prev : Nat)
    (st : BitmapScan) (h : ScanInv M low0 high0 f0 i prev st) :
    ScanInv M low0 high0 f0 (i + 1) ((M >>> i) &&& 1)
      (bitmapBody ((M >>> i) &&& 1) (i : Int) prev st) := by
  rw [and_one_shift]
  have hlast : ∀ (P : Nat → Prop), (∀ j, j < i → P j) → P i → ∀ j, j < i + 1 → P j := by
    intro P h1 h2 j hj
    rcases Nat.lt_or_eq_of_le (Nat.le_of_lt_succ hj) with h | h
    · exact h1 j h
    · rw [h]; exact h2
  by_cases hb : M.testBit i = true
  · rw [if_pos hb]
    rcases h with ⟨ho, hp, hf, hl, hh, hz⟩ | ⟨ho, hp, hf, hh, s, m, hl, hm, hsm, hz, hr⟩ |
      ⟨ho, s, m, hl, hrun, hz, hsm, hc⟩
    · -- first run starts
      right; left
      refine ⟨by simp [bitmapBody, ho], rfl, by simp [bitmapBody, ho, hp, hf],
        by simp [bitmapBody, ho, hh], i, 1, by simp [bitmapBody, ho, hp], by decide, rfl, hz, ?_⟩
      intro j hj
      have : j = 0 := by omega
      rw [this]; exact hb
    · -- first run continues
      right; left
      refine ⟨by simp [bitmapBody, ho], rfl, by simp [bitmapBody, ho, hp, hf],
        by simp [bitmapBody, ho, hh], s, m + 1, by simp [bitmapBody, ho, hp, hl], by omega,
        by omega, hz, ?_⟩
      intro j hj
      rcases Nat.lt_or_eq_of_le (Nat.le_of_lt_succ hj) with h | h
      · exact hr j h
      · rw [h, hsm]; exact hb
    · right; right
      refine ⟨by simp [bitmapBody, ho], s, m, by simp [bitmapBody, ho, hl], hrun, hz,
        by omega, ?_⟩
      right
      rcases hc with ⟨hf, hp, hh, hclr⟩ | ⟨hf, s2, m2, hh, hm2, hlt, hle, hr2, hbelow, hclr, hp⟩
      · -- second run starts
        refine ⟨by simp [bitmapBody, ho, hp, hf]; omega, i, 1, by simp [bitmapBody, ho, hp],
          by decide, by omega, by omega, ?_, ?_, ?_, by simp⟩
        · intro j hj
          have : j = 0 := by omega
          rw [this]; exact hb
        · exact hclr (i - 1) (by omega) (by omega)
        · intro j h1 h2
          omega
      · by_cases he : s2 + m2 = i
        · -- latest run continues
          rw [if_pos he] at hp
          refine ⟨by simp [bitmapBody, ho, hp]; omega, s2, m2 + 1,
            by simp [bitmapBody, ho, hp, hh], by omega, hlt, by omega, ?_, hbelow, ?_,
            by rw [if_pos (by omega)]⟩
          · intro j hj
            rcases Nat.lt_or_eq_of_le (Nat.le_of_lt_succ hj) with h | h
            · exact hr2 j h
            · rw [h, he]; exact hb
          · intro j h1 h2
            omega
        · -- a further run starts
          rw [if_neg he] at hp
          refine ⟨by simp [bitmapBody, ho, hp]; omega, i, 1, by simp [bitmapBody, ho, hp],
            by decide, by omega, by omega, ?_, ?_, ?_, by simp⟩
          · intro j hj
            have : j = 0 := by omega
            rw [this]; exact hb
          · exact hclr (i - 1) (by omega) (by omega)
          · intro j h1 h2
            omega
  · rw [if_neg hb]
    have hb0 : M.testBit i = false := by simpa using hb
    rcases h with ⟨ho, hp, hf, hl, hh, hz⟩ | ⟨ho, hp, hf, hh, s, m, hl, hm, hsm, hz, hr⟩ |
      ⟨ho, s, m, hl, hrun, hz, hsm, hc⟩
    · left
      exact ⟨by simp [bitmapBody, ho, hp], rfl, by simp [bitmapBody, hp, hf],
        by simp [bitmapBody, hp, hl], by simp [bitmapBody, hp, hh],
        hlast (fun j => M.testBit j = false) hz hb0⟩
    · -- first run ends
      right; right
      refine ⟨by simp [bitmapBody, hp], s, m, by simp [bitmapBody, hp, hl],
        ⟨hm, hr, by rw [hsm]; exact hb0, ?_⟩, hz, by omega, ?_⟩
      · by_cases hs : s = 0
        · exact Or.inl hs
        · exact Or.inr (hz (s - 1) (by omega))
      · left
        refine ⟨by simp [bitmapBody, hp, hf], rfl, by simp [bitmapBody, hp, hh], ?_⟩
        intro j h1 h2
        have : j = i := by omega
        rw [this]; exact hb0
    · right; right
      have hbody : bitmapBody 0 (i : Int) prev st = st := by
        unfold bitmapBody
        by_cases hp : prev = 0
        · simp [hp]
        · simp [hp, ho]
          cases st
          simp at ho
          simp [ho]
      rw [hbody]
      refine ⟨ho, s, m, hl, hrun, hz, by omega, ?_⟩
      rcases hc with ⟨hf, hp, hh, hclr⟩ | ⟨hf, s2, m2, hh, hm2, hlt, hle, hr2, hbelow, hclr, hp⟩
      · left
        refine ⟨hf, rfl, hh, ?_⟩
        intro j h1 h2
        rcases Nat.lt_or_eq_of_le (Nat.le_of_lt_succ h2) with h | h
        · exact hclr j h1 h
        · rw [h]; exact hb0
      · right
        refine ⟨hf, s2, m2, hh, hm2, hlt, by omega, hr2, hbelow, ?_, ?_⟩
        · intro j h1 h2
          rcases Nat.lt_or_eq_of_le (Nat.le_of_lt_succ h2) with h | h
          · exact hclr j h1 h
          · rw [h]; exact hb0
        · rw [if_neg (by omega)]

theorem bitmapLoop_inv (M : Nat) (low0 high0 : alps_bitmap_point) (f0 : Int) :
    ∀ (n i prev : Nat) (st : BitmapScan), M >>> i < 2 ^ n →
      ScanInv M low0 high0 f0 i prev st →
      ∃ i' prev', (∀ j, i' ≤ j → M.testBit j = false) ∧
        ScanInv M low0 high0 f0 i' prev' (bitmapLoop (M >>> i) (i : Int) prev st) := by
  intro n
  induction n with
  | zero =>
    intro i prev st hlt hinv
    have hz : M >>> i = 0 := by simpa using hlt
    rw [hz, bitmapLoop_zero]
    exact ⟨i, prev, (shift_eq_zero_iff M i).mp hz, hinv⟩
  | succ n ih =>
    intro i prev st hlt hinv
    by_cases hz : M >>> i = 0
    · rw [hz, bitmapLoop_zero]
      exact ⟨i, prev, (shift_eq_zero_iff M i).mp hz, hinv⟩
    · rw [bitmapLoop_step _ hz, ← Nat.shiftRight_add]
      have hcast : ((i : Int) + 1) = ((i + 1 : Nat) : Int) := by push_cast; rfl
      rw [hcast]
      apply ih (i + 1)
      · rw [Nat.shiftRight_add, Nat.shiftRight_one]
        omega
      · exact ScanInv_step M low0 high0 f0 i prev st hinv

theorem get_bitmap_points_inv (map : Nat) (low high : alps_bitmap_point) (fingers : Int) :
    ∃ i prev, (∀ j, i ≤ j → map.testBit j = false) ∧
      ScanInv map low high fingers i prev (alps_get_bitmap_points map low high fingers) := by
  have h := bitmapLoop_inv map low high fingers map 0 0
    { low := low, high := high, fingers := fingers, onHigh := false }
    (by rw [Nat.shiftRight_zero]; exact Nat.lt_two_pow map)
    (Or.inl ⟨rfl, rfl, rfl, rfl, rfl, fun j hj => absurd hj (Nat.not_lt_zero j)⟩)
  rw [Nat.shiftRight_zero] at h
  exact h

theorem get_bitmap_points_two_runs (map : Nat) (hmap : map < 2 ^ 32)
    (low high : alps_bitmap_point) (fingers : Int) (h2 : 2 ≤ runCount map) :
    ∃ s1 n1 s2 n2 : Nat,
      (alps_get_bitmap_points map low high fingers).low = ⟨s1, n1⟩ ∧
      (alps_get_bitmap_points map low high fingers).high = ⟨s2, n2⟩ ∧
      IsMaximalRun map s1 n1 ∧ (∀ j, j < s1 → map.testBit j = false) ∧
      IsMaximalRun map s2 n2 ∧ (∀ j, s2 + n2 ≤ j → map.testBit j = false) ∧
      s1 + n1 < s2 := by
  obtain ⟨i, prev, hend, hinv⟩ := get_bitmap_points_inv map low high fingers
  have hf := get_bitmap_points_fingers map hmap low high fingers
  rcases hinv with ⟨_, _, hf', _⟩ | ⟨_, _, hf', _⟩ | ⟨_, s, m, hl, hrun, hz, hsm, hc⟩
  · rw [hf] at hf'
    omega
  · rw [hf] at hf'
    omega
  · rcases hc with ⟨hf', _⟩ | ⟨_, s2, m2, hh, hm2, hlt, hle, hr2, hbelow, hclr, _⟩
    · rw [hf] at hf'
      omega
    · have habove : ∀ j, s2 + m2 ≤ j → map.testBit j = false := by
        intro j hj
        by_cases hji : j < i
        · exact hclr j hj hji
        · exact hend j (by omega)
      exact ⟨s, m, s2, m2, hl, hh, hrun, hz,
        ⟨hm2, hr2, habove _ (Nat.le_refl _), Or.inr hbelow⟩, habove, hlt⟩

theorem isRunStart_iff_maximalRun (map s : Nat) :
    isRunStart map s = true ↔ ∃ n, IsMaximalRun map s n := by
  constructor
  · intro h
    unfold isRunStart at h
    rw [Bool.and_eq_true] at h
    have hex : ∃ k, map.testBit (s + k) = false :=
      ⟨map, Nat.testBit_eq_false_of_lt (lt_of_lt_of_le (Nat.lt_two_pow map)
        (Nat.pow_le_pow_right (by decide) (Nat.le_add_left _ _)))⟩
    classical
    refine ⟨Nat.find hex, ?_, ?_, Nat.find_spec hex, ?_⟩
    · apply Nat.pos_of_ne_zero
      intro h0
      have := Nat.find_spec hex
      rw [h0, Nat.add_zero, h.1] at this
      exact absurd this (by decide)
    · intro j hj
      have := Nat.find_min hex hj
      simpa using this
    · by_cases hs : s = 0
      · exact Or.inl hs
      · have h2 := h.2
        have hb : (s == 0) = false := by simpa using hs
        rw [hb, Bool.false_or] at h2
        exact Or.inr (by simpa using h2)
  · rintro ⟨n, hn, hr, -, hlow⟩
    unfold isRunStart
    have h0 := hr 0 hn
    rw [Nat.add_zero] at h0
    rw [h0, Bool.true_and]
    rcases hlow with h | h
    · simp [h]
    · simp [h]

theorem processBitmap_ret (priv : alps_data) (fields : alps_fields) :
    (processBitmap priv fields).2.2 =
      if fields.x_map = 0 ∨ fields.y_map = 0 then 0
      else max (alps_get_bitmap_points fields.x_map {} {} 0).fingers
        (alps_get_bitmap_points fields.y_map {} {} 0).fingers := by
  unfold processBitmap
  split <;> rfl

/-! ## The bitmap resolver: the claims -/

/-- Claim C9. For 32-bit bitmaps, `processBitmap` returns 0 if and only if
`x_map` or `y_map` is zero; otherwise it returns `max(rx, ry)`, where `rx` and
`ry` are the numbers of maximal runs of consecutive set bits in `x_map` and
`y_map`. In particular it returns 1 for a single run on each axis and 2 for
two disjoint runs on each axis. -/
theorem C9_processBitmap_finger_count (priv : alps_data) (fields : alps_fields)
    (hx : fields.x_map < 2 ^ 32) (hy : fields.y_map < 2 ^ 32) :
    ((processBitmap priv fields).2.2 = 0 ↔ fields.x_map = 0 ∨ fields.y_map = 0) ∧
      (¬ (fields.x_map = 0 ∨ fields.y_map = 0) →
        (processBitmap priv fields).2.2 =
          ((max (runCount fields.x_map) (runCount fields.y_map) : Nat) : Int)) ∧
      (runCount fields.x_map = 1 → runCount fields.y_map = 1 →
        (processBitmap priv fields).2.2 = 1) ∧
      (runCount fields.x_map = 2 → runCount fields.y_map = 2 →
        (processBitmap priv fields).2.2 = 2) := by
  have hfx := get_bitmap_points_fingers fields.x_map hx {} {} 0
  have hfy := get_bitmap_points_fingers fields.y_map hy {} {} 0
  have hmain : ¬ (fields.x_map = 0 ∨ fields.y_map = 0) →
      (processBitmap priv fields).2.2 =
        ((max (runCount fields.x_map) (runCount fields.y_map) : Nat) : Int) := by
    intro hne
    rw [processBitmap_ret, if_neg hne, hfx, hfy]
    push_cast
    simp
  have hzero : ∀ map, map < 2 ^ 32 → 0 < runCount map → map ≠ 0 := by
    intro map _ hpos h0
    rw [h0] at hpos
    exact absurd hpos (by decide)
  refine ⟨⟨?_, ?_⟩, hmain, ?_, ?_⟩
  · intro h0
    by_contra hne
    have hxp := runCount_pos fields.x_map hx (fun h => hne (Or.inl h))
    rw [hmain hne] at h0
    have : max (runCount fields.x_map) (runCount fields.y_map) = 0 := by exact_mod_cast h0
    have := Nat.le_max_left (runCount fields.x_map) (runCount fields.y_map)
    omega
  · intro h0
    rw [processBitmap_ret, if_pos h0]
  · intro h1 h2
    have hne : ¬ (fields.x_map = 0 ∨ fields.y_map = 0) := by
      rintro (h | h)
      · exact hzero _ hx (by omega) h
      · exact hzero _ hy (by omega) h
    rw [hmain hne, h1, h2]
    rfl
  · intro h1 h2
    have hne : ¬ (fields.x_map = 0 ∨ fields.y_map = 0) := by
      rintro (h | h)
      · exact hzero _ hx (by omega) h
      · exact hzero _ hy (by omega) h
    rw [hmain hne, h1, h2]
    rfl

/-- Witness for claim C9: two runs on the x axis (`1100110`), one run on the
y axis (`111`); `processBitmap` returns 2. -/
theorem C9_processBitmap_finger_count_witness :
    runCount 0b1100110 = 2 ∧ runCount 0b111 = 1 ∧
      (processBitmap { proto_version := ALPS_PROTO_V3 }
          { x_map := 0b1100110, y_map := 0b111, st := ⟨100, 100⟩ }).2.2 =
        ((max (runCount 0b1100110) (runCount 0b111) : Nat) : Int) :=
  ⟨by decide, by decide,
    (C9_processBitmap_finger_count { proto_version := ALPS_PROTO_V3 }
      { x_map := 0b1100110, y_map := 0b111, st := ⟨100, 100⟩ }
      (by decide) (by decide)).2.1 (by decide)⟩

/-- Claim C10, as stated, fails: the bitmap `10101` has the three maximal runs
(0, 1), (2, 1) and (4, 1); `alps_get_bitmap_points` returns the lowest run
(0, 1) as `low`, but as `high` it returns the run (4, 1), not the
second-lowest run (2, 1). -/
theorem C10_counterexample :
    (0b10101 : Nat) ≠ 0 ∧ 2 ≤ runCount 0b10101 ∧
      IsMaximalRun 0b10101 0 1 ∧ IsMaximalRun 0b10101 2 1 ∧ IsMaximalRun 0b10101 4 1 ∧
      (alps_get_bitmap_points 0b10101 {} {} 0).low = ⟨0, 1⟩ ∧
      (alps_get_bitmap_points 0b10101 {} {} 0).high = ⟨4, 1⟩ ∧
      (alps_get_bitmap_points 0b10101 {} {} 0).high ≠ ⟨2, 1⟩ := by
  refine ⟨by decide, by decide, by decide, by decide, by decide, ?_, ?_, ?_⟩ <;>
    simp [alps_get_bitmap_points, bitmapLoop, bitmapBody]

/-- Claim C10, amended. For every 32-bit axis bitmap that contains at least two
maximal runs of set bits (such a bitmap is non-zero), `alps_get_bitmap_points`
returns as `low` the lowest-positioned run and as `high` the
highest-positioned run (start bit and length of each): `low` is a maximal run
with no set bit below it, `high` is a maximal run with no set bit above it,
and `low` lies below `high`. With exactly two runs `high` is the second-lowest
run. -/
theorem C10_low_and_high_runs (map : Nat) (hmap : map < 2 ^ 32)
    (low high : alps_bitmap_point) (fingers : Int) (h2 : 2 ≤ runCount map) :
    map ≠ 0 ∧ ∃ s1 n1 s2 n2 : Nat,
      (alps_get_bitmap_points map low high fingers).low = ⟨s1, n1⟩ ∧
      (alps_get_bitmap_points map low high fingers).high = ⟨s2, n2⟩ ∧
      IsMaximalRun map s1 n1 ∧ (∀ j, j < s1 → map.testBit j = false) ∧
      IsMaximalRun map s2 n2 ∧ (∀ j, s2 + n2 ≤ j → map.testBit j = false) ∧
      s1 + n1 < s2 := by
  refine ⟨?_, get_bitmap_points_two_runs map hmap low high fingers h2⟩
  intro h0
  rw [h0] at h2
  exact absurd h2 (by decide)

/-- Witness for claim C10 (amended): the bitmap `10101`. -/
theorem C10_low_and_high_runs_witness :
    (0b10101 : Nat) ≠ 0 ∧ ∃ s1 n1 s2 n2 : Nat,
      (alps_get_bitmap_points 0b10101 {} {} 0).low = ⟨s1, n1⟩ ∧
      (alps_get_bitmap_points 0b10101 {} {} 0).high = ⟨s2, n2⟩ ∧
      IsMaximalRun 0b10101 s1 n1 ∧ (∀ j, j < s1 → (0b10101 : Nat).testBit j = false) ∧
      IsMaximalRun 0b10101 s2 n2 ∧ (∀ j, s2 + n2 ≤ j → (0b10101 : Nat).testBit j = false) ∧
      s1 + n1 < s2 :=
  C10_low_and_high_runs 0b10101 (by decide) {} {} 0 (by decide)

/-! ## The corner selection: auxiliary facts -/

theorem processBitmap_zero (priv : alps_data) (fields : alps_fields)
    (h : fields.x_map = 0 ∨ fields.y_map = 0) :
    processBitmap priv fields = (priv, fields, 0) := by
  unfold processBitmap
  rw [if_pos h]

theorem processBitmap_nonzero (priv : alps_data) (fields : alps_fields)
    (h : ¬ (fields.x_map = 0 ∨ fields.y_map = 0)) :
    processBitmap priv fields =
      ({ priv with second_touch := committedCorner priv fields },
       { fields with
         mt := Function.update (Function.update fields.mt 0 fields.st) 1
           (bitmapCorners priv fields (committedCorner priv fields).toNat) },
       max (alps_get_bitmap_points fields.x_map {} {} 0).fingers
         (alps_get_bitmap_points fields.y_map {} {} 0).fingers) := by
  unfold processBitmap
  rw [if_neg h]
  rfl

theorem sq_add_sq_ne_int_max (a b : Int) : a * a + b * b ≠ 0x7fffffff := by
  have hsq : ∀ c : Int, ∃ t : Int, c * c = 4 * t ∨ c * c = 4 * t + 1 := by
    intro c
    rcases Int.even_or_odd' c with ⟨q, hq | hq⟩
    · exact ⟨q * q, Or.inl (by rw [hq]; ring)⟩
    · exact ⟨q * q + q, Or.inr (by rw [hq]; ring)⟩
  obtain ⟨t, ht⟩ := hsq a
  obtain ⟨u, hu⟩ := hsq b
  rcases ht with ht | ht <;> rcases hu with hu | hu <;> rw [ht, hu] <;> omega

theorem closestStep_eq (st : input_mt_pos) (corner : Nat → input_mt_pos) (acc : Int × Int)
    (i : Nat) :
    closestStep st corner acc i =
      if sqDist st (corner i) < acc.2 then ((i : Int), sqDist st (corner i)) else acc :=
  rfl

theorem closest_fold_range (st : input_mt_pos) (corner : Nat → input_mt_pos) :
    -1 ≤ ([0, 1, 2, 3].foldl (closestStep st corner) (-1, 0x7fffffff)).1 ∧
      ([0, 1, 2, 3].foldl (closestStep st corner) (-1, 0x7fffffff)).1 ≤ 3 := by
  simp only [List.foldl, closestStep_eq]
  split_ifs <;> simp

theorem closest_fold_eq (st : input_mt_pos) (corner : Nat → input_mt_pos) (k : Nat)
    (hk : k < 4)
    (hrange : ∀ i, i < 4 → sqDist st (corner i) ≤ 0x7fffffff)
    (hmin : ∀ j, j < 4 → sqDist st (corner k) ≤ sqDist st (corner j))
    (hlow : ∀ j, j < k → sqDist st (corner k) < sqDist st (corner j)) :
    ([0, 1, 2, 3].foldl (closestStep st corner) (-1, 0x7fffffff)).1 = (k : Int) := by
  have n0 := sq_add_sq_ne_int_max (st.x - (corner 0).x) (st.y - (corner 0).y)
  have n1 := sq_add_sq_ne_int_max (st.x - (corner 1).x) (st.y - (corner 1).y)
  have n2 := sq_add_sq_ne_int_max (st.x - (corner 2).x) (st.y - (corner 2).y)
  have n3 := sq_add_sq_ne_int_max (st.x - (corner 3).x) (st.y - (corner 3).y)
  have r0 := hrange 0 (by decide)
  have r1 := hrange 1 (by decide)
  have r2 := hrange 2 (by decide)
  have r3 := hrange 3 (by decide)
  have m0 := hmin 0 (by decide)
  have m1 := hmin 1 (by decide)
  have m2 := hmin 2 (by decide)
  have m3 := hmin 3 (by decide)
  simp only [List.foldl, closestStep_eq]
  change sqDist st (corner 0) ≠ _ at n0
  change sqDist st (corner 1) ≠ _ at n1
  change sqDist st (corner 2) ≠ _ at n2
  change sqDist st (corner 3) ≠ _ at n3
  interval_cases k
  · split_ifs <;> simp <;> omega
  · have l0 := hlow 0 (by decide)
    split_ifs <;> simp <;> omega
  · have l0 := hlow 0 (by decide)
    have l1 := hlow 1 (by decide)
    split_ifs <;> simp <;> omega
  · have l0 := hlow 0 (by decide)
    have l1 := hlow 1 (by decide)
    have l2 := hlow 2 (by decide)
    split_ifs <;> omega

theorem committedCorner_kept (priv : alps_data) (fields : alps_fields)
    (h : priv.second_touch ≠ -1) : committedCorner priv fields = priv.second_touch := by
  unfold committedCorner
  rw [if_neg h]

theorem committedCorner_range (priv : alps_data) (fields : alps_fields)
    (h : -1 ≤ priv.second_touch ∧ priv.second_touch ≤ 3) :
    0 ≤ committedCorner priv fields ∧ committedCorner priv fields ≤ 3 := by
  unfold committedCorner
  by_cases h1 : priv.second_touch = -1
  · rw [if_pos h1, h1]
    have hr := closest_fold_range fields.st (bitmapCorners priv fields)
    generalize ([0, 1, 2, 3].foldl (closestStep fields.st (bitmapCorners priv fields))
      (-1, 0x7fffffff)).1 = c at hr
    have hc : c = -1 ∨ c = 0 ∨ c = 1 ∨ c = 2 ∨ c = 3 := by omega
    rcases hc with e | e | e | e | e <;> (rw [e]; decide)
  · rw [if_neg h1]
    omega

theorem processBitmap_second_touch_kept (priv : alps_data) (fields : alps_fields)
    (h : priv.second_touch ≠ -1) :
    (processBitmap priv fields).1 = priv := by
  by_cases hz : fields.x_map = 0 ∨ fields.y_map = 0
  · rw [processBitmap_zero priv fields hz]
  · rw [processBitmap_nonzero priv fields hz, committedCorner_kept priv fields h]

theorem processBitmapSeq_kept (fs : List alps_fields) :
    ∀ priv : alps_data, priv.second_touch ≠ -1 → processBitmapSeq priv fs = priv := by
  induction fs with
  | nil =>
    intro priv _
    rfl
  | cons f fs ih =>
    intro priv h
    unfold processBitmapSeq
    rw [List.foldl_cons, processBitmap_second_touch_kept priv f h]
    exact ih priv h

theorem bitmapCorners_low_low (priv : alps_data) (fields : alps_fields)
    (hx : fields.x_map < 2 ^ 32) (hy : fields.y_map < 2 ^ 32)
    (h2x : 2 ≤ runCount fields.x_map) (h2y : 2 ≤ runCount fields.y_map) :
    ∃ sx nx sy ny : Nat,
      IsMaximalRun fields.x_map sx nx ∧ (∀ j, j < sx → fields.x_map.testBit j = false) ∧
      IsMaximalRun fields.y_map sy ny ∧ (∀ j, j < sy → fields.y_map.testBit j = false) ∧
      bitmapCorners priv fields 0 =
        reverseAxes priv
          { x := cornerCoord priv.x_max priv.x_bits ⟨sx, nx⟩,
            y := cornerCoord priv.y_max priv.y_bits ⟨sy, ny⟩ } := by
  obtain ⟨sx, nx, _, _, hlx, _, hrx, hzx, _⟩ :=
    get_bitmap_points_two_runs fields.x_map hx {} {} 0 h2x
  obtain ⟨sy, ny, _, _, hly, _, hry, hzy, _⟩ :=
    get_bitmap_points_two_runs fields.y_map hy {} {} 0 h2y
  have hfx := get_bitmap_points_fingers fields.x_map hx {} {} 0
  have hfy := get_bitmap_points_fingers fields.y_map hy {} {} 0
  have hx1 : (alps_get_bitmap_points fields.x_map {} {} 0).fingers ≠ 1 := by
    rw [hfx]; omega
  have hy1 : (alps_get_bitmap_points fields.y_map {} {} 0).fingers ≠ 1 := by
    rw [hfy]; omega
  refine ⟨sx, nx, sy, ny, hrx, hzx, hry, hzy, ?_⟩
  unfold bitmapCorners reverseAxes splitSingle
  simp only [if_neg hx1, if_neg hy1, hlx, hly]
  split_ifs <;> rfl

theorem bitmapCorners_example (i : Nat) :
    bitmapCorners { proto_version := ALPS_PROTO_V3_RUSHMORE, x_bits := 16, y_bits := 12 }
        { x_map := 0b101, y_map := 0b101, st := ⟨10, 10⟩ } i =
      match i with
      | 0 => ⟨0, 0⟩
      | 1 => ⟨266, 0⟩
      | 2 => ⟨266, 254⟩
      | _ => ⟨0, 254⟩ := by
  have hs : alps_get_bitmap_points 0b101 {} {} 0 =
      { low := ⟨0, 1⟩, high := ⟨2, 1⟩, fingers := 2, onHigh := true } := by
    simp [alps_get_bitmap_points, bitmapLoop, bitmapBody]
  unfold bitmapCorners
  simp only [hs, splitSingle, cornerCoord]
  rcases i with _ | _ | _ | i <;> simp <;> decide

theorem sqDist_le_int_max (a b : input_mt_pos)
    (hax : 0 ≤ a.x ∧ a.x ≤ 8192) (hay : 0 ≤ a.y ∧ a.y ≤ 8192)
    (hbx : 0 ≤ b.x ∧ b.x ≤ 8192) (hby : 0 ≤ b.y ∧ b.y ≤ 8192) :
    sqDist a b ≤ 0x7fffffff := by
  unfold sqDist
  have h1 : 0 ≤ (8192 - (a.x - b.x)) * (8192 + (a.x - b.x)) :=
    Int.mul_nonneg (by omega) (by omega)
  have h2 : 0 ≤ (8192 - (a.y - b.y)) * (8192 + (a.y - b.y)) :=
    Int.mul_nonneg (by omega) (by omega)
  nlinarith [h1, h2]

/-! ## The corner selection: the claims -/

/-- Claim C11. If `second_touch` already holds a corner index in `0 .. 3` when
`processBitmap` is called, it holds the same index on return, for every
`x_map`, `y_map` and single-touch point; hence over any sequence of
`processBitmap` calls the committed corner index never changes. -/
theorem C11_committed_corner_is_kept (priv : alps_data)
    (h0 : 0 ≤ priv.second_touch) (h3 : priv.second_touch ≤ 3) :
    (∀ fields : alps_fields,
        (processBitmap priv fields).1.second_touch = priv.second_touch) ∧
      (∀ fs : List alps_fields, (processBitmapSeq priv fs).second_touch = priv.second_touch) := by
  have _ := h3
  have hne : priv.second_touch ≠ -1 := by omega
  constructor
  · intro fields
    rw [processBitmap_second_touch_kept priv fields hne]
  · intro fs
    rw [processBitmapSeq_kept fs priv hne]

/-- Witness for claim C11: corner 2 is committed; two calls with different
bitmaps and single-touch points keep it. -/
theorem C11_committed_corner_is_kept_witness :
    (processBitmap { proto_version := ALPS_PROTO_V3, second_touch := 2 }
        { x_map := 0b1100110, y_map := 0b111, st := ⟨100, 100⟩ }).1.second_touch = 2 ∧
      (processBitmapSeq { proto_version := ALPS_PROTO_V3, second_touch := 2 }
        [{ x_map := 0b1100110, y_map := 0b111, st := ⟨100, 100⟩ },
         { x_map := 0b0110011, y_map := 0b1110, st := ⟨900, 40⟩ }]).second_touch = 2 :=
  ⟨(C11_committed_corner_is_kept { proto_version := ALPS_PROTO_V3, second_touch := 2 }
      (by decide) (by decide)).1 _,
   (C11_committed_corner_is_kept { proto_version := ALPS_PROTO_V3, second_touch := 2 }
      (by decide) (by decide)).2 _⟩

/-- Claim C12. When `processBitmap` is entered with `second_touch = -1` and
both bitmaps non-zero, and the squared distances from the single-touch point
`st` to the four corners are representable as `int`, it commits the index
`(k + 2) mod 4`, where `k` is the lowest-index corner with minimal squared
Euclidean distance to `st`, and it reports `mt[0] = st` and `mt[1]` = the
committed corner. -/
theorem C12_commits_opposite_of_closest (priv : alps_data) (fields : alps_fields) (k : Nat)
    (hst : priv.second_touch = -1)
    (hx : fields.x_map ≠ 0) (hy : fields.y_map ≠ 0)
    (hrange : ∀ i, i < 4 → sqDist fields.st (bitmapCorners priv fields i) ≤ 0x7fffffff)
    (hk : k < 4)
    (hmin : ∀ j, j < 4 →
      sqDist fields.st (bitmapCorners priv fields k) ≤
        sqDist fields.st (bitmapCorners priv fields j))
    (hlow : ∀ j, j < k →
      sqDist fields.st (bitmapCorners priv fields k) <
        sqDist fields.st (bitmapCorners priv fields j)) :
    (processBitmap priv fields).1.second_touch = (((k + 2) % 4 : Nat) : Int) ∧
      (processBitmap priv fields).2.1.mt 0 = fields.st ∧
      (processBitmap priv fields).2.1.mt 1 = bitmapCorners priv fields ((k + 2) % 4) := by
  have hz : ¬ (fields.x_map = 0 ∨ fields.y_map = 0) := by
    rintro (h | h)
    · exact hx h
    · exact hy h
  have hfold := closest_fold_eq fields.st (bitmapCorners priv fields) k hk hrange hmin hlow
  have hc : committedCorner priv fields = (((k + 2) % 4 : Nat) : Int) := by
    unfold committedCorner
    rw [if_pos hst, hst, hfold]
    interval_cases k <;> decide
  rw [processBitmap_nonzero priv fields hz, hc]
  refine ⟨rfl, ?_, ?_⟩
  · simp only [Function.update_apply]
    rfl
  · simp only [Function.update_apply]
    rfl

/-- Witness for claim C12: runs `101` on both axes of a Rushmore pad give the
corners (0,0), (266,0), (266,254), (0,254); the single-touch point (10,10) is
closest to corner 0, so index 2 is committed and reported as `mt[1]`. -/
theorem C12_commits_opposite_of_closest_witness :
    (processBitmap { proto_version := ALPS_PROTO_V3_RUSHMORE, x_bits := 16, y_bits := 12 }
        { x_map := 0b101, y_map := 0b101, st := ⟨10, 10⟩ }).1.second_touch =
        (((0 + 2) % 4 : Nat) : Int) ∧
      (processBitmap { proto_version := ALPS_PROTO_V3_RUSHMORE, x_bits := 16, y_bits := 12 }
        { x_map := 0b101, y_map := 0b101, st := ⟨10, 10⟩ }).2.1.mt 0 = ⟨10, 10⟩ ∧
      (processBitmap { proto_version := ALPS_PROTO_V3_RUSHMORE, x_bits := 16, y_bits := 12 }
        { x_map := 0b101, y_map := 0b101, st := ⟨10, 10⟩ }).2.1.mt 1 =
        bitmapCorners { proto_version := ALPS_PROTO_V3_RUSHMORE, x_bits := 16, y_bits := 12 }
          { x_map := 0b101, y_map := 0b101, st := ⟨10, 10⟩ } ((0 + 2) % 4) :=
  C12_commits_opposite_of_closest
    { proto_version := ALPS_PROTO_V3_RUSHMORE, x_bits := 16, y_bits := 12 }
    { x_map := 0b101, y_map := 0b101, st := ⟨10, 10⟩ } 0 rfl (by decide) (by decide)
    (by
      intro i hi
      rw [bitmapCorners_example]
      interval_cases i <;> decide)
    (by decide)
    (by
      intro j hj
      rw [bitmapCorners_example, bitmapCorners_example]
      interval_cases j <;> decide)
    (by
      intro j hj
      exact absurd hj (Nat.not_lt_zero j))

/-- Claim C14. Calling `processBitmap` twice in succession with the same
`x_map`, `y_map` and single-touch point, the first call starting with
`second_touch` in {-1, 0, 1, 2, 3} and the second call starting from the
corner state left by the first, returns the same finger count and the same two
points `mt[0]`, `mt[1]` both times. The second call is given either the same
fields as the first or the fields as the first call left them. -/
theorem C14_processBitmap_repeatable (priv : alps_data) (fields : alps_fields)
    (h : -1 ≤ priv.second_touch ∧ priv.second_touch ≤ 3) :
    ((processBitmap (processBitmap priv fields).1 fields).2.2 =
        (processBitmap priv fields).2.2 ∧
      (processBitmap (processBitmap priv fields).1 fields).2.1.mt 0 =
        (processBitmap priv fields).2.1.mt 0 ∧
      (processBitmap (processBitmap priv fields).1 fields).2.1.mt 1 =
        (processBitmap priv fields).2.1.mt 1) ∧
    ((processBitmap (processBitmap priv fields).1 (processBitmap priv fields).2.1).2.2 =
        (processBitmap priv fields).2.2 ∧
      (processBitmap (processBitmap priv fields).1 (processBitmap priv fields).2.1).2.1.mt 0 =
        (processBitmap priv fields).2.1.mt 0 ∧
      (processBitmap (processBitmap priv fields).1 (processBitmap priv fields).2.1).2.1.mt 1 =
        (processBitmap priv fields).2.1.mt 1) := by
  by_cases hz : fields.x_map = 0 ∨ fields.y_map = 0
  · rw [processBitmap_zero priv fields hz]
    simp only
    rw [processBitmap_zero priv fields hz]
    exact ⟨⟨rfl, rfl, rfl⟩, ⟨rfl, rfl, rfl⟩⟩
  · have hr := committedCorner_range priv fields h
    have hc : ({ priv with second_touch := committedCorner priv fields } : alps_data).second_touch
        ≠ -1 := by
      simp only
      omega
    rw [processBitmap_nonzero priv fields hz]
    simp only
    constructor
    · rw [processBitmap_nonzero _ fields hz, committedCorner_kept _ fields hc]
      exact ⟨rfl, rfl, rfl⟩
    · have hz2 : ¬ (({ fields with
          mt := Function.update (Function.update fields.mt 0 fields.st) 1
            (bitmapCorners priv fields (committedCorner priv fields).toNat) } :
          alps_fields).x_map = 0 ∨
          ({ fields with
          mt := Function.update (Function.update fields.mt 0 fields.st) 1
            (bitmapCorners priv fields (committedCorner priv fields).toNat) } :
          alps_fields).y_map = 0) := hz
      rw [processBitmap_nonzero _ _ hz2, committedCorner_kept _ _ hc]
      refine ⟨rfl, ?_, ?_⟩
      · simp only [Function.update_apply]
        rfl
      · simp only [Function.update_apply]
        rfl

/-- Witness for claim C14: no corner committed on entry. -/
theorem C14_processBitmap_repeatable_witness :
    (processBitmap (processBitmap { proto_version := ALPS_PROTO_V3 }
          { x_map := 0b101, y_map := 0b11, st := ⟨10, 10⟩ }).1
        { x_map := 0b101, y_map := 0b11, st := ⟨10, 10⟩ }).2.2 =
      (processBitmap { proto_version := ALPS_PROTO_V3 }
        { x_map := 0b101, y_map := 0b11, st := ⟨10, 10⟩ }).2.2 :=
  (C14_processBitmap_repeatable { proto_version := ALPS_PROTO_V3 }
    { x_map := 0b101, y_map := 0b11, st := ⟨10, 10⟩ } (by decide)).1.1

/-- Claim C15, as stated, fails: for the bitmaps `101` on both axes of a
Rushmore pad (two disjoint runs on each axis) and the single-touch point
(10, 10) with corner 1 committed, the low/low corner is (0, 0), but the first
point reported by `processBitmap` is (10, 10), the single-touch point. -/
theorem C15_counterexample :
    runCount 0b101 = 2 ∧
      bitmapCorners
          { proto_version := ALPS_PROTO_V3_RUSHMORE, x_bits := 16, y_bits := 12 }
          { x_map := 0b101, y_map := 0b101, st := ⟨10, 10⟩ } 0 = ⟨0, 0⟩ ∧
      (processBitmap
          { proto_version := ALPS_PROTO_V3_RUSHMORE, x_bits := 16, y_bits := 12 }
          { x_map := 0b101, y_map := 0b101, st := ⟨10, 10⟩ }).2.1.mt 0 = ⟨10, 10⟩ ∧
      (processBitmap
          { proto_version := ALPS_PROTO_V3_RUSHMORE, x_bits := 16, y_bits := 12 }
          { x_map := 0b101, y_map := 0b101, st := ⟨10, 10⟩ }).2.1.mt 0 ≠
        bitmapCorners
          { proto_version := ALPS_PROTO_V3_RUSHMORE, x_bits := 16, y_bits := 12 }
          { x_map := 0b101, y_map := 0b101, st := ⟨10, 10⟩ } 0 := by
  have hm : (processBitmap
      { proto_version := ALPS_PROTO_V3_RUSHMORE, x_bits := 16, y_bits := 12 }
      { x_map := 0b101, y_map := 0b101, st := ⟨10, 10⟩ }).2.1.mt 0 = ⟨10, 10⟩ := by
    rw [processBitmap_nonzero _ _ (by decide)]
    simp only [Function.update_apply]
    rfl
  refine ⟨by decide, bitmapCorners_example 0, hm, ?_⟩
  rw [hm, bitmapCorners_example]
  decide

/-- Claim C15, amended. For 32-bit bitmaps with two disjoint runs on each axis,
`processBitmap` returns 2 and the first point it reports (`mt[0]`) is the
single-touch point `st`. The position derived from the low run of each axis, the low/low
bounding-box corner scaled into device coordinates (and mirrored on the axes
the version reverses), is `corner[0]`; the second point `mt[1]` is the corner
with the committed index. -/
theorem C15_first_point_is_single_touch (priv : alps_data) (fields : alps_fields)
    (hx : fields.x_map < 2 ^ 32) (hy : fields.y_map < 2 ^ 32)
    (h2x : runCount fields.x_map = 2) (h2y : runCount fields.y_map = 2) :
    (processBitmap priv fields).2.2 = 2 ∧
      (processBitmap priv fields).2.1.mt 0 = fields.st ∧
      (processBitmap priv fields).2.1.mt 1 =
        bitmapCorners priv fields (processBitmap priv fields).1.second_touch.toNat ∧
      ∃ sx nx sy ny : Nat,
        IsMaximalRun fields.x_map sx nx ∧ (∀ j, j < sx → fields.x_map.testBit j = false) ∧
        IsMaximalRun fields.y_map sy ny ∧ (∀ j, j < sy → fields.y_map.testBit j = false) ∧
        bitmapCorners priv fields 0 =
          reverseAxes priv
            { x := cornerCoord priv.x_max priv.x_bits ⟨sx, nx⟩,
              y := cornerCoord priv.y_max priv.y_bits ⟨sy, ny⟩ } := by
  have hz : ¬ (fields.x_map = 0 ∨ fields.y_map = 0) := by
    rintro (h | h)
    · rw [h] at h2x
      exact absurd h2x (by decide)
    · rw [h] at h2y
      exact absurd h2y (by decide)
  refine ⟨?_, ?_, ?_, bitmapCorners_low_low priv fields hx hy (by omega) (by omega)⟩
  · rw [processBitmap_ret, if_neg hz, get_bitmap_points_fingers fields.x_map hx {} {} 0,
      get_bitmap_points_fingers fields.y_map hy {} {} 0, h2x, h2y]
    rfl
  · rw [processBitmap_nonzero priv fields hz]
    simp only [Function.update_apply]
    rfl
  · rw [processBitmap_nonzero priv fields hz]
    simp only [Function.update_apply]
    rfl

/-- Witness for claim C15 (amended): the bitmaps `101` on both axes. -/
theorem C15_first_point_is_single_touch_witness :
    (processBitmap { proto_version := ALPS_PROTO_V3_RUSHMORE, x_bits := 16, y_bits := 12 }
        { x_map := 0b101, y_map := 0b101, st := ⟨10, 10⟩ }).2.2 = 2 ∧
      (processBitmap { proto_version := ALPS_PROTO_V3_RUSHMORE, x_bits := 16, y_bits := 12 }
        { x_map := 0b101, y_map := 0b101, st := ⟨10, 10⟩ }).2.1.mt 0 = ⟨10, 10⟩ :=
  ⟨(C15_first_point_is_single_touch
      { proto_version := ALPS_PROTO_V3_RUSHMORE, x_bits := 16, y_bits := 12 }
      { x_map := 0b101, y_map := 0b101, st := ⟨10, 10⟩ }
      (by decide) (by decide) (by decide) (by decide)).1,
    (C15_first_point_is_single_touch
      { proto_version := ALPS_PROTO_V3_RUSHMORE, x_bits := 16, y_bits := 12 }
      { x_map := 0b101, y_map := 0b101, st := ⟨10, 10⟩ }
      (by decide) (by decide) (by decide) (by decide)).2.1⟩

/-! ## Packet processing: auxiliary facts -/

theorem v3_v5_start_packet
    (decode_fields : alps_data → alps_fields → (Nat → Nat) → alps_fields)
    (priv : alps_data) (last_fingers fingers0 : Int) (packet : Nat → Nat)
    (hfirst : (decode_fields priv {} packet).first_mp ≠ 0)
    (hmp : (decode_fields priv {} packet).is_mp = 0) :
    alps_process_touchpad_packet_v3_v5 decode_fields priv last_fingers fingers0 packet =
      ({ priv with multi_packet := 1,
                   multi_data := memcpy_multi_data priv.multi_data packet }, []) := by
  unfold alps_process_touchpad_packet_v3_v5 v3_v5_merge v3_v5_finish
  by_cases h0 : priv.multi_packet = 0
  · simp only [h0, ne_eq, not_true_eq_false, if_false, hmp, hfirst, not_false_eq_true,
      and_self, if_true]
  · simp only [h0, ne_eq, not_false_eq_true, if_true, hmp, not_true_eq_false, if_false,
      hfirst, and_self]

theorem v3_v5_stray_bitmap_packet
    (decode_fields : alps_data → alps_fields → (Nat → Nat) → alps_fields)
    (priv : alps_data) (last_fingers fingers0 : Int) (packet : Nat → Nat)
    (h0 : priv.multi_packet = 0)
    (hmp : (decode_fields priv {} packet).is_mp ≠ 0) :
    alps_process_touchpad_packet_v3_v5 decode_fields priv last_fingers fingers0 packet =
      (priv, []) := by
  unfold alps_process_touchpad_packet_v3_v5 v3_v5_merge v3_v5_finish
  simp only [h0, ne_eq, not_true_eq_false, if_false, hmp, not_false_eq_true, if_true]

theorem memcpy_multi_data_apply (multi_data packet : Nat → Nat) (i : Nat)
    (h : i < multi_data_size) : memcpy_multi_data multi_data packet i = packet i := by
  unfold memcpy_multi_data
  rw [if_pos h]

theorem ss4_decode_first_mp (m : SS4Macros) (priv : alps_data) (p : Nat → Nat)
    (hfirst : (alps_decode_ss4_v2 m priv {} p).1.first_mp ≠ 0) :
    (alps_decode_ss4_v2 m priv {} p).2 = [] := by
  unfold alps_decode_ss4_v2 at hfirst ⊢
  simp only at hfirst ⊢
  generalize alps_get_pkt_id_ss4_v2 p = pkt_id at hfirst ⊢
  cases pkt_id
  · rfl
  · rfl
  · rfl
  · unfold ss4_decode_switch
    simp only
    split_ifs <;> rfl
  · exfalso
    apply hfirst
    unfold ss4_decode_switch
    simp only
    split_ifs <;> rfl

theorem ss4_start_packet (m : SS4Macros) (priv : alps_data) (packet : Nat → Nat)
    (h0 : priv.multi_packet = 0)
    (hfirst : (alps_decode_ss4_v2 m priv {} packet).1.first_mp ≠ 0)
    (hmp : (alps_decode_ss4_v2 m priv {} packet).1.is_mp = 0) :
    alps_process_packet_ss4_v2 m priv packet =
      ({ priv with multi_packet := 1,
                   multi_data := memcpy_multi_data priv.multi_data packet }, []) := by
  have hev := ss4_decode_first_mp m priv packet hfirst
  unfold alps_process_packet_ss4_v2
  simp only [h0, ne_eq, not_true_eq_false, if_false, hmp, hfirst, not_false_eq_true,
    and_self, if_true, hev]

theorem v3_v5_plain_packet
    (decode_fields : alps_data → alps_fields → (Nat → Nat) → alps_fields)
    (priv : alps_data) (last_fingers fingers0 : Int) (packet : Nat → Nat)
    (h0 : priv.multi_packet = 0)
    (hmp : (decode_fields priv {} packet).is_mp = 0)
    (hfirst : (decode_fields priv {} packet).first_mp = 0)
    (hinit : fingers0 < 2) (hlast : last_fingers ≠ 2) :
    (alps_process_touchpad_packet_v3_v5 decode_fields priv last_fingers fingers0 packet).1 =
        { priv with multi_packet := 0, second_touch := -1 } ∧
      ∃ buttons : Nat,
        (alps_process_touchpad_packet_v3_v5 decode_fields priv last_fingers fingers0 packet).2 =
          [Event.eventsWithInfo (decode_fields priv {} packet).st.x
            (priv.y_max - (decode_fields priv {} packet).st.y)
            ((decode_fields priv {} packet).mt 1).x
            (priv.y_max - ((decode_fields priv {} packet).mt 1).y)
            (decode_fields priv {} packet).pressure
            (if (decode_fields priv {} packet).pressure > 0 then 1 else 0) buttons] := by
  unfold alps_process_touchpad_packet_v3_v5 v3_v5_merge v3_v5_finish
  simp only [h0, ne_eq, not_true_eq_false, if_false, hmp, hfirst, and_false, hinit, if_true,
    hlast, false_and, Function.update_same,
    Function.update_noteq (show (1 : Nat) ≠ 0 by decide)]
  exact ⟨trivial, _, rfl⟩

theorem v3_v5_finish_lt2_resets (priv1 : alps_data) (f : alps_fields)
    (fingers0 last_fingers : Int) (packet : Nat → Nat)
    (x1 y1 x2 y2 z fingers : Int) (buttons : Nat)
    (hev : Event.eventsWithInfo x1 y1 x2 y2 z fingers buttons ∈
      (v3_v5_finish priv1 f fingers0 last_fingers packet).2)
    (hlt : fingers < 2) :
    (v3_v5_finish priv1 f fingers0 last_fingers packet).1.second_touch = -1 := by
  unfold v3_v5_finish at hev ⊢
  simp only at hev ⊢
  split_ifs at hev ⊢ <;>
    simp only [List.mem_singleton, List.not_mem_nil, Event.eventsWithInfo.injEq] at hev <;>
    first
      | rfl
      | (exfalso; omega)

theorem v3_v5_reports_lt2_resets
    (decode_fields : alps_data → alps_fields → (Nat → Nat) → alps_fields)
    (priv : alps_data) (last_fingers fingers0 : Int) (packet : Nat → Nat)
    (x1 y1 x2 y2 z fingers : Int) (buttons : Nat)
    (hev : Event.eventsWithInfo x1 y1 x2 y2 z fingers buttons ∈
      (alps_process_touchpad_packet_v3_v5 decode_fields priv last_fingers fingers0 packet).2)
    (hlt : fingers < 2) :
    (alps_process_touchpad_packet_v3_v5 decode_fields priv last_fingers fingers0
      packet).1.second_touch = -1 :=
  v3_v5_finish_lt2_resets _ _ _ _ _ x1 y1 x2 y2 z fingers buttons hev hlt

theorem processPacketV4_second_touch_kept (priv : alps_data) (packet : Nat → Nat)
    (h : priv.second_touch ≠ -1) :
    (processPacketV4 priv packet).1.second_touch = priv.second_touch := by
  have key : ∀ (q : alps_data) (f : alps_fields), q.second_touch ≠ -1 →
      (processBitmap q f).1.second_touch = q.second_touch := fun q f hq =>
    congrArg alps_data.second_touch (processBitmap_second_touch_kept q f hq)
  unfold processPacketV4
  simp only
  split_ifs <;>
    first
      | rfl
      | exact key _ _ h

theorem memcpy_multi_data_twice (multi_data a b : Nat → Nat) :
    memcpy_multi_data (memcpy_multi_data multi_data a) b = memcpy_multi_data multi_data b := by
  funext i
  unfold memcpy_multi_data
  split_ifs <;> rfl

/-! ## Packet processing: the claims -/

/-- Claim C16. In `alps_process_touchpad_packet_v3_v5`, for any decoder bound
to `decode_fields`, and in `alps_process_packet_ss4_v2`: with no sequence
pending, a packet that decodes with `first_mp` set and `is_mp` clear produces
no event, sets `multi_packet` to 1, and leaves in `multi_data` the bytes of the
packet, unchanged, at every index of the accumulator. For the first routine
the same holds when a sequence is pending, so `multi_packet = 0` is assumed
for the second routine only. -/
theorem C16_start_packet_is_cached
    (decode_fields : alps_data → alps_fields → (Nat → Nat) → alps_fields)
    (priv : alps_data) (last_fingers fingers0 : Int) (packet : Nat → Nat)
    (m : SS4Macros) (priv8 : alps_data) (packet8 : Nat → Nat)
    (hfirst : (decode_fields priv {} packet).first_mp ≠ 0)
    (hmp : (decode_fields priv {} packet).is_mp = 0)
    (h8 : priv8.multi_packet = 0)
    (hfirst8 : (alps_decode_ss4_v2 m priv8 {} packet8).1.first_mp ≠ 0)
    (hmp8 : (alps_decode_ss4_v2 m priv8 {} packet8).1.is_mp = 0) :
    ((alps_process_touchpad_packet_v3_v5 decode_fields priv last_fingers fingers0
          packet).2 = [] ∧
      (alps_process_touchpad_packet_v3_v5 decode_fields priv last_fingers fingers0
          packet).1.multi_packet = 1 ∧
      ∀ i, i < multi_data_size →
        (alps_process_touchpad_packet_v3_v5 decode_fields priv last_fingers fingers0
          packet).1.multi_data i = packet i) ∧
    ((alps_process_packet_ss4_v2 m priv8 packet8).2 = [] ∧
      (alps_process_packet_ss4_v2 m priv8 packet8).1.multi_packet = 1 ∧
      ∀ i, i < multi_data_size →
        (alps_process_packet_ss4_v2 m priv8 packet8).1.multi_data i = packet8 i) := by
  rw [v3_v5_start_packet decode_fields priv last_fingers fingers0 packet hfirst hmp,
    ss4_start_packet m priv8 packet8 h8 hfirst8 hmp8]
  exact ⟨⟨rfl, rfl, fun i hi => memcpy_multi_data_apply _ _ i hi⟩,
    ⟨rfl, rfl, fun i hi => memcpy_multi_data_apply _ _ i hi⟩⟩

theorem C16_start_packet_is_cached_witness :
    ((alps_process_touchpad_packet_v3_v5 decode_fields_v3_v5
          { proto_version := ALPS_PROTO_V3 } 0 0
          (packetOf [0x8f, 0x10, 0x20, 0x00, 0x40, 0x30])).2 = [] ∧
      (alps_process_touchpad_packet_v3_v5 decode_fields_v3_v5
          { proto_version := ALPS_PROTO_V3 } 0 0
          (packetOf [0x8f, 0x10, 0x20, 0x00, 0x40, 0x30])).1.multi_packet = 1 ∧
      ∀ i, i < multi_data_size →
        (alps_process_touchpad_packet_v3_v5 decode_fields_v3_v5
          { proto_version := ALPS_PROTO_V3 } 0 0
          (packetOf [0x8f, 0x10, 0x20, 0x00, 0x40, 0x30])).1.multi_data i =
            packetOf [0x8f, 0x10, 0x20, 0x00, 0x40, 0x30] i) ∧
    ((alps_process_packet_ss4_v2 ss4MacrosSample { proto_version := ALPS_PROTO_V8 }
          (packetOf [0x18, 0x00, 0x10, 0x18, 0x10, 0x00])).2 = [] ∧
      (alps_process_packet_ss4_v2 ss4MacrosSample { proto_version := ALPS_PROTO_V8 }
          (packetOf [0x18, 0x00, 0x10, 0x18, 0x10, 0x00])).1.multi_packet = 1 ∧
      ∀ i, i < multi_data_size →
        (alps_process_packet_ss4_v2 ss4MacrosSample { proto_version := ALPS_PROTO_V8 }
          (packetOf [0x18, 0x00, 0x10, 0x18, 0x10, 0x00])).1.multi_data i =
            packetOf [0x18, 0x00, 0x10, 0x18, 0x10, 0x00] i) :=
  C16_start_packet_is_cached decode_fields_v3_v5 { proto_version := ALPS_PROTO_V3 } 0 0
    (packetOf [0x8f, 0x10, 0x20, 0x00, 0x40, 0x30])
    ss4MacrosSample { proto_version := ALPS_PROTO_V8 }
    (packetOf [0x18, 0x00, 0x10, 0x18, 0x10, 0x00])
    (by decide) (by decide) rfl (by decide) (by decide)

/-- Claim C17. In `alps_process_touchpad_packet_v3_v5`, for any decoder bound
to `decode_fields`: two consecutive packets `A` then `B` that each decode with
`first_mp` set and `is_mp` clear produce no event, whether or not a sequence
was pending before `A` (so in particular when none was), and afterwards `multi_packet = 1` and `multi_data` holds the bytes of
`B` at every index of the accumulator; the accumulator is the one obtained by
copying `B` over the accumulator as it was before `A`, so no byte of `A` is
left in it. -/
theorem C17_second_start_replaces_first
    (decode_fields : alps_data → alps_fields → (Nat → Nat) → alps_fields)
    (priv : alps_data) (last_fingers fingers0 fingers1 : Int) (A B : Nat → Nat)
    (hfirstA : (decode_fields priv {} A).first_mp ≠ 0)
    (hmpA : (decode_fields priv {} A).is_mp = 0)
    (hfirstB : (decode_fields
      (alps_process_touchpad_packet_v3_v5 decode_fields priv last_fingers fingers0 A).1
      {} B).first_mp ≠ 0)
    (hmpB : (decode_fields
      (alps_process_touchpad_packet_v3_v5 decode_fields priv last_fingers fingers0 A).1
      {} B).is_mp = 0) :
    (alps_process_touchpad_packet_v3_v5 decode_fields priv last_fingers fingers0 A).2 = [] ∧
      (alps_process_touchpad_packet_v3_v5 decode_fields
        (alps_process_touchpad_packet_v3_v5 decode_fields priv last_fingers fingers0 A).1
        last_fingers fingers1 B).2 = [] ∧
      (alps_process_touchpad_packet_v3_v5 decode_fields
        (alps_process_touchpad_packet_v3_v5 decode_fields priv last_fingers fingers0 A).1
        last_fingers fingers1 B).1.multi_packet = 1 ∧
      (∀ i, i < multi_data_size →
        (alps_process_touchpad_packet_v3_v5 decode_fields
          (alps_process_touchpad_packet_v3_v5 decode_fields priv last_fingers fingers0 A).1
          last_fingers fingers1 B).1.multi_data i = B i) ∧
      (alps_process_touchpad_packet_v3_v5 decode_fields
        (alps_process_touchpad_packet_v3_v5 decode_fields priv last_fingers fingers0 A).1
        last_fingers fingers1 B).1.multi_data = memcpy_multi_data priv.multi_data B := by
  have hA := v3_v5_start_packet decode_fields priv last_fingers fingers0 A hfirstA hmpA
  have hB := v3_v5_start_packet decode_fields
    (alps_process_touchpad_packet_v3_v5 decode_fields priv last_fingers fingers0 A).1
    last_fingers fingers1 B hfirstB hmpB
  rw [hB]
  refine ⟨by rw [hA], rfl, rfl, fun i hi => memcpy_multi_data_apply _ _ i hi, ?_⟩
  rw [hA]
  exact memcpy_multi_data_twice priv.multi_data A B

theorem C17_second_start_replaces_first_witness :
    (alps_process_touchpad_packet_v3_v5 decode_fields_v3_v5
        { proto_version := ALPS_PROTO_V3 } 0 0
        (packetOf [0x8f, 0x10, 0x20, 0x00, 0x40, 0x30])).2 = [] ∧
      (alps_process_touchpad_packet_v3_v5 decode_fields_v3_v5
        (alps_process_touchpad_packet_v3_v5 decode_fields_v3_v5
          { proto_version := ALPS_PROTO_V3 } 0 0
          (packetOf [0x8f, 0x10, 0x20, 0x00, 0x40, 0x30])).1
        0 0 (packetOf [0x8f, 0x11, 0x22, 0x00, 0x41, 0x33])).2 = [] ∧
      (alps_process_touchpad_packet_v3_v5 decode_fields_v3_v5
        (alps_process_touchpad_packet_v3_v5 decode_fields_v3_v5
          { proto_version := ALPS_PROTO_V3 } 0 0
          (packetOf [0x8f, 0x10, 0x20, 0x00, 0x40, 0x30])).1
        0 0 (packetOf [0x8f, 0x11, 0x22, 0x00, 0x41, 0x33])).1.multi_packet = 1 ∧
      (∀ i, i < multi_data_size →
        (alps_process_touchpad_packet_v3_v5 decode_fields_v3_v5
          (alps_process_touchpad_packet_v3_v5 decode_fields_v3_v5
            { proto_version := ALPS_PROTO_V3 } 0 0
            (packetOf [0x8f, 0x10, 0x20, 0x00, 0x40, 0x30])).1
          0 0 (packetOf [0x8f, 0x11, 0x22, 0x00, 0x41, 0x33])).1.multi_data i =
            packetOf [0x8f, 0x11, 0x22, 0x00, 0x41, 0x33] i) ∧
      (alps_process_touchpad_packet_v3_v5 decode_fields_v3_v5
        (alps_process_touchpad_packet_v3_v5 decode_fields_v3_v5
          { proto_version := ALPS_PROTO_V3 } 0 0
          (packetOf [0x8f, 0x10, 0x20, 0x00, 0x40, 0x30])).1
        0 0 (packetOf [0x8f, 0x11, 0x22, 0x00, 0x41, 0x33])).1.multi_data =
          memcpy_multi_data (fun _ => 0) (packetOf [0x8f, 0x11, 0x22, 0x00, 0x41, 0x33]) :=
  C17_second_start_replaces_first decode_fields_v3_v5 { proto_version := ALPS_PROTO_V3 }
    0 0 0 (packetOf [0x8f, 0x10, 0x20, 0x00, 0x40, 0x30])
    (packetOf [0x8f, 0x11, 0x22, 0x00, 0x41, 0x33])
    (by decide) (by decide) (by decide) (by decide)

/-- Claim C18. In `alps_process_touchpad_packet_v3_v5`, for any decoder bound
to `decode_fields`: with no sequence pending, a packet that decodes with
`is_mp` set produces no event and leaves `multi_packet`, `multi_data` and
`second_touch` as they were (the whole of `priv` is unchanged). -/
theorem C18_stray_bitmap_packet_ignored
    (decode_fields : alps_data → alps_fields → (Nat → Nat) → alps_fields)
    (priv : alps_data) (last_fingers fingers0 : Int) (packet : Nat → Nat)
    (h0 : priv.multi_packet = 0)
    (hmp : (decode_fields priv {} packet).is_mp ≠ 0) :
    (alps_process_touchpad_packet_v3_v5 decode_fields priv last_fingers fingers0
        packet).2 = [] ∧
      (alps_process_touchpad_packet_v3_v5 decode_fields priv last_fingers fingers0
        packet).1.multi_packet = priv.multi_packet ∧
      (alps_process_touchpad_packet_v3_v5 decode_fields priv last_fingers fingers0
        packet).1.multi_data = priv.multi_data ∧
      (alps_process_touchpad_packet_v3_v5 decode_fields priv last_fingers fingers0
        packet).1.second_touch = priv.second_touch ∧
      (alps_process_touchpad_packet_v3_v5 decode_fields priv last_fingers fingers0
        packet).1 = priv := by
  rw [v3_v5_stray_bitmap_packet decode_fields priv last_fingers fingers0 packet h0 hmp]
  exact ⟨rfl, rfl, rfl, rfl, rfl⟩

theorem C18_stray_bitmap_packet_ignored_witness :
    (alps_process_touchpad_packet_v3_v5 decode_fields_v3_v5
        { proto_version := ALPS_PROTO_V3, second_touch := 2 } 0 0
        (packetOf [0xcf, 0x01, 0x02, 0x00, 0x00, 0x01])).2 = [] ∧
      (alps_process_touchpad_packet_v3_v5 decode_fields_v3_v5
        { proto_version := ALPS_PROTO_V3, second_touch := 2 } 0 0
        (packetOf [0xcf, 0x01, 0x02, 0x00, 0x00, 0x01])).1.multi_packet = 0 ∧
      (alps_process_touchpad_packet_v3_v5 decode_fields_v3_v5
        { proto_version := ALPS_PROTO_V3, second_touch := 2 } 0 0
        (packetOf [0xcf, 0x01, 0x02, 0x00, 0x00, 0x01])).1.multi_data = (fun _ => 0) ∧
      (alps_process_touchpad_packet_v3_v5 decode_fields_v3_v5
        { proto_version := ALPS_PROTO_V3, second_touch := 2 } 0 0
        (packetOf [0xcf, 0x01, 0x02, 0x00, 0x00, 0x01])).1.second_touch = 2 ∧
      (alps_process_touchpad_packet_v3_v5 decode_fields_v3_v5
        { proto_version := ALPS_PROTO_V3, second_touch := 2 } 0 0
        (packetOf [0xcf, 0x01, 0x02, 0x00, 0x00, 0x01])).1 =
          { proto_version := ALPS_PROTO_V3, second_touch := 2 } :=
  C18_stray_bitmap_packet_ignored decode_fields_v3_v5
    { proto_version := ALPS_PROTO_V3, second_touch := 2 } 0 0
    (packetOf [0xcf, 0x01, 0x02, 0x00, 0x00, 0x01]) rfl (by decide)

theorem processPacketV1V2_touchpad (priv : alps_data) (touchmode : Int) (packet : Nat → Nat)
    (hv1 : priv.proto_version = ALPS_PROTO_V1)
    (hns : ¬(priv.flags &&& ALPS_DUALPOINT ≠ 0 ∧ packet 5 = 127)) :
    ∃ (buttons : Nat) (rest : List Event),
      (processPacketV1V2 priv touchmode packet).2.2 =
        Event.eventsWithInfo
          ((packet 1 ||| ((packet 0 &&& 0x07) <<< 7) : Nat) : Int)
          ((packet 4 ||| ((packet 3 &&& 0x07) <<< 7) : Nat) : Int)
          0 0
          (if packet 2 &&& 1 ≠ 0 ∧ packet 2 &&& 2 = 0 then 40 else (packet 5 : Int))
          (if (if packet 2 &&& 1 ≠ 0 ∧ packet 2 &&& 2 = 0 then 40 else (packet 5 : Int)) > 30
            then 1 else 0)
          buttons :: rest ∧
      ∀ e ∈ rest, ∃ a : Int, e = Event.scrollWheel a 0 0 := by
  have hns1 : ¬(priv.flags &&& ALPS_DUALPOINT ≠ 0 ∧ ((packet 5 : Nat) : Int) = 127) := by
    intro h
    exact hns ⟨h.1, by exact_mod_cast h.2⟩
  have hfing : ∀ z : Int, (if z < 25 then (0 : Int) else if z > 30 then 1 else 0) =
      if z > 30 then 1 else 0 := by
    intro z
    split_ifs <;> first | rfl | (exfalso; omega)
  unfold processPacketV1V2
  simp only [hv1, decide_True, if_true]
  rw [if_neg hns1]
  simp only [hfing]
  split_ifs <;>
    first
      | exact ⟨_, [], rfl, fun e he => absurd he (List.not_mem_nil e)⟩
      | exact ⟨_, [_], rfl, fun e he => ⟨_, List.mem_singleton.mp he⟩⟩

/-- Claim C13, evaluated at its failing input. On a V4 device holding a
committed corner (`second_touch = 1`), `processPacketV4` handles the
single-contact packet `00 10 20 00 00 30 40 00` by dispatching one event that
reports 0 fingers, and `second_touch` is still 1 afterwards, not -1. The same
holds from `second_touch = 0`, the value of a zero-filled `priv` (the sources
never initialise the field): `second_touch` is still 0 afterwards. -/
theorem C13_v4_keeps_commitment_at_failing_input :
    (processPacketV4 { proto_version := ALPS_PROTO_V4, pktsize := 8, second_touch := 1 }
        (packetOf [0x00, 0x10, 0x20, 0x00, 0x00, 0x30, 0x40, 0x00])).2 =
        [Event.eventsWithInfo 256 512 0 0 48 0 0] ∧
      (processPacketV4 { proto_version := ALPS_PROTO_V4, pktsize := 8, second_touch := 1 }
        (packetOf [0x00, 0x10, 0x20, 0x00, 0x00, 0x30, 0x40, 0x00])).1.second_touch = 1 ∧
      (processPacketV4 { proto_version := ALPS_PROTO_V4, pktsize := 8, second_touch := 1 }
        (packetOf [0x00, 0x10, 0x20, 0x00, 0x00, 0x30, 0x40, 0x00])).1.second_touch ≠ -1 ∧
      (processPacketV4 { proto_version := ALPS_PROTO_V4, pktsize := 8, second_touch := 0 }
        (packetOf [0x00, 0x10, 0x20, 0x00, 0x00, 0x30, 0x40, 0x00])).2 =
        [Event.eventsWithInfo 256 512 0 0 48 0 0] ∧
      (processPacketV4 { proto_version := ALPS_PROTO_V4, pktsize := 8, second_touch := 0 }
        (packetOf [0x00, 0x10, 0x20, 0x00, 0x00, 0x30, 0x40, 0x00])).1.second_touch = 0 := by
  decide

/-- Claim C19, evaluated at its failing input. The local variable `fingers`
of `alps_process_touchpad_packet_v3_v5` has no initialiser. On a V3 device
with no sequence pending, the plain position packet `8f 10 20 00 00 30`
decodes to `st = (256, 512)`, pressure 48, `is_mp = first_mp = 0`; when the
variable holds 2, the event dispatched has first contact `(0, 1400)` and
finger count 2 instead of `(256, 888)` and 1, and `second_touch` keeps its
value 1 instead of becoming -1. -/
theorem C19_uninitialised_fingers_at_failing_input :
    (decode_fields_v3_v5 { proto_version := ALPS_PROTO_V3, second_touch := 1 } {}
        (packetOf [0x8f, 0x10, 0x20, 0x00, 0x00, 0x30])).st.x = 256 ∧
      (decode_fields_v3_v5 { proto_version := ALPS_PROTO_V3, second_touch := 1 } {}
        (packetOf [0x8f, 0x10, 0x20, 0x00, 0x00, 0x30])).st.y = 512 ∧
      (decode_fields_v3_v5 { proto_version := ALPS_PROTO_V3, second_touch := 1 } {}
        (packetOf [0x8f, 0x10, 0x20, 0x00, 0x00, 0x30])).pressure = 48 ∧
      (decode_fields_v3_v5 { proto_version := ALPS_PROTO_V3, second_touch := 1 } {}
        (packetOf [0x8f, 0x10, 0x20, 0x00, 0x00, 0x30])).is_mp = 0 ∧
      (decode_fields_v3_v5 { proto_version := ALPS_PROTO_V3, second_touch := 1 } {}
        (packetOf [0x8f, 0x10, 0x20, 0x00, 0x00, 0x30])).first_mp = 0 ∧
      (alps_process_touchpad_packet_v3_v5 decode_fields_v3_v5
        { proto_version := ALPS_PROTO_V3, second_touch := 1 } 0 2
        (packetOf [0x8f, 0x10, 0x20, 0x00, 0x00, 0x30])).2 =
        [Event.eventsWithInfo 0 1400 0 1400 48 2 0] ∧
      (alps_process_touchpad_packet_v3_v5 decode_fields_v3_v5
        { proto_version := ALPS_PROTO_V3, second_touch := 1 } 0 2
        (packetOf [0x8f, 0x10, 0x20, 0x00, 0x00, 0x30])).1.second_touch = 1 := by
  decide

/-- Claim C20. For a V1 device and every packet `p` that does not take the
trackstick branch (the branch is taken when `ALPS_DUALPOINT` is set and
`p[5] = 127`), the first event dispatched by `processPacketV1V2` is the
absolute update with `x = p[1] | ((p[0] & 0x07) << 7)`,
`y = p[4] | ((p[3] & 0x07) << 7)`, `z = p[5]` replaced by 40 when `p[2] & 1` is
set and `p[2] & 2` is clear, and finger count 1 if `z > 30` and 0 otherwise;
any further event is a scroll-wheel event. The packet
`88 10 20 04 00 00` is framed as one PacketReady under the sync pair
`0xf8 / 0x88` and reports x = 16, y = 512, z = 0, fingers = 0, buttons = 0. -/
theorem C20_v1_single_touch_decode (priv : alps_data) (touchmode : Int) (packet : Nat → Nat)
    (hv1 : priv.proto_version = ALPS_PROTO_V1)
    (hns : ¬(priv.flags &&& ALPS_DUALPOINT ≠ 0 ∧ packet 5 = 127)) :
    (∃ (buttons : Nat) (rest : List Event),
      (processPacketV1V2 priv touchmode packet).2.2 =
        Event.eventsWithInfo
          ((packet 1 ||| ((packet 0 &&& 0x07) <<< 7) : Nat) : Int)
          ((packet 4 ||| ((packet 3 &&& 0x07) <<< 7) : Nat) : Int)
          0 0
          (if packet 2 &&& 1 ≠ 0 ∧ packet 2 &&& 2 = 0 then 40 else (packet 5 : Int))
          (if (if packet 2 &&& 1 ≠ 0 ∧ packet 2 &&& 2 = 0 then 40 else (packet 5 : Int)) > 30
            then 1 else 0)
          buttons :: rest ∧
      ∀ e ∈ rest, ∃ a : Int, e = Event.scrollWheel a 0 0) ∧
    (feed { proto_version := ALPS_PROTO_V1, byte0 := 0x88, mask0 := 0xf8 } Driver.init
        [0x88, 0x10, 0x20, 0x04, 0x00, 0x00]).2 =
      List.replicate 5 kPS2IR_packetBuffering ++ [kPS2IR_packetReady] ∧
    (processPacketV1V2 { proto_version := ALPS_PROTO_V1, byte0 := 0x88, mask0 := 0xf8 } 0
        (packetOf [0x88, 0x10, 0x20, 0x04, 0x00, 0x00])).2.2 =
      [Event.eventsWithInfo 16 512 0 0 0 0 0] :=
  ⟨processPacketV1V2_touchpad priv touchmode packet hv1 hns, by decide, by decide⟩

theorem C20_v1_single_touch_decode_witness :
    ∃ (buttons : Nat) (rest : List Event),
      (processPacketV1V2 { proto_version := ALPS_PROTO_V1, byte0 := 0x88, mask0 := 0xf8 } 0
        (packetOf [0x88, 0x10, 0x20, 0x04, 0x00, 0x2d])).2.2 =
        Event.eventsWithInfo
          ((packetOf [0x88, 0x10, 0x20, 0x04, 0x00, 0x2d] 1 |||
            ((packetOf [0x88, 0x10, 0x20, 0x04, 0x00, 0x2d] 0 &&& 0x07) <<< 7) : Nat) : Int)
          ((packetOf [0x88, 0x10, 0x20, 0x04, 0x00, 0x2d] 4 |||
            ((packetOf [0x88, 0x10, 0x20, 0x04, 0x00, 0x2d] 3 &&& 0x07) <<< 7) : Nat) : Int)
          0 0
          (if packetOf [0x88, 0x10, 0x20, 0x04, 0x00, 0x2d] 2 &&& 1 ≠ 0 ∧
              packetOf [0x88, 0x10, 0x20, 0x04, 0x00, 0x2d] 2 &&& 2 = 0 then 40
            else (packetOf [0x88, 0x10, 0x20, 0x04, 0x00, 0x2d] 5 : Int))
          (if (if packetOf [0x88, 0x10, 0x20, 0x04, 0x00, 0x2d] 2 &&& 1 ≠ 0 ∧
              packetOf [0x88, 0x10, 0x20, 0x04, 0x00, 0x2d] 2 &&& 2 = 0 then 40
            else (packetOf [0x88, 0x10, 0x20, 0x04, 0x00, 0x2d] 5 : Int)) > 30
            then 1 else 0)
          buttons :: rest ∧
      ∀ e ∈ rest, ∃ a : Int, e = Event.scrollWheel a 0 0 :=
  (C20_v1_single_touch_decode { proto_version := ALPS_PROTO_V1, byte0 := 0x88, mask0 := 0xf8 } 0
    (packetOf [0x88, 0x10, 0x20, 0x04, 0x00, 0x2d]) rfl (by decide)).1

/-! ## Buttons: auxiliary facts -/

theorem and_mod_128 (p k : Nat) (hk : k &&& 127 = k) : p &&& k = (p % 128) &&& k := by
  have h : p % 128 = p &&& 127 := (Nat.and_pow_two_sub_one_eq_mod p 7).symm
  rw [h, Nat.and_assoc, Nat.and_comm 127 k, hk]

theorem buttonMask_low (p : Nat) :
    buttonMask (notnot (p &&& 0x01)) (notnot (p &&& 0x02)) (notnot (p &&& 0x04)) = p &&& 0x07 := by
  rw [and_mod_128 p 0x01 (by decide), and_mod_128 p 0x02 (by decide),
    and_mod_128 p 0x04 (by decide), and_mod_128 p 0x07 (by decide)]
  have hr : p % 128 < 128 := Nat.mod_lt _ (by decide)
  generalize p % 128 = r at hr
  interval_cases r <;> decide

theorem buttonMask_high (p : Nat) :
    buttonMask (notnot (p &&& 0x10)) (notnot (p &&& 0x20)) (notnot (p &&& 0x40)) =
      (p >>> 4) &&& 0x07 := by
  have hs : (p >>> 4) &&& 0x07 = ((p % 128) >>> 4) &&& 0x07 := by
    have h7 : ∀ q : Nat, q &&& 0x07 = q % 8 := fun q => Nat.and_pow_two_sub_one_eq_mod q 3
    rw [h7, h7, Nat.shiftRight_eq_div_pow, Nat.shiftRight_eq_div_pow]
    omega
  rw [hs, and_mod_128 p 0x10 (by decide), and_mod_128 p 0x20 (by decide),
    and_mod_128 p 0x40 (by decide)]
  have hr : p % 128 < 128 := Nat.mod_lt _ (by decide)
  generalize p % 128 = r at hr
  interval_cases r <;> decide

theorem decodePinnacle_buttons (f : alps_fields) (p : Nat → Nat)
    (hmp : (decodePinnacle f p).is_mp = 0) :
    buttonMask (decodePinnacle f p).left (decodePinnacle f p).right
        (decodePinnacle f p).middle = p 3 &&& 0x07 ∧
      buttonMask (decodePinnacle f p).ts_left (decodePinnacle f p).ts_right
        (decodePinnacle f p).ts_middle = (p 3 >>> 4) &&& 0x07 := by
  rw [← buttonMask_low (p 3), ← buttonMask_high (p 3)]
  unfold decodePinnacle at hmp ⊢
  by_cases h : notnot (p 0 &&& 0x40) ≠ 0
  · exfalso
    rw [if_pos h] at hmp
    exact h hmp
  · rw [if_neg h]
    exact ⟨rfl, rfl⟩

theorem decodeRushmore_buttons (f : alps_fields) (p : Nat → Nat)
    (hmp : (decodeRushmore f p).is_mp = 0) :
    buttonMask (decodeRushmore f p).left (decodeRushmore f p).right
        (decodeRushmore f p).middle = p 3 &&& 0x07 ∧
      buttonMask (decodeRushmore f p).ts_left (decodeRushmore f p).ts_right
        (decodeRushmore f p).ts_middle = (p 3 >>> 4) &&& 0x07 := by
  rw [← buttonMask_low (p 3), ← buttonMask_high (p 3)]
  unfold decodeRushmore at hmp ⊢
  by_cases h : notnot (p 5 &&& 0x40) ≠ 0
  · exfalso
    rw [if_pos h] at hmp
    exact h hmp
  · rw [if_neg h]
    exact ⟨rfl, rfl⟩

theorem decodeDolphin_buttons (priv : alps_data) (f : alps_fields) (p : Nat → Nat)
    (hmp : (decodeDolphin priv f p).is_mp = 0) :
    buttonMask (decodeDolphin priv f p).left (decodeDolphin priv f p).right
        (decodeDolphin priv f p).middle = p 3 &&& 0x07 ∧
      buttonMask (decodeDolphin priv f p).ts_left (decodeDolphin priv f p).ts_right
        (decodeDolphin priv f p).ts_middle = (p 3 >>> 4) &&& 0x07 := by
  rw [← buttonMask_low (p 3), ← buttonMask_high (p 3)]
  unfold decodeDolphin at hmp ⊢
  by_cases h : notnot (p 0 &&& 0x20) = 0
  · rw [if_pos h]
    exact ⟨rfl, rfl⟩
  · exfalso
    rw [if_neg h] at hmp
    exact h hmp

theorem decode_fields_v3_v5_buttons (priv : alps_data) (f : alps_fields) (p : Nat → Nat)
    (hmp : (decode_fields_v3_v5 priv f p).is_mp = 0) :
    buttonMask (decode_fields_v3_v5 priv f p).left (decode_fields_v3_v5 priv f p).right
        (decode_fields_v3_v5 priv f p).middle = p 3 &&& 0x07 ∧
      buttonMask (decode_fields_v3_v5 priv f p).ts_left (decode_fields_v3_v5 priv f p).ts_right
        (decode_fields_v3_v5 priv f p).ts_middle = (p 3 >>> 4) &&& 0x07 := by
  unfold decode_fields_v3_v5 at hmp ⊢
  cases hv : priv.proto_version <;> simp only [hv] at hmp ⊢ <;>
    first
      | exact decodePinnacle_buttons f p hmp
      | exact decodeRushmore_buttons f p hmp
      | exact decodeDolphin_buttons priv f p hmp

theorem processBitmap_keeps_buttons (priv : alps_data) (fields : alps_fields) :
    (processBitmap priv fields).1.flags = priv.flags ∧
      (processBitmap priv fields).1.quirks = priv.quirks ∧
      (processBitmap priv fields).2.1.is_mp = fields.is_mp ∧
      (processBitmap priv fields).2.1.left = fields.left ∧
      (processBitmap priv fields).2.1.right = fields.right ∧
      (processBitmap priv fields).2.1.middle = fields.middle ∧
      (processBitmap priv fields).2.1.ts_left = fields.ts_left ∧
      (processBitmap priv fields).2.1.ts_right = fields.ts_right ∧
      (processBitmap priv fields).2.1.ts_middle = fields.ts_middle := by
  by_cases hz : fields.x_map = 0 ∨ fields.y_map = 0
  · rw [processBitmap_zero priv fields hz]
    exact ⟨rfl, rfl, rfl, rfl, rfl, rfl, rfl, rfl, rfl⟩
  · rw [processBitmap_nonzero priv fields hz]
    exact ⟨rfl, rfl, rfl, rfl, rfl, rfl, rfl, rfl, rfl⟩

theorem v3_v5_finish_buttons (priv1 : alps_data) (f : alps_fields)
    (fingers last_fingers : Int) (packet : Nat → Nat)
    (x1 y1 x2 y2 z n : Int) (buttons : Nat)
    (hev : Event.eventsWithInfo x1 y1 x2 y2 z n buttons ∈
      (v3_v5_finish priv1 f fingers last_fingers packet).2) :
    f.is_mp = 0 ∧
      buttons =
        if priv1.flags &&& ALPS_DUALPOINT ≠ 0 ∧
            priv1.quirks &&& ALPS_QUIRK_TRACKSTICK_BUTTONS = 0 then
          buttonMask f.left f.right f.middle ||| buttonMask f.ts_left f.ts_right f.ts_middle
        else buttonMask f.left f.right f.middle := by
  unfold v3_v5_finish at hev
  by_cases hmp : f.is_mp ≠ 0
  · rw [if_pos hmp] at hev
    exact absurd hev (List.not_mem_nil _)
  · rw [if_neg hmp] at hev
    by_cases hs : priv1.multi_packet = 0 ∧ f.first_mp ≠ 0
    · rw [if_pos hs] at hev
      exact absurd hev (List.not_mem_nil _)
    · rw [if_neg hs] at hev
      refine ⟨not_not.mp hmp, ?_⟩
      simp only [List.mem_singleton, Event.eventsWithInfo.injEq] at hev
      rw [hev.2.2.2.2.2.2]
      by_cases hf : fingers < 2
      · simp only [hf, if_true]
      · simp only [hf, if_false]

theorem v3_v5_merge_buttons (priv : alps_data) (fingers0 : Int) (packet : Nat → Nat) :
    (v3_v5_merge decode_fields_v3_v5 priv fingers0 packet).1.flags = priv.flags ∧
      (v3_v5_merge decode_fields_v3_v5 priv fingers0 packet).1.quirks = priv.quirks ∧
      ((v3_v5_merge decode_fields_v3_v5 priv fingers0 packet).2.1.is_mp = 0 →
        buttonMask (v3_v5_merge decode_fields_v3_v5 priv fingers0 packet).2.1.left
            (v3_v5_merge decode_fields_v3_v5 priv fingers0 packet).2.1.right
            (v3_v5_merge decode_fields_v3_v5 priv fingers0 packet).2.1.middle =
          positionPacket decode_fields_v3_v5 priv packet 3 &&& 0x07 ∧
        buttonMask (v3_v5_merge decode_fields_v3_v5 priv fingers0 packet).2.1.ts_left
            (v3_v5_merge decode_fields_v3_v5 priv fingers0 packet).2.1.ts_right
            (v3_v5_merge decode_fields_v3_v5 priv fingers0 packet).2.1.ts_middle =
          (positionPacket decode_fields_v3_v5 priv packet 3 >>> 4) &&& 0x07) := by
  unfold v3_v5_merge positionPacket
  by_cases h0 : priv.multi_packet ≠ 0
  · by_cases h1 : (decode_fields_v3_v5 priv {} packet).is_mp ≠ 0
    · simp only [if_pos h0, if_pos h1, if_pos (And.intro h0 h1)]
      obtain ⟨k1, k2, k3, k4, k5, k6, k7, k8, k9⟩ := processBitmap_keeps_buttons priv
        (decode_fields_v3_v5 priv (decode_fields_v3_v5 priv {} packet) priv.multi_data)
      refine ⟨k1, k2, ?_⟩
      rw [k3, k4, k5, k6, k7, k8, k9]
      exact decode_fields_v3_v5_buttons priv _ priv.multi_data
    · simp only [if_pos h0, if_neg h1, if_neg (fun h => h1 (And.right h))]
      exact ⟨trivial, trivial, decode_fields_v3_v5_buttons priv _ packet⟩
  · simp only [if_neg h0, if_neg (fun h => h0 (And.left h))]
    exact ⟨trivial, trivial, decode_fields_v3_v5_buttons priv _ packet⟩

theorem and7_or_and7_le (a b : Nat) : (a &&& 0x07) ||| (b &&& 0x07) ≤ 7 := by
  have ha : a &&& 0x07 < 2 ^ 3 := Nat.lt_of_le_of_lt Nat.and_le_right (by decide)
  have hb : b &&& 0x07 < 2 ^ 3 := Nat.lt_of_le_of_lt Nat.and_le_right (by decide)
  have h := Nat.or_lt_two_pow ha hb
  omega

/-! ## Buttons: the claims -/

/-- Claim C21. For a V3, V3_RUSHMORE or V5 device (decoders `decodePinnacle`,
`decodeRushmore`, `decodeDolphin`), every absolute update dispatched by
`alps_process_touchpad_packet_v3_v5` carries a button mask that is at most 7
and equals `(p[3] & 0x07) | ((p[3] >> 4) & 0x07)` when `ALPS_DUALPOINT` is set
and `ALPS_QUIRK_TRACKSTICK_BUTTONS` is clear, and `p[3] & 0x07` otherwise,
where `p` is the position packet whose fields are dispatched: the packet
itself, or the pending packet when the packet is a bitmap packet merged with
it. Bit 0 of `p[3] & 0x07` is the left, bit 1 the right and bit 2 the middle
button as decoded by `decodeButtonsV3`. -/
theorem C21_button_mask (priv : alps_data) (last_fingers fingers0 : Int) (packet : Nat → Nat)
    (x1 y1 x2 y2 z n : Int) (buttons : Nat)
    (hev : Event.eventsWithInfo x1 y1 x2 y2 z n buttons ∈
      (alps_process_touchpad_packet_v3_v5 decode_fields_v3_v5 priv last_fingers fingers0
        packet).2) :
    buttons ≤ 7 ∧
      buttons =
        if priv.flags &&& ALPS_DUALPOINT ≠ 0 ∧
            priv.quirks &&& ALPS_QUIRK_TRACKSTICK_BUTTONS = 0 then
          (positionPacket decode_fields_v3_v5 priv packet 3 &&& 0x07) |||
            ((positionPacket decode_fields_v3_v5 priv packet 3 >>> 4) &&& 0x07)
        else positionPacket decode_fields_v3_v5 priv packet 3 &&& 0x07 := by
  unfold alps_process_touchpad_packet_v3_v5 at hev
  obtain ⟨hmp, hb⟩ := v3_v5_finish_buttons _ _ _ _ _ x1 y1 x2 y2 z n buttons hev
  obtain ⟨hfl, hq, hbut⟩ := v3_v5_merge_buttons priv fingers0 packet
  obtain ⟨hlow, hhigh⟩ := hbut hmp
  rw [hfl, hq, hlow, hhigh] at hb
  refine ⟨?_, hb⟩
  rw [hb]
  split_ifs
  · exact and7_or_and7_le _ _
  · exact Nat.le_trans Nat.and_le_right (by decide)

theorem C21_button_mask_witness :
    (7 : Nat) ≤ 7 ∧
      (7 : Nat) =
        if ({ proto_version := ALPS_PROTO_V3, flags := ALPS_DUALPOINT } : alps_data).flags &&&
              ALPS_DUALPOINT ≠ 0 ∧
            ({ proto_version := ALPS_PROTO_V3, flags := ALPS_DUALPOINT } : alps_data).quirks &&&
              ALPS_QUIRK_TRACKSTICK_BUTTONS = 0 then
          (positionPacket decode_fields_v3_v5
              { proto_version := ALPS_PROTO_V3, flags := ALPS_DUALPOINT }
              (packetOf [0x8f, 0x10, 0x20, 0x25, 0x00, 0x30]) 3 &&& 0x07) |||
            ((positionPacket decode_fields_v3_v5
              { proto_version := ALPS_PROTO_V3, flags := ALPS_DUALPOINT }
              (packetOf [0x8f, 0x10, 0x20, 0x25, 0x00, 0x30]) 3 >>> 4) &&& 0x07)
        else positionPacket decode_fields_v3_v5
          { proto_version := ALPS_PROTO_V3, flags := ALPS_DUALPOINT }
          (packetOf [0x8f, 0x10, 0x20, 0x25, 0x00, 0x30]) 3 &&& 0x07 :=
  C21_button_mask { proto_version := ALPS_PROTO_V3, flags := ALPS_DUALPOINT } 0 0
    (packetOf [0x8f, 0x10, 0x20, 0x25, 0x00, 0x30]) 256 888 0 1400 48 1 7 (by decide)

/-! ## Events per packet: auxiliary facts -/

theorem ss4_decode_cases (m : SS4Macros) (priv : alps_data) (f : alps_fields) (p : Nat → Nat) :
    (alps_decode_ss4_v2 m priv f p).2 = [] ∨
      (alps_get_pkt_id_ss4_v2 p = SS4_PACKET_ID_STICK ∧ priv.flags &&& ALPS_DUALPOINT ≠ 0 ∧
        (∃ dx dy : Int, (alps_decode_ss4_v2 m priv f p).2 = [Event.relativePointer dx dy 0]) ∧
        (alps_decode_ss4_v2 m priv f p).1.is_mp = f.is_mp ∧
        (alps_decode_ss4_v2 m priv f p).1.first_mp = f.first_mp) := by
  unfold alps_decode_ss4_v2
  simp only
  generalize alps_get_pkt_id_ss4_v2 p = pkt_id
  cases pkt_id
  · exact Or.inl rfl
  · exact Or.inl rfl
  · exact Or.inl rfl
  · left
    unfold ss4_decode_switch
    simp only
    split_ifs <;> rfl
  · by_cases hd : priv.flags &&& ALPS_DUALPOINT = 0
    · left
      unfold ss4_decode_switch
      simp only
      rw [if_pos hd]
    · right
      unfold ss4_decode_switch
      simp only [if_neg hd, if_true]
      refine ⟨trivial, hd, ⟨_, _, rfl⟩, ?_, ?_⟩ <;> split_ifs <;> rfl

theorem ss4_events (m : SS4Macros) (priv : alps_data) (packet : Nat → Nat) :
    (alps_process_packet_ss4_v2 m priv packet).2.length ≤ 1 ∨
      (alps_get_pkt_id_ss4_v2 packet = SS4_PACKET_ID_STICK ∧
        priv.flags &&& ALPS_DUALPOINT ≠ 0 ∧
        ∃ (dx dy x1 y1 x2 y2 z n : Int) (b : Nat),
          (alps_process_packet_ss4_v2 m priv packet).2 =
            [Event.relativePointer dx dy 0, Event.eventsWithInfo x1 y1 x2 y2 z n b]) := by
  rcases ss4_decode_cases m priv {} packet with h1 | ⟨hid, hd, ⟨dx, dy, hev⟩, hmp, hfm⟩
  · left
    unfold alps_process_packet_ss4_v2
    by_cases h0 : priv.multi_packet ≠ 0
    · by_cases hm : (alps_decode_ss4_v2 m priv {} packet).1.is_mp ≠ 0
      · simp only [if_pos h0, if_pos hm, h1, List.nil_append]
        rcases ss4_decode_cases m priv (alps_decode_ss4_v2 m priv {} packet).1 priv.multi_data
          with h2 | ⟨_, _, ⟨dx, dy, hev2⟩, hmp2, _⟩
        · rw [h2]
          split_ifs <;> simp
        · rw [hmp2] at *
          rw [if_pos hm, hev2]
          simp
      · simp only [if_pos h0, if_neg hm, h1]
        split_ifs <;> simp
    · simp only [if_neg h0, h1]
      split_ifs <;> simp
  · right
    refine ⟨hid, hd, dx, dy, ?_⟩
    have hmp0 : (alps_decode_ss4_v2 m priv {} packet).1.is_mp = 0 := hmp
    have hfm0 : (alps_decode_ss4_v2 m priv {} packet).1.first_mp = 0 := hfm
    unfold alps_process_packet_ss4_v2
    by_cases h0 : priv.multi_packet ≠ 0
    · simp only [if_pos h0, hmp0, hfm0, ne_eq, not_true_eq_false, if_false, and_false, hev,
        List.singleton_append]
      exact ⟨_, _, _, _, _, _, _, rfl⟩
    · simp only [if_neg h0, hmp0, hfm0, ne_eq, not_true_eq_false, if_false, and_false, hev,
        List.singleton_append]
      exact ⟨_, _, _, _, _, _, _, rfl⟩

theorem processPacketV1V2_events (priv : alps_data) (touchmode : Int) (packet : Nat → Nat) :
    (processPacketV1V2 priv touchmode packet).2.2.length ≤ 1 ∨
      (priv.flags &&& ALPS_WHEEL ≠ 0 ∧
        ∃ (x y z n a : Int) (b : Nat),
          (processPacketV1V2 priv touchmode packet).2.2 =
            [Event.eventsWithInfo x y 0 0 z n b, Event.scrollWheel a 0 0] ∧ a ≠ 0) := by
  unfold processPacketV1V2
  simp only
  by_cases h1 : priv.flags &&& ALPS_DUALPOINT ≠ 0 ∧ ((packet 5 : Nat) : Int) = 127
  · rw [if_pos h1]
    exact Or.inl (Nat.le_refl 1)
  · rw [if_neg h1]
    by_cases h2 : priv.flags &&& ALPS_WHEEL ≠ 0 ∧
        ((((packet 2 <<< 1) &&& 0x08 : Nat) : Int)) -
          ((((packet 0 >>> 4) &&& 0x07 : Nat) : Int)) ≠ 0
    · rw [if_pos h2]
      exact Or.inr ⟨h2.1, _, _, _, _, _, _, rfl, h2.2⟩
    · rw [if_neg h2]
      exact Or.inl (Nat.le_refl 1)

theorem v3_v5_events
    (decode_fields : alps_data → alps_fields → (Nat → Nat) → alps_fields)
    (priv : alps_data) (last_fingers fingers0 : Int) (packet : Nat → Nat) :
    (alps_process_touchpad_packet_v3_v5 decode_fields priv last_fingers fingers0
      packet).2.length ≤ 1 := by
  unfold alps_process_touchpad_packet_v3_v5 v3_v5_finish
  simp only
  split_ifs <;> simp

theorem processTrackstickPacketV3_events (priv : alps_data) (lastbuttons : Nat)
    (packet : Nat → Nat) :
    (processTrackstickPacketV3 priv lastbuttons packet).2.2.length ≤ 1 := by
  unfold processTrackstickPacketV3
  simp only
  split_ifs <;> simp

theorem processPacketV3_events
    (decode_fields : alps_data → alps_fields → (Nat → Nat) → alps_fields)
    (priv : alps_data) (lastbuttons : Nat) (last_fingers fingers0 : Int)
    (packet : Nat → Nat) :
    (processPacketV3 decode_fields priv lastbuttons last_fingers fingers0
      packet).2.2.length ≤ 1 := by
  unfold processPacketV3
  split_ifs
  · exact processTrackstickPacketV3_events priv lastbuttons packet
  · exact v3_v5_events decode_fields priv last_fingers fingers0 packet

theorem processPacketV4_events (priv : alps_data) (packet : Nat → Nat) :
    (processPacketV4 priv packet).2.length ≤ 1 := by
  unfold processPacketV4
  simp only
  split_ifs <;> simp

theorem processPacketV7_events (priv : alps_data) (packet : Nat → Nat) :
    (processPacketV7 priv packet).length ≤ 1 := by
  unfold processPacketV7 processTrackstickPacketV7 processTouchpadPacketV7
  simp only
  split_ifs <;> simp

theorem processPacketV1V2_dispatches (priv : alps_data) (touchmode : Int)
    (packet : Nat → Nat) :
    1 ≤ (processPacketV1V2 priv touchmode packet).2.2.length := by
  unfold processPacketV1V2
  simp only
  by_cases h1 : priv.flags &&& ALPS_DUALPOINT ≠ 0 ∧ ((packet 5 : Nat) : Int) = 127
  · rw [if_pos h1]
    exact Nat.le_refl 1
  · rw [if_neg h1]
    by_cases h2 : priv.flags &&& ALPS_WHEEL ≠ 0 ∧
        ((((packet 2 <<< 1) &&& 0x08 : Nat) : Int)) -
          ((((packet 0 >>> 4) &&& 0x07 : Nat) : Int)) ≠ 0
    · rw [if_pos h2]
      exact Nat.le_succ 1
    · rw [if_neg h2]
      exact Nat.le_refl 1

theorem processTrackstickPacketV3_dispatches (priv : alps_data) (lastbuttons : Nat)
    (packet : Nat → Nat)
    (h : ¬ (priv.flags &&& ALPS_DUALPOINT = 0 ∨ packet 0 &&& 0x40 = 0 ∨
      (packet 1 = 0x7f ∧ packet 2 = 0x7f ∧ packet 3 = 0x7f))) :
    (processTrackstickPacketV3 priv lastbuttons packet).2.2.length = 1 := by
  unfold processTrackstickPacketV3
  rw [if_neg (fun e => h (Or.inl e)), if_neg (fun e => h (Or.inr (Or.inl e))),
    if_neg (fun e => h (Or.inr (Or.inr e)))]
  simp only
  split_ifs <;> rfl

theorem v3_v5_dispatches
    (decode_fields : alps_data → alps_fields → (Nat → Nat) → alps_fields)
    (priv : alps_data) (last_fingers fingers0 : Int) (packet : Nat → Nat)
    (h : v3_v5_returns decode_fields priv fingers0 packet = false) :
    (alps_process_touchpad_packet_v3_v5 decode_fields priv last_fingers fingers0
      packet).2.length = 1 := by
  unfold v3_v5_returns at h
  have h1 := of_decide_eq_false h
  unfold alps_process_touchpad_packet_v3_v5 v3_v5_finish
  simp only
  rw [if_neg (fun e => h1 (Or.inl e)), if_neg (fun e => h1 (Or.inr e))]
  rfl

theorem processPacketV4_dispatches (priv : alps_data) (packet : Nat → Nat)
    (h : ¬ v4_position priv packet > 2) :
    (processPacketV4 priv packet).2.length = 1 := by
  unfold v4_position at h
  unfold processPacketV4
  by_cases hs : packet 6 &&& 0x40 ≠ 0
  · have c1 : ¬ ((0 : Int) > 2) := by decide
    simp only [if_pos hs, if_neg c1]
    rfl
  · rw [if_neg hs] at h
    simp only [if_neg hs, if_neg h]
    rfl

theorem processPacketV7_dispatches (priv : alps_data) (packet : Nat → Nat)
    (h : (if packet 0 = 0x48 ∧ packet 4 &&& 0x47 = 0x06 then
        decide (priv.flags &&& ALPS_DUALPOINT = 0)
      else !(decodeV7 priv {} packet).2) = false) :
    (processPacketV7 priv packet).length = 1 := by
  unfold processPacketV7
  by_cases hp : packet 0 = 0x48 ∧ packet 4 &&& 0x47 = 0x06
  · rw [if_pos hp] at h ⊢
    have hd := of_decide_eq_false h
    unfold processTrackstickPacketV7
    rw [if_neg hd]
    rfl
  · rw [if_neg hp] at h ⊢
    have hd : ¬ ((decodeV7 priv {} packet).2 = false) := by
      intro e
      rw [e] at h
      exact absurd h (by decide)
    unfold processTouchpadPacketV7
    simp only
    rw [if_neg hd]
    rfl

theorem alps_process_packet_ss4_v2_eq (m : SS4Macros) (priv : alps_data)
    (packet : Nat → Nat) :
    alps_process_packet_ss4_v2 m priv packet =
      (if (ss4_merge m priv packet).2.1.is_mp ≠ 0 then
        ((ss4_merge m priv packet).1, (ss4_merge m priv packet).2.2)
      else if (ss4_merge m priv packet).1.multi_packet = 0 ∧
          (ss4_merge m priv packet).2.1.first_mp ≠ 0 then
        ({ (ss4_merge m priv packet).1 with
            multi_packet := 1,
            multi_data := memcpy_multi_data (ss4_merge m priv packet).1.multi_data packet },
          (ss4_merge m priv packet).2.2)
      else
        ({ (ss4_merge m priv packet).1 with multi_packet := 0 },
          (ss4_merge m priv packet).2.2 ++
            [Event.eventsWithInfo ((ss4_merge m priv packet).2.1.mt 0).x
              ((ss4_merge m priv packet).2.1.mt 0).y
              ((ss4_merge m priv packet).2.1.mt 1).x
              ((ss4_merge m priv packet).2.1.mt 1).y
              (ss4_merge m priv packet).2.1.pressure
              (ss4_merge m priv packet).2.1.fingers
              (if (ss4_merge m priv packet).1.flags &&& ALPS_DUALPOINT ≠ 0 then
                buttonMask (ss4_merge m priv packet).2.1.left
                    (ss4_merge m priv packet).2.1.right
                    (ss4_merge m priv packet).2.1.middle |||
                  buttonMask (ss4_merge m priv packet).2.1.ts_left
                    (ss4_merge m priv packet).2.1.ts_right
                    (ss4_merge m priv packet).2.1.ts_middle
              else
                buttonMask (ss4_merge m priv packet).2.1.left
                  (ss4_merge m priv packet).2.1.right
                  (ss4_merge m priv packet).2.1.middle)])) := rfl

theorem ss4_dispatches (m : SS4Macros) (priv : alps_data) (packet : Nat → Nat)
    (h : decide ((ss4_merge m priv packet).2.1.is_mp ≠ 0 ∨
      ((ss4_merge m priv packet).1.multi_packet = 0 ∧
        (ss4_merge m priv packet).2.1.first_mp ≠ 0)) = false) :
    1 ≤ (alps_process_packet_ss4_v2 m priv packet).2.length := by
  have h1 := of_decide_eq_false h
  rw [alps_process_packet_ss4_v2_eq, if_neg (fun e => h1 (Or.inl e)),
    if_neg (fun e => h1 (Or.inr e))]
  simp only [List.length_append, List.length_singleton]
  omega

theorem ss4_returns_events (m : SS4Macros) (priv : alps_data) (packet : Nat → Nat)
    (h : decide ((ss4_merge m priv packet).2.1.is_mp ≠ 0 ∨
      ((ss4_merge m priv packet).1.multi_packet = 0 ∧
        (ss4_merge m priv packet).2.1.first_mp ≠ 0)) = true) :
    (alps_process_packet_ss4_v2 m priv packet).2 = (ss4_merge m priv packet).2.2 := by
  have h1 := of_decide_eq_true h
  rw [alps_process_packet_ss4_v2_eq]
  by_cases hmp : (ss4_merge m priv packet).2.1.is_mp ≠ 0
  · rw [if_pos hmp]
  · rw [if_neg hmp, if_pos (h1.resolve_left hmp)]

theorem v3_v5_returns_events
    (decode_fields : alps_data → alps_fields → (Nat → Nat) → alps_fields)
    (priv : alps_data) (last_fingers fingers0 : Int) (packet : Nat → Nat)
    (h : v3_v5_returns decode_fields priv fingers0 packet = true) :
    (alps_process_touchpad_packet_v3_v5 decode_fields priv last_fingers fingers0
      packet).2 = [] := by
  unfold v3_v5_returns at h
  have h1 := of_decide_eq_true h
  unfold alps_process_touchpad_packet_v3_v5 v3_v5_finish
  simp only
  by_cases hmp : (v3_v5_merge decode_fields priv fingers0 packet).2.1.is_mp ≠ 0
  · rw [if_pos hmp]
  · rw [if_neg hmp, if_pos (h1.resolve_left hmp)]

theorem processPacketV4_returns_events (priv : alps_data) (packet : Nat → Nat)
    (h : v4_position priv packet > 2) :
    (processPacketV4 priv packet).2 = [] := by
  unfold v4_position at h
  unfold processPacketV4
  by_cases hs : packet 6 &&& 0x40 ≠ 0
  · rw [if_pos hs] at h
    exact absurd h (by decide)
  · rw [if_neg hs] at h
    simp only [if_neg hs, if_pos h]

theorem processPacketV7_returns_events (priv : alps_data) (packet : Nat → Nat)
    (h : (if packet 0 = 0x48 ∧ packet 4 &&& 0x47 = 0x06 then
        decide (priv.flags &&& ALPS_DUALPOINT = 0)
      else !(decodeV7 priv {} packet).2) = true) :
    processPacketV7 priv packet = [] := by
  unfold processPacketV7
  by_cases hp : packet 0 = 0x48 ∧ packet 4 &&& 0x47 = 0x06
  · rw [if_pos hp] at h ⊢
    unfold processTrackstickPacketV7
    rw [if_pos (of_decide_eq_true h)]
  · rw [if_neg hp] at h ⊢
    have hd : (decodeV7 priv {} packet).2 = false := by
      cases hb : (decodeV7 priv {} packet).2
      · rfl
      · rw [hb] at h
        exact absurd h (by decide)
    unfold processTouchpadPacketV7
    simp only
    rw [if_pos hd]

theorem process_packet_dispatches (m : SS4Macros) (fingers0 : Int) (s : DriverState)
    (packet : Nat → Nat) (hfull : returnsBeforeDispatch m fingers0 s packet = false) :
    1 ≤ (process_packet m fingers0 s packet).2.length := by
  unfold returnsBeforeDispatch at hfull
  unfold process_packet
  cases hv : s.priv.proto_version <;> rw [hv] at hfull <;> simp only at hfull ⊢
  · exact processPacketV1V2_dispatches _ _ _
  · exact processPacketV1V2_dispatches _ _ _
  · unfold processPacketV3
    by_cases h5 : packet 5 = 0x3f
    · rw [if_pos h5] at hfull ⊢
      exact Nat.le_of_eq (processTrackstickPacketV3_dispatches _ _ _
        (of_decide_eq_false hfull)).symm
    · rw [if_neg h5] at hfull ⊢
      exact Nat.le_of_eq (v3_v5_dispatches _ _ _ _ _ hfull).symm
  · unfold processPacketV3
    by_cases h5 : packet 5 = 0x3f
    · rw [if_pos h5] at hfull ⊢
      exact Nat.le_of_eq (processTrackstickPacketV3_dispatches _ _ _
        (of_decide_eq_false hfull)).symm
    · rw [if_neg h5] at hfull ⊢
      exact Nat.le_of_eq (v3_v5_dispatches _ _ _ _ _ hfull).symm
  · exact Nat.le_of_eq (processPacketV4_dispatches _ _ (of_decide_eq_false hfull)).symm
  · exact Nat.le_of_eq (v3_v5_dispatches _ _ _ _ _ hfull).symm
  · exact Nat.le_of_eq (processPacketV7_dispatches _ _ hfull).symm
  · exact ss4_dispatches m _ _ hfull

theorem processTrackstickPacketV3_rejects (priv : alps_data) (lastbuttons : Nat)
    (packet : Nat → Nat)
    (h : priv.flags &&& ALPS_DUALPOINT = 0 ∨ packet 0 &&& 0x40 = 0 ∨
      (packet 1 = 0x7f ∧ packet 2 = 0x7f ∧ packet 3 = 0x7f)) :
    processTrackstickPacketV3 priv lastbuttons packet = (priv, lastbuttons, []) := by
  unfold processTrackstickPacketV3
  by_cases h1 : priv.flags &&& ALPS_DUALPOINT = 0
  · rw [if_pos h1]
  · rw [if_neg h1]
    by_cases h2 : packet 0 &&& 0x40 = 0
    · rw [if_pos h2]
    · rw [if_neg h2]
      rcases h with h | h | h
      · exact absurd h h1
      · exact absurd h h2
      · rw [if_pos h]

theorem process_packet_returns_early (m : SS4Macros) (fingers0 : Int) (s : DriverState)
    (packet : Nat → Nat) (hret : returnsBeforeDispatch m fingers0 s packet = true) :
    (process_packet m fingers0 s packet).2 =
      (if s.priv.proto_version = ALPS_PROTO_V8 then (ss4_merge m s.priv packet).2.2
        else []) := by
  unfold returnsBeforeDispatch at hret
  unfold process_packet
  cases hv : s.priv.proto_version <;> rw [hv] at hret <;> simp only at hret ⊢
  · exact absurd hret (by decide)
  · exact absurd hret (by decide)
  · rw [if_neg (by decide)]
    unfold processPacketV3
    by_cases h5 : packet 5 = 0x3f
    · rw [if_pos h5] at hret ⊢
      rw [processTrackstickPacketV3_rejects _ _ _ (of_decide_eq_true hret)]
    · rw [if_neg h5] at hret ⊢
      exact v3_v5_returns_events _ _ _ _ _ hret
  · rw [if_neg (by decide)]
    unfold processPacketV3
    by_cases h5 : packet 5 = 0x3f
    · rw [if_pos h5] at hret ⊢
      rw [processTrackstickPacketV3_rejects _ _ _ (of_decide_eq_true hret)]
    · rw [if_neg h5] at hret ⊢
      exact v3_v5_returns_events _ _ _ _ _ hret
  · rw [if_neg (by decide)]
    exact processPacketV4_returns_events _ _ (of_decide_eq_true hret)
  · rw [if_neg (by decide)]
    exact v3_v5_returns_events _ _ _ _ _ hret
  · rw [if_neg (by decide)]
    exact processPacketV7_returns_events _ _ hret
  · rw [if_pos trivial]
    exact ss4_returns_events m _ _ hret

theorem process_packet_events_cases (m : SS4Macros) (fingers0 : Int) (s : DriverState)
    (packet : Nat → Nat) :
    (process_packet m fingers0 s packet).2.length ≤ 1 ∨
      ((s.priv.proto_version = ALPS_PROTO_V1 ∨ s.priv.proto_version = ALPS_PROTO_V2) ∧
        s.priv.flags &&& ALPS_WHEEL ≠ 0 ∧
        ∃ (x y z n a : Int) (b : Nat),
          (process_packet m fingers0 s packet).2 =
            [Event.eventsWithInfo x y 0 0 z n b, Event.scrollWheel a 0 0] ∧ a ≠ 0) ∨
      (s.priv.proto_version = ALPS_PROTO_V8 ∧
        alps_get_pkt_id_ss4_v2 packet = SS4_PACKET_ID_STICK ∧
        s.priv.flags &&& ALPS_DUALPOINT ≠ 0 ∧
        ∃ (dx dy x1 y1 x2 y2 z n : Int) (b : Nat),
          (process_packet m fingers0 s packet).2 =
            [Event.relativePointer dx dy 0, Event.eventsWithInfo x1 y1 x2 y2 z n b]) := by
  unfold process_packet
  cases hv : s.priv.proto_version <;> simp only
  · rcases processPacketV1V2_events s.priv s.touchmode packet with h | ⟨hw, h⟩
    · exact Or.inl h
    · exact Or.inr (Or.inl ⟨Or.inl trivial, hw, h⟩)
  · rcases processPacketV1V2_events s.priv s.touchmode packet with h | ⟨hw, h⟩
    · exact Or.inl h
    · exact Or.inr (Or.inl ⟨Or.inr trivial, hw, h⟩)
  · exact Or.inl (processPacketV3_events _ _ _ _ _ _)
  · exact Or.inl (processPacketV3_events _ _ _ _ _ _)
  · exact Or.inl (processPacketV4_events _ _)
  · exact Or.inl (v3_v5_events _ _ _ _ _)
  · exact Or.inl (processPacketV7_events _ _)
  · rcases ss4_events m s.priv packet with h | ⟨hid, hd, h⟩
    · exact Or.inl h
    · exact Or.inr (Or.inr ⟨trivial, hid, hd, h⟩)

/-- Counterexample to claim C23: a V2 device with `ALPS_WHEEL` dispatches an
absolute update and a scroll event for the packet `8f 10 04 00 20 30`, and a
V8 device with `ALPS_DUALPOINT` dispatches a relative motion and an absolute
update for the stick packet `18 05 03 28 00 00`. Both calls decode their
packet to the end: neither leaves through a return that precedes the
dispatch. -/
theorem C23_counterexample :
    (process_packet ss4MacrosSample 0
        { priv := { proto_version := ALPS_PROTO_V2, flags := ALPS_WHEEL } }
        (packetOf [0x8f, 0x10, 0x04, 0x00, 0x20, 0x30])).2 =
        [Event.eventsWithInfo 16 32 0 0 48 1 0, Event.scrollWheel 8 0 0] ∧
      (process_packet ss4MacrosSample 0
        { priv := { proto_version := ALPS_PROTO_V8, byte0 := 0x18, mask0 := 0x18,
                    flags := ALPS_BUTTONPAD ||| ALPS_DUALPOINT } }
        (packetOf [0x18, 0x05, 0x03, 0x28, 0x00, 0x00])).2 =
        [Event.relativePointer 5 3 0, Event.eventsWithInfo 0 0 0 0 0 0 0] ∧
      returnsBeforeDispatch ss4MacrosSample 0
        { priv := { proto_version := ALPS_PROTO_V2, flags := ALPS_WHEEL } }
        (packetOf [0x8f, 0x10, 0x04, 0x00, 0x20, 0x30]) = false ∧
      returnsBeforeDispatch ss4MacrosSample 0
        { priv := { proto_version := ALPS_PROTO_V8, byte0 := 0x18, mask0 := 0x18,
                    flags := ALPS_BUTTONPAD ||| ALPS_DUALPOINT } }
        (packetOf [0x18, 0x05, 0x03, 0x28, 0x00, 0x00]) = false := by
  decide

/-- Claim C23, amended. A call of the `process_packet` routine of any version
that decodes its packet to the end (it takes none of the `return;` statements
that precede the routine's dispatch call) dispatches exactly one event, except
in two cases, where it dispatches exactly two: a V1 or V2 device with
`ALPS_WHEEL`, where the absolute update is followed by a scroll event with a
non-zero amount; and a V8 device with `ALPS_DUALPOINT` handling a stick
packet, where the relative motion dispatched by the decoder is followed by an
absolute update. -/
theorem C23_events_per_packet (m : SS4Macros) (fingers0 : Int) (s : DriverState)
    (packet : Nat → Nat) (hfull : returnsBeforeDispatch m fingers0 s packet = false) :
    (process_packet m fingers0 s packet).2.length = 1 ∨
      ((s.priv.proto_version = ALPS_PROTO_V1 ∨ s.priv.proto_version = ALPS_PROTO_V2) ∧
        s.priv.flags &&& ALPS_WHEEL ≠ 0 ∧
        ∃ (x y z n a : Int) (b : Nat),
          (process_packet m fingers0 s packet).2 =
            [Event.eventsWithInfo x y 0 0 z n b, Event.scrollWheel a 0 0] ∧ a ≠ 0) ∨
      (s.priv.proto_version = ALPS_PROTO_V8 ∧
        alps_get_pkt_id_ss4_v2 packet = SS4_PACKET_ID_STICK ∧
        s.priv.flags &&& ALPS_DUALPOINT ≠ 0 ∧
        ∃ (dx dy x1 y1 x2 y2 z n : Int) (b : Nat),
          (process_packet m fingers0 s packet).2 =
            [Event.relativePointer dx dy 0, Event.eventsWithInfo x1 y1 x2 y2 z n b]) := by
  have hlow := process_packet_dispatches m fingers0 s packet hfull
  rcases process_packet_events_cases m fingers0 s packet with h | h | h
  · exact Or.inl (Nat.le_antisymm h hlow)
  · exact Or.inr (Or.inl h)
  · exact Or.inr (Or.inr h)

/-- Witness for claim C23 (amended): a V3 device and the position packet
`8f 10 20 00 30 00`, which is decoded to the end and dispatched as one
absolute update. -/
theorem C23_events_per_packet_witness :
    returnsBeforeDispatch ss4MacrosSample 0 { priv := { proto_version := ALPS_PROTO_V3 } } (packetOf [0x8f, 0x10, 0x20, 0x00, 0x30, 0x00]) = false ∧
      ((process_packet ss4MacrosSample 0 { priv := { proto_version := ALPS_PROTO_V3 } } (packetOf [0x8f, 0x10, 0x20, 0x00, 0x30, 0x00])).2.length = 1 ∨
      ((({ priv := { proto_version := ALPS_PROTO_V3 } } : DriverState).priv.proto_version = ALPS_PROTO_V1 ∨ ({ priv := { proto_version := ALPS_PROTO_V3 } } : DriverState).priv.proto_version = ALPS_PROTO_V2) ∧
        ({ priv := { proto_version := ALPS_PROTO_V3 } } : DriverState).priv.flags &&& ALPS_WHEEL ≠ 0 ∧
        ∃ (x y z n a : Int) (b : Nat),
          (process_packet ss4MacrosSample 0 { priv := { proto_version := ALPS_PROTO_V3 } } (packetOf [0x8f, 0x10, 0x20, 0x00, 0x30, 0x00])).2 =
            [Event.eventsWithInfo x y 0 0 z n b, Event.scrollWheel a 0 0] ∧ a ≠ 0) ∨
      (({ priv := { proto_version := ALPS_PROTO_V3 } } : DriverState).priv.proto_version = ALPS_PROTO_V8 ∧
        alps_get_pkt_id_ss4_v2 (packetOf [0x8f, 0x10, 0x20, 0x00, 0x30, 0x00]) = SS4_PACKET_ID_STICK ∧
        ({ priv := { proto_version := ALPS_PROTO_V3 } } : DriverState).priv.flags &&& ALPS_DUALPOINT ≠ 0 ∧
        ∃ (dx dy x1 y1 x2 y2 z n : Int) (b : Nat),
          (process_packet ss4MacrosSample 0 { priv := { proto_version := ALPS_PROTO_V3 } } (packetOf [0x8f, 0x10, 0x20, 0x00, 0x30, 0x00])).2 =
            [Event.relativePointer dx dy 0, Event.eventsWithInfo x1 y1 x2 y2 z n b])) :=
  ⟨by decide,
    C23_events_per_packet ss4MacrosSample 0 { priv := { proto_version := ALPS_PROTO_V3 } } (packetOf [0x8f, 0x10, 0x20, 0x00, 0x30, 0x00]) (by decide)⟩

/-! ## Trackstick packets: auxiliary facts -/

theorem SInt8_range (e : Nat) : -128 ≤ SInt8 e ∧ SInt8 e ≤ 127 := by
  unfold SInt8
  split_ifs <;> omega

theorem tdiv3_range (a : Int) (h1 : -128 ≤ a) (h2 : a ≤ 127) :
    -42 ≤ Int.tdiv a 3 ∧ Int.tdiv a 3 ≤ 42 := by
  interval_cases a <;> decide

theorem and_single_bit (p k : Nat) (hk : k = 0x10 ∨ k = 0x20) : p &&& k = 0 ∨ p &&& k = k := by
  rcases hk with rfl | rfl
  · rw [and_mod_128 p 0x10 (by decide)]
    have hr : p % 128 < 128 := Nat.mod_lt _ (by decide)
    generalize p % 128 = r at hr
    interval_cases r <;> decide
  · rw [and_mod_128 p 0x20 (by decide)]
    have hr : p % 128 < 128 := Nat.mod_lt _ (by decide)
    generalize p % 128 = r at hr
    interval_cases r <;> decide

theorem SInt8_low7 (l : Nat) (hl : l < 128) :
    SInt8 (0 ||| l) = (l : Int) ∧ SInt8 (128 ||| l) = (l : Int) - 128 := by
  interval_cases l <;> decide

theorem and_7f_lt (p : Nat) : p &&& 0x7f < 128 :=
  Nat.lt_of_le_of_lt Nat.and_le_right (by decide)

theorem SInt8_x_spec (p0 p1 : Nat) :
    SInt8 (((p0 &&& 0x20) <<< 2) ||| (p1 &&& 0x7f)) =
      specSigned8 (decide (p0 &&& 0x20 ≠ 0)) (p1 &&& 0x7f) := by
  unfold specSigned8
  rcases and_single_bit p0 0x20 (Or.inr rfl) with h | h
  · rw [h]
    simpa using (SInt8_low7 _ (and_7f_lt p1)).1
  · rw [h]
    simpa using (SInt8_low7 _ (and_7f_lt p1)).2

theorem SInt8_y_spec (p0 p2 : Nat) :
    SInt8 (((p0 &&& 0x10) <<< 3) ||| (p2 &&& 0x7f)) =
      specSigned8 (decide (p0 &&& 0x10 ≠ 0)) (p2 &&& 0x7f) := by
  unfold specSigned8
  rcases and_single_bit p0 0x10 (Or.inl rfl) with h | h
  · rw [h]
    simpa using (SInt8_low7 _ (and_7f_lt p2)).1
  · rw [h]
    simpa using (SInt8_low7 _ (and_7f_lt p2)).2

theorem c_abs_ge_iff (x : Int) (n : Nat) : c_abs x ≥ (n : Int) ↔ n ≤ x.natAbs := by
  unfold c_abs
  split_ifs <;> omega

/-! ## Trackstick packets: the claims -/

/-- Claim C24. For a V3 trackstick packet `p` that `processTrackstickPacketV3`
does not suppress (the device has `ALPS_DUALPOINT`, bit 6 of `p[0]` is set and
bytes 1, 2, 3 are not all `0x7f`), the routine dispatches either the relative
motion `(x, y)` or, in scroll mode, the scroll event `(-y, -x, 0)`, where
`x = trunc(sx / 3)` and `y = -trunc(sy / 3)`, `sx` (resp. `sy`) being the
two's-complement signed 8-bit value with sign bit 5 (resp. 4) of `p[0]` and low
seven bits `p[1] & 0x7f` (resp. `p[2] & 0x7f`), except that `x = y = 0` when
`|sx| >= 127` and `|sy| >= 127`; and `-42 <= x, y <= 42`. The absolute values
are those of the integers (`Int.natAbs`), not the macro of the source. -/
theorem C24_v3_trackstick_motion (priv : alps_data) (lastbuttons : Nat) (packet : Nat → Nat)
    (hd : priv.flags &&& ALPS_DUALPOINT ≠ 0) (h40 : packet 0 &&& 0x40 ≠ 0)
    (hs : ¬(packet 1 = 0x7f ∧ packet 2 = 0x7f ∧ packet 3 = 0x7f)) :
    ∃ (x y : Int) (buttons : Nat),
      ((processTrackstickPacketV3 priv lastbuttons packet).2.2 = [Event.relativePointer x y buttons] ∨
        (processTrackstickPacketV3 priv lastbuttons packet).2.2 = [Event.scrollWheel (-y) (-x) 0]) ∧
      x = (if 127 ≤ (specSigned8 (decide (packet 0 &&& 0x20 ≠ 0)) (packet 1 &&& 0x7f)).natAbs ∧
            127 ≤ (specSigned8 (decide (packet 0 &&& 0x10 ≠ 0)) (packet 2 &&& 0x7f)).natAbs then 0
          else Int.tdiv (specSigned8 (decide (packet 0 &&& 0x20 ≠ 0)) (packet 1 &&& 0x7f)) 3) ∧
      y = (if 127 ≤ (specSigned8 (decide (packet 0 &&& 0x20 ≠ 0)) (packet 1 &&& 0x7f)).natAbs ∧
            127 ≤ (specSigned8 (decide (packet 0 &&& 0x10 ≠ 0)) (packet 2 &&& 0x7f)).natAbs then 0
          else -(Int.tdiv (specSigned8 (decide (packet 0 &&& 0x10 ≠ 0)) (packet 2 &&& 0x7f)) 3)) ∧
      -42 ≤ x ∧ x ≤ 42 ∧ -42 ≤ y ∧ y ≤ 42 := by
  have hx := SInt8_x_spec (packet 0) (packet 1)
  have hy := SInt8_y_spec (packet 0) (packet 2)
  have rx := SInt8_range (((packet 0 &&& 0x20) <<< 2) ||| (packet 1 &&& 0x7f))
  have ry := SInt8_range (((packet 0 &&& 0x10) <<< 3) ||| (packet 2 &&& 0x7f))
  rw [hx] at rx
  rw [hy] at ry
  unfold processTrackstickPacketV3
  rw [if_neg hd, if_neg h40, if_neg hs]
  simp only [hx, hy]
  generalize specSigned8 (decide (packet 0 &&& 0x20 ≠ 0)) (packet 1 &&& 0x7f) = sx at rx
  generalize specSigned8 (decide (packet 0 &&& 0x10 ≠ 0)) (packet 2 &&& 0x7f) = sy at ry
  have bx := tdiv3_range sx rx.1 rx.2
  have by1 := tdiv3_range sy ry.1 ry.2
  have hzero : Int.tdiv 0 3 = 0 := by decide
  by_cases hj : c_abs sx ≥ 0x7f ∧ c_abs sy ≥ 0x7f
  · have hj1 : 127 ≤ sx.natAbs ∧ 127 ≤ sy.natAbs :=
      ⟨(c_abs_ge_iff sx 127).mp hj.1, (c_abs_ge_iff sy 127).mp hj.2⟩
    simp only [if_pos hj, if_pos hj1, hzero, neg_zero]
    split_ifs <;>
      first
        | exact ⟨0, 0, _, Or.inl rfl, rfl, rfl, by decide, by decide, by decide, by decide⟩
        | exact ⟨0, 0, 0, Or.inr (by simp), rfl, rfl, by decide, by decide, by decide,
            by decide⟩
  · have hj1 : ¬(127 ≤ sx.natAbs ∧ 127 ≤ sy.natAbs) := fun h =>
      hj ⟨(c_abs_ge_iff sx 127).mpr h.1, (c_abs_ge_iff sy 127).mpr h.2⟩
    simp only [if_neg hj, if_neg hj1]
    split_ifs <;>
      first
        | exact ⟨_, _, _, Or.inl rfl, rfl, rfl, bx.1, bx.2, by omega, by omega⟩
        | exact ⟨_, _, 0, Or.inr rfl, rfl, rfl, bx.1, bx.2, by omega, by omega⟩

/-- Witness for claim C24 at a saturated packet: `ef 00 7f 00 00 3f` has
`sx = -128` and `sy = 127`, and the routine dispatches the motion `(0, 0)`. -/
theorem C24_v3_trackstick_motion_witness :
    (processTrackstickPacketV3 { proto_version := ALPS_PROTO_V3, flags := ALPS_DUALPOINT } 0 (packetOf [0xef, 0x00, 0x7f, 0x00, 0x00, 0x3f])).2.2 = [Event.relativePointer 0 0 0] ∧
      specSigned8 (decide ((packetOf [0xef, 0x00, 0x7f, 0x00, 0x00, 0x3f]) 0 &&& 0x20 ≠ 0)) ((packetOf [0xef, 0x00, 0x7f, 0x00, 0x00, 0x3f]) 1 &&& 0x7f) = -128 ∧
      specSigned8 (decide ((packetOf [0xef, 0x00, 0x7f, 0x00, 0x00, 0x3f]) 0 &&& 0x10 ≠ 0)) ((packetOf [0xef, 0x00, 0x7f, 0x00, 0x00, 0x3f]) 2 &&& 0x7f) = 127 ∧
      ∃ (x y : Int) (buttons : Nat),
        ((processTrackstickPacketV3 { proto_version := ALPS_PROTO_V3, flags := ALPS_DUALPOINT } 0 (packetOf [0xef, 0x00, 0x7f, 0x00, 0x00, 0x3f])).2.2 = [Event.relativePointer x y buttons] ∨
          (processTrackstickPacketV3 { proto_version := ALPS_PROTO_V3, flags := ALPS_DUALPOINT } 0 (packetOf [0xef, 0x00, 0x7f, 0x00, 0x00, 0x3f])).2.2 = [Event.scrollWheel (-y) (-x) 0]) ∧
        x = (if 127 ≤ (specSigned8 (decide ((packetOf [0xef, 0x00, 0x7f, 0x00, 0x00, 0x3f]) 0 &&& 0x20 ≠ 0)) ((packetOf [0xef, 0x00, 0x7f, 0x00, 0x00, 0x3f]) 1 &&& 0x7f)).natAbs ∧
              127 ≤ (specSigned8 (decide ((packetOf [0xef, 0x00, 0x7f, 0x00, 0x00, 0x3f]) 0 &&& 0x10 ≠ 0)) ((packetOf [0xef, 0x00, 0x7f, 0x00, 0x00, 0x3f]) 2 &&& 0x7f)).natAbs then 0
            else Int.tdiv (specSigned8 (decide ((packetOf [0xef, 0x00, 0x7f, 0x00, 0x00, 0x3f]) 0 &&& 0x20 ≠ 0)) ((packetOf [0xef, 0x00, 0x7f, 0x00, 0x00, 0x3f]) 1 &&& 0x7f)) 3) ∧
        y = (if 127 ≤ (specSigned8 (decide ((packetOf [0xef, 0x00, 0x7f, 0x00, 0x00, 0x3f]) 0 &&& 0x20 ≠ 0)) ((packetOf [0xef, 0x00, 0x7f, 0x00, 0x00, 0x3f]) 1 &&& 0x7f)).natAbs ∧
              127 ≤ (specSigned8 (decide ((packetOf [0xef, 0x00, 0x7f, 0x00, 0x00, 0x3f]) 0 &&& 0x10 ≠ 0)) ((packetOf [0xef, 0x00, 0x7f, 0x00, 0x00, 0x3f]) 2 &&& 0x7f)).natAbs then 0
            else -(Int.tdiv (specSigned8 (decide ((packetOf [0xef, 0x00, 0x7f, 0x00, 0x00, 0x3f]) 0 &&& 0x10 ≠ 0)) ((packetOf [0xef, 0x00, 0x7f, 0x00, 0x00, 0x3f]) 2 &&& 0x7f)) 3)) ∧
        -42 ≤ x ∧ x ≤ 42 ∧ -42 ≤ y ∧ y ≤ 42 :=
  ⟨by decide, by decide, by decide,
    C24_v3_trackstick_motion { proto_version := ALPS_PROTO_V3, flags := ALPS_DUALPOINT } 0
      (packetOf [0xef, 0x00, 0x7f, 0x00, 0x00, 0x3f]) (by decide) (by decide) (by decide)⟩

/-- Claim C26. `processTrackstickPacketV3` dispatches no event and leaves
`priv` (the quirks included) and `lastbuttons` unchanged for a packet whose
bytes 1, 2 and 3 all equal `0x7f`, for a packet with bit 6 of byte 0 clear,
and for any packet on a device without `ALPS_DUALPOINT`. -/
theorem C26_v3_trackstick_suppressed (priv : alps_data) (lastbuttons : Nat)
    (packet : Nat → Nat)
    (h : (packet 1 = 0x7f ∧ packet 2 = 0x7f ∧ packet 3 = 0x7f) ∨ packet 0 &&& 0x40 = 0 ∨
      priv.flags &&& ALPS_DUALPOINT = 0) :
    (processTrackstickPacketV3 priv lastbuttons packet).2.2 = [] ∧
      (processTrackstickPacketV3 priv lastbuttons packet).2.1 = lastbuttons ∧
      (processTrackstickPacketV3 priv lastbuttons packet).1.quirks = priv.quirks ∧
      (processTrackstickPacketV3 priv lastbuttons packet).1 = priv := by
  rw [processTrackstickPacketV3_rejects priv lastbuttons packet
    (by rcases h with h | h | h
        · exact Or.inr (Or.inr h)
        · exact Or.inr (Or.inl h)
        · exact Or.inl h)]
  exact ⟨rfl, rfl, rfl, rfl⟩

theorem C26_v3_trackstick_suppressed_witness :
    (processTrackstickPacketV3 { proto_version := ALPS_PROTO_V3, flags := ALPS_DUALPOINT } 5
        (packetOf [0xcf, 0x7f, 0x7f, 0x7f, 0x00, 0x3f])).2.2 = [] ∧
      (processTrackstickPacketV3 { proto_version := ALPS_PROTO_V3, flags := ALPS_DUALPOINT } 5
        (packetOf [0xcf, 0x7f, 0x7f, 0x7f, 0x00, 0x3f])).2.1 = 5 ∧
      (processTrackstickPacketV3 { proto_version := ALPS_PROTO_V3, flags := ALPS_DUALPOINT } 5
        (packetOf [0xcf, 0x7f, 0x7f, 0x7f, 0x00, 0x3f])).1.quirks =
          ({ proto_version := ALPS_PROTO_V3, flags := ALPS_DUALPOINT } : alps_data).quirks ∧
      (processTrackstickPacketV3 { proto_version := ALPS_PROTO_V3, flags := ALPS_DUALPOINT } 5
        (packetOf [0xcf, 0x7f, 0x7f, 0x7f, 0x00, 0x3f])).1 =
          { proto_version := ALPS_PROTO_V3, flags := ALPS_DUALPOINT } :=
  C26_v3_trackstick_suppressed { proto_version := ALPS_PROTO_V3, flags := ALPS_DUALPOINT } 5
    (packetOf [0xcf, 0x7f, 0x7f, 0x7f, 0x00, 0x3f]) (Or.inl (by decide))

theorem processTrackstickPacketV7_nonneg (priv : alps_data) (packet : Nat → Nat)
    (dx dy : Int) (buttons : Nat)
    (hev : Event.relativePointer dx dy buttons ∈ processTrackstickPacketV7 priv packet) :
    0 ≤ dx ∧ 0 ≤ dy := by
  unfold processTrackstickPacketV7 at hev
  by_cases hd : priv.flags &&& ALPS_DUALPOINT = 0
  · rw [if_pos hd] at hev
    exact absurd hev (List.not_mem_nil _)
  · rw [if_neg hd] at hev
    simp only [List.mem_singleton, Event.relativePointer.injEq] at hev
    obtain ⟨h1, h2, _⟩ := hev
    rw [h1, h2]
    constructor <;> split_ifs <;> first | exact le_refl 0 | exact Int.natCast_nonneg _

/-- Claim C25, evaluated at its failing input. On a V7 device with
`ALPS_DUALPOINT`, the trackstick packet `48 00 ff 58 06 00` (accepted by the
framer) carries the assembled 8-bit field `x = 0xff`, whose two's-complement
reading is -1, and `y = 0`; `processPacketV7` dispatches the relative motion
`(255, 0)`: the field is passed on as a non-negative `int`, without the
conversion to a signed 8-bit value. -/
theorem C25_v7_trackstick_unsigned_at_failing_input :
    ((packetOf [0x48, 0x00, 0xff, 0x58, 0x06, 0x00] 2 &&& 0xbf) |||
        ((packetOf [0x48, 0x00, 0xff, 0x58, 0x06, 0x00] 3 &&& 0x10) <<< 2) = 0xff) ∧
      SInt8 0xff = -1 ∧
      (feed { proto_version := ALPS_PROTO_V7, byte0 := 0x48, mask0 := 0x48,
              flags := ALPS_DUALPOINT } Driver.init
          [0x48, 0x00, 0xff, 0x58, 0x06, 0x00]).2 =
        List.replicate 5 kPS2IR_packetBuffering ++ [kPS2IR_packetReady] ∧
      processPacketV7
          { proto_version := ALPS_PROTO_V7, byte0 := 0x48, mask0 := 0x48,
            flags := ALPS_DUALPOINT }
          (packetOf [0x48, 0x00, 0xff, 0x58, 0x06, 0x00]) =
        [Event.relativePointer 255 0 0] := by
  decide

/-! ## The V7 decoder: auxiliary facts -/

theorem v7_coordinate_two_sentinel (mt : Nat → input_mt_pos) (p : Nat → Nat)
    (hx : v7_two_x1 p = 0xff0) (hy : v7_two_y1 p = 0x7ff) :
    alps_get_finger_coordinate_v7 mt p V7_PACKET_ID_TWO =
      Function.update
        (Function.update mt 0 { x := (v7_mt0_x p : Int), y := 0x7FF - (v7_mt0_y p : Int) })
        1 { x := 0, y := 0 } := by
  unfold alps_get_finger_coordinate_v7
  simp only [hx, hy, and_self, if_true]
  rfl

theorem mt_count_without_second (mt : Nat → input_mt_pos) (a : input_mt_pos) :
    alps_get_mt_count (Function.update (Function.update mt 0 a) 1 { x := 0, y := 0 }) =
      (if a.x ≠ 0 ∨ a.y ≠ 0 then 1 else 0) +
        (if (mt 2).x ≠ 0 ∨ (mt 2).y ≠ 0 then 1 else 0) +
        (if (mt 3).x ≠ 0 ∨ (mt 3).y ≠ 0 then 1 else 0) := by
  unfold alps_get_mt_count MAX_TOUCHES
  have hr : List.range 4 = [0, 1, 2, 3] := by decide
  rw [hr]
  simp only [List.foldl, Function.update_apply]
  simp only [show ((0 : Nat) = 1) = False by simp, show ((2 : Nat) = 1) = False by simp,
    show ((3 : Nat) = 1) = False by simp, show ((2 : Nat) = 0) = False by simp,
    show ((3 : Nat) = 0) = False by simp, if_true, if_false, ne_eq, not_true_eq_false,
    or_self]
  split_ifs <;> rfl

theorem decodeV7_buttons_mt_fingers (priv : alps_data) (f1 : alps_fields) (p : Nat → Nat) :
    (decodeV7_buttons priv f1 p).mt = f1.mt ∧
      (decodeV7_buttons priv f1 p).fingers =
        f1.fingers +
          (if priv.flags &&& ALPS_BUTTONPAD ≠ 0 then
            (if p 0 &&& 0x20 ≠ 0 then 1 else 0) + (if p 0 &&& 0x10 ≠ 0 then 1 else 0)
          else 0) := by
  unfold decodeV7_buttons
  simp only
  split_ifs <;> refine ⟨rfl, ?_⟩ <;> first | (simp; done) | (simp; omega)

theorem decodeV7_single_touch_second (f2 : alps_fields)
    (h : f2.mt 1 = { x := 0, y := 0 }) :
    (decodeV7_single_touch f2).mt 1 = { x := 0, y := 0 } ∧
      (decodeV7_single_touch f2).fingers = f2.fingers := by
  unfold decodeV7_single_touch
  split_ifs
  · exact ⟨by simp [Function.update], rfl⟩
  · exact ⟨h, rfl⟩

theorem decodeV7_two_sentinel (priv : alps_data) (f : alps_fields) (p : Nat → Nat)
    (htwo : alps_get_packet_id_v7 p = V7_PACKET_ID_TWO)
    (hx : v7_two_x1 p = 0xff0) (hy : v7_two_y1 p = 0x7ff) :
    (decodeV7 priv f p).2 = true ∧
      (decodeV7 priv f p).1.mt 1 = { x := 0, y := 0 } ∧
      (decodeV7 priv f p).1.fingers =
        (if (v7_mt0_x p : Int) ≠ 0 ∨ 0x7FF - (v7_mt0_y p : Int) ≠ 0 then 1 else 0) +
          (if (f.mt 2).x ≠ 0 ∨ (f.mt 2).y ≠ 0 then 1 else 0) +
          (if (f.mt 3).x ≠ 0 ∨ (f.mt 3).y ≠ 0 then 1 else 0) +
          (if priv.flags &&& ALPS_BUTTONPAD ≠ 0 then
            (if p 0 &&& 0x20 ≠ 0 then 1 else 0) + (if p 0 &&& 0x10 ≠ 0 then 1 else 0)
          else 0) := by
  have e1 : (V7_PACKET_ID_TWO = V7_PACKET_ID_IDLE) = False := eq_false (by decide)
  have e2 : (V7_PACKET_ID_TWO = V7_PACKET_ID_UNKNOWN) = False := eq_false (by decide)
  have e3 : (V7_PACKET_ID_TWO = V7_PACKET_ID_NEW) = False := eq_false (by decide)
  unfold decodeV7
  simp only [htwo, e1, e2, e3, if_false, if_true, v7_coordinate_two_sentinel f.mt p hx hy,
    mt_count_without_second]
  obtain ⟨hmt, hfin⟩ := decodeV7_buttons_mt_fingers priv
    { f with
      mt := Function.update
        (Function.update f.mt 0
          { x := (v7_mt0_x p : Int), y := 0x7FF - (v7_mt0_y p : Int) })
        1 { x := 0, y := 0 }
      fingers :=
        (if (v7_mt0_x p : Int) ≠ 0 ∨ 0x7FF - (v7_mt0_y p : Int) ≠ 0 then 1 else 0) +
          (if (f.mt 2).x ≠ 0 ∨ (f.mt 2).y ≠ 0 then 1 else 0) +
          (if (f.mt 3).x ≠ 0 ∨ (f.mt 3).y ≠ 0 then 1 else 0) } p
  obtain ⟨h1, h2⟩ := decodeV7_single_touch_second _
    (show (decodeV7_buttons priv _ p).mt 1 = { x := 0, y := 0 } by
      rw [hmt]
      simp [Function.update])
  exact ⟨trivial, h1, by rw [h2, hfin]⟩

/-! ## The V7 decoder: the claims -/

/-- Claim C27. In `decodeV7`, for a packet identified as `V7_PACKET_ID_TWO`
whose second contact reads `mt[1].x = 0xff0` and `mt[1].y = 0x7ff` at the test
for a false-positive touch (before the inversion of `y`), the decoder succeeds,
the second contact is `(0, 0)`, and the finger count is the number of non-zero
points among `mt[0]`, `mt[2]`, `mt[3]` (the second contact is not counted),
raised on a clickpad by the button bits of byte 0. `processTouchpadPacketV7`,
which clears the fields first, then dispatches one absolute update with second
contact `(0, 0)` and that finger count. -/
theorem C27_v7_false_second_contact (priv : alps_data) (f : alps_fields) (p : Nat → Nat)
    (htwo : alps_get_packet_id_v7 p = V7_PACKET_ID_TWO)
    (hx : v7_two_x1 p = 0xff0) (hy : v7_two_y1 p = 0x7ff) :
    (decodeV7 priv f p).2 = true ∧
      (decodeV7 priv f p).1.mt 1 = { x := 0, y := 0 } ∧
      (decodeV7 priv f p).1.fingers =
        ((if (v7_mt0_x p : Int) ≠ 0 ∨ 0x7FF - (v7_mt0_y p : Int) ≠ 0 then 1 else 0) +
          (if ((f).mt 2).x ≠ 0 ∨ ((f).mt 2).y ≠ 0 then 1 else 0) +
          (if ((f).mt 3).x ≠ 0 ∨ ((f).mt 3).y ≠ 0 then 1 else 0) +
          (if priv.flags &&& ALPS_BUTTONPAD ≠ 0 then
            (if p 0 &&& 0x20 ≠ 0 then 1 else 0) + (if p 0 &&& 0x10 ≠ 0 then 1 else 0)
          else 0)) ∧
      ∃ (x1 y1 z : Int) (b : Nat),
        processTouchpadPacketV7 priv p =
          [Event.eventsWithInfo x1 y1 0 0 z
            ((if (v7_mt0_x p : Int) ≠ 0 ∨ 0x7FF - (v7_mt0_y p : Int) ≠ 0 then 1 else 0) +
            (if priv.flags &&& ALPS_BUTTONPAD ≠ 0 then
              (if p 0 &&& 0x20 ≠ 0 then 1 else 0) + (if p 0 &&& 0x10 ≠ 0 then 1 else 0)
            else 0)) b] := by
  refine ⟨(decodeV7_two_sentinel priv f p htwo hx hy).1,
    (decodeV7_two_sentinel priv f p htwo hx hy).2.1,
    (decodeV7_two_sentinel priv f p htwo hx hy).2.2, ?_⟩
  obtain ⟨h1, h2, h3⟩ := decodeV7_two_sentinel priv {} p htwo hx hy
  have h3a : (decodeV7 priv {} p).1.fingers =
      ((if (v7_mt0_x p : Int) ≠ 0 ∨ 0x7FF - (v7_mt0_y p : Int) ≠ 0 then 1 else 0) +
            (if priv.flags &&& ALPS_BUTTONPAD ≠ 0 then
              (if p 0 &&& 0x20 ≠ 0 then 1 else 0) + (if p 0 &&& 0x10 ≠ 0 then 1 else 0)
            else 0)) := by
    rw [h3]
    simp
  unfold processTouchpadPacketV7
  simp only [h1, h2, h3a]
  exact ⟨_, _, _, _, rfl⟩

theorem C27_v7_false_second_contact_witness :
    (decodeV7 { proto_version := ALPS_PROTO_V7, byte0 := 0x48, mask0 := 0x48 } {}
        (packetOf [0x48, 0x10, 0x41, 0xc8, 0xff, 0xbf])).2 = true ∧
      (decodeV7 { proto_version := ALPS_PROTO_V7, byte0 := 0x48, mask0 := 0x48 } {}
        (packetOf [0x48, 0x10, 0x41, 0xc8, 0xff, 0xbf])).1.mt 1 = { x := 0, y := 0 } ∧
      (decodeV7 { proto_version := ALPS_PROTO_V7, byte0 := 0x48, mask0 := 0x48 } {}
        (packetOf [0x48, 0x10, 0x41, 0xc8, 0xff, 0xbf])).1.fingers = 1 ∧
      ∃ (x1 y1 z : Int) (b : Nat),
        processTouchpadPacketV7 { proto_version := ALPS_PROTO_V7, byte0 := 0x48, mask0 := 0x48 }
            (packetOf [0x48, 0x10, 0x41, 0xc8, 0xff, 0xbf]) =
          [Event.eventsWithInfo x1 y1 0 0 z 1 b] :=
  C27_v7_false_second_contact { proto_version := ALPS_PROTO_V7, byte0 := 0x48, mask0 := 0x48 } {}
    (packetOf [0x48, 0x10, 0x41, 0xc8, 0xff, 0xbf]) (by decide) (by decide) (by decide)

/-! ## Packet dispatcher and protocol selection: auxiliary facts -/

theorem packetReady_eq {σ : Type} (process_packet : σ → (Nat → Nat) → σ) (n : Nat)
    (hn : 0 < n) :
    ∀ (fuel : Nat) (rb : RingBuffer) (s : σ), rb.tail < ringCapacity → rb.count / n < fuel →
      packetReady process_packet n fuel rb s =
        some
          ({ rb with tail := (rb.tail + rb.count / n * n) % ringCapacity,
                     count := rb.count % n },
            ((List.range (rb.count / n)).map (fun k => (rb.tail + k * n) % ringCapacity)).foldl
              (fun st t => process_packet st (fun i => rb.buffer (t + i))) s,
            (List.range (rb.count / n)).map (fun k => (rb.tail + k * n) % ringCapacity)) := by
  intro fuel
  induction fuel with
  | zero =>
    intro rb s _ h
    exact absurd h (Nat.not_lt_zero _)
  | succ fuel ih =>
    intro rb s ht hf
    unfold packetReady
    by_cases hc : rb.count ≥ n
    · have hsplit : rb.count = (rb.count - n) + n := by omega
      have hq : rb.count / n = (rb.count - n) / n + 1 := by
        conv_lhs => rw [hsplit]
        exact Nat.add_div_right _ hn
      have ht1 : (rb.advanceTail n).tail < ringCapacity := Nat.mod_lt _ (by decide)
      have hf1 : (rb.advanceTail n).count / n < fuel := by
        show (rb.count - n) / n < fuel
        omega
      rw [if_pos hc]
      simp only
      rw [ih (rb.advanceTail n) _ ht1 hf1]
      have hcnt : (rb.advanceTail n).count = rb.count - n := rfl
      have htl : (rb.advanceTail n).tail = (rb.tail + n) % ringCapacity := rfl
      have hbuf : (rb.advanceTail n).buffer = rb.buffer := rfl
      have hpos : (List.range (rb.count / n)).map (fun k => (rb.tail + k * n) % ringCapacity) =
          rb.tail :: (List.range ((rb.count - n) / n)).map
            (fun k => ((rb.tail + n) % ringCapacity + k * n) % ringCapacity) := by
        rw [hq, List.range_succ_eq_map, List.map_cons, List.map_map]
        congr 1
        · simp [Nat.mod_eq_of_lt ht]
        · apply List.map_congr_left
          intro k _
          simp only [Function.comp]
          rw [Nat.mod_add_mod]
          congr 1
          rw [Nat.succ_mul]
          omega
      simp only [hcnt, htl, hbuf, hpos, List.foldl_cons]
      congr 2
      have e1 : ((rb.tail + n) % ringCapacity + (rb.count - n) / n * n) % ringCapacity =
          (rb.tail + rb.count / n * n) % ringCapacity := by
        rw [Nat.mod_add_mod, hq]
        congr 1
        rw [Nat.add_mul]
        omega
      have e2 : (rb.count - n) % n = rb.count % n := by
        conv_rhs => rw [hsplit]
        exact (Nat.add_mod_right _ _).symm
      cases rb
      simp only [RingBuffer.advanceTail] at e1 e2 ⊢
      simp only [e1]
      congr 1
    · have hlt : rb.count < n := Nat.lt_of_not_ge hc
      have hq : rb.count / n = 0 := Nat.div_eq_of_lt hlt
      rw [if_neg hc, hq]
      simp only [List.range_zero, List.map_nil, List.foldl_nil, Nat.zero_mul, Nat.add_zero,
        Nat.mod_eq_of_lt ht, Nat.mod_eq_of_lt hlt]

theorem packetReady_zero_size {σ : Type} (process_packet : σ → (Nat → Nat) → σ) :
    ∀ (fuel : Nat) (rb : RingBuffer) (s : σ), packetReady process_packet 0 fuel rb s = none := by
  intro fuel
  induction fuel with
  | zero =>
    intro rb s
    rfl
  | succ fuel ih =>
    intro rb s
    unfold packetReady
    rw [if_pos (Nat.zero_le _)]
    simp only
    rw [ih]

/-! ## Packet dispatcher and protocol selection: the claims -/

/-- Claim C28. `packetReady`, started with `c` bytes queued in the ring buffer
(tail position inside the buffer) and packet size `n > 0`, ends: with any fuel
above `c / n` the loop returns. It calls `process_packet` exactly `c / n`
times, on the packets at the tail positions `tail`, `tail + n`, `tail + 2n`,
... (modulo the capacity), in this order, threading the driver state through
the calls; the tail ends `(c / n) * n` bytes further, `c mod n` bytes stay
queued, and the buffer contents and the head are untouched. -/
theorem C28_packetReady_drains {σ : Type} (process_packet : σ → (Nat → Nat) → σ)
    (n fuel : Nat) (rb : RingBuffer) (s : σ)
    (hn : 0 < n) (ht : rb.tail < ringCapacity) (hf : rb.count / n < fuel) :
    ∃ r : RingBuffer × σ × List Nat,
      packetReady process_packet n fuel rb s = some r ∧
        r.2.2.length = rb.count / n ∧
        r.2.2 = (List.range (rb.count / n)).map (fun k => (rb.tail + k * n) % ringCapacity) ∧
        r.2.1 = r.2.2.foldl (fun st t => process_packet st (fun i => rb.buffer (t + i))) s ∧
        r.1.tail = (rb.tail + rb.count / n * n) % ringCapacity ∧
        r.1.count = rb.count % n ∧ r.1.buffer = rb.buffer ∧ r.1.head = rb.head := by
  refine ⟨_, packetReady_eq process_packet n hn fuel rb s ht hf, ?_, rfl, rfl, rfl, rfl, rfl,
    rfl⟩
  simp

theorem C28_packetReady_drains_witness :
    ∃ r : RingBuffer × Nat × List Nat,
      packetReady (fun (st : Nat) (packet : Nat → Nat) => st + packet 0) 6 3
          { buffer := fun i => i + 1, head := 14, count := 14 } 0 = some r ∧
        r.2.2.length = 14 / 6 ∧
        r.2.2 = (List.range (14 / 6)).map (fun k => (0 + k * 6) % ringCapacity) ∧
        r.2.1 = r.2.2.foldl (fun st t => st + (t + 0 + 1)) 0 ∧
        r.1.tail = (0 + 14 / 6 * 6) % ringCapacity ∧
        r.1.count = 14 % 6 ∧ r.1.buffer = (fun i => i + 1) ∧ r.1.head = 14 :=
  C28_packetReady_drains (fun (st : Nat) (packet : Nat → Nat) => st + packet 0) 6 3
    { buffer := fun i => i + 1, head := 14, count := 14 } 0 (by decide) (by decide)
    (by decide)

/-- Claim C29. For each of the eight versions, whatever the three pointers
held before, `set_protocol` leaves `hw_init` and `process_packet` assigned,
and `decode_fields` is assigned whenever the assigned packet routine calls
through it; the packet routine calls through `decode_fields` exactly for V3,
V3_RUSHMORE, V5, V7 and V8. -/
theorem C29_set_protocol_total (v : ProtoVersion) (old : RoutineTable) :
    (∃ h, (set_protocol_routines v old).hw_init = some h) ∧
      (∃ r, (set_protocol_routines v old).process_packet = some r ∧
        (r.callsDecodeFields = false ∨
          ∃ d, (set_protocol_routines v old).decode_fields = some d) ∧
        (r.callsDecodeFields =
          decide (v ∈ [ALPS_PROTO_V3, ALPS_PROTO_V3_RUSHMORE, ALPS_PROTO_V5, ALPS_PROTO_V7,
            ALPS_PROTO_V8]))) := by
  cases v <;>
    first
      | exact ⟨⟨_, rfl⟩, _, rfl, Or.inl rfl, by decide⟩
      | exact ⟨⟨_, rfl⟩, _, rfl, Or.inr ⟨_, rfl⟩, by decide⟩

/-- Claim C30. The six driver fields stored by `dispatchEventsWithInfo`
(`_fingerCount`, `_xraw1`, `_yraw1`, `_xraw2`, `_yraw2`, `_buttonDown`) are the
same for two calls that differ only in the pressure argument `z` and in the
threshold `z_finger`, and `_fingerCount` is the argument `fingers`: the
comparison `z > z_finger` only changes the parameter after the stores. -/
theorem C30_dispatch_state_ignores_pressure
    (z_finger z_finger1 xraw1 yraw1 xraw2 yraw2 z z1 fingers : Int) (buttonsraw : Nat) :
    (dispatchEventsWithInfo z_finger xraw1 yraw1 xraw2 yraw2 z fingers buttonsraw).1 =
        (dispatchEventsWithInfo z_finger1 xraw1 yraw1 xraw2 yraw2 z1 fingers buttonsraw).1 ∧
      (dispatchEventsWithInfo z_finger xraw1 yraw1 xraw2 yraw2 z fingers
        buttonsraw).1._fingerCount = fingers :=
  ⟨rfl, rfl⟩

/-! ## Stored dispatch state and sync pairs: auxiliary facts -/

theorem dispatchEventsWithInfo_no_contact (z_finger xraw1 yraw1 xraw2 yraw2 z fingers : Int)
    (buttonsraw : Nat) (h : fingers < 1) :
    (dispatchEventsWithInfo z_finger xraw1 yraw1 xraw2 yraw2 z fingers buttonsraw).1._xraw1 = -1 ∧
      (dispatchEventsWithInfo z_finger xraw1 yraw1 xraw2 yraw2 z fingers
        buttonsraw).1._xraw2 = -1 ∧
      (dispatchEventsWithInfo z_finger xraw1 yraw1 xraw2 yraw2 z fingers
        buttonsraw).1._yraw2 = -1 ∧
      (dispatchEventsWithInfo z_finger xraw1 yraw1 xraw2 yraw2 z fingers
        buttonsraw).1._yraw1 = (if Int.tdiv yraw1 5 = 0 then -1 else Int.tdiv yraw1 5) := by
  have h2 : fingers < 2 := by omega
  unfold dispatchEventsWithInfo
  simp only [if_pos h, if_pos h2]
  exact ⟨trivial, trivial, trivial, trivial⟩

theorem sync_not_ps2 (b mask0 byte0 : Nat) (hv : byte0 &&& 0xc0 ≠ 0)
    (hb : b &&& mask0 = byte0) : b &&& 0xc8 ≠ 0x08 := by
  intro h8
  apply hv
  have h0 : b &&& 0xc0 = 0 := by
    have e : b &&& 0xc0 = (b &&& 0xc8) &&& 0xc0 := by
      rw [Nat.and_assoc]
      rfl
    rw [e, h8]
    rfl
  rw [← hb, Nat.and_assoc, Nat.and_comm mask0, ← Nat.and_assoc, h0, Nat.zero_and]

/-! ## Stored dispatch state and sync pairs: the claims -/

/-- Claim C37, evaluated at its failing input. Called with the coordinates
`(500, 500)` and `(300, 300)` and `fingers = 0`, `dispatchEventsWithInfo`
stores `_xraw1 = -1`, `_xraw2 = -1` and `_yraw2 = -1`, but `_yraw1 = 100`: the
block for `fingers < 1` assigns `xraw1` and `xraw2`, and `yraw1` keeps the
scaled coordinate. -/
theorem C37_yraw1_kept_at_failing_input :
    (dispatchEventsWithInfo 45 500 500 300 300 0 0 0).1 =
      { _xraw1 := -1, _yraw1 := 100, _xraw2 := -1, _yraw2 := -1, _fingerCount := 0,
        _buttonDown := false } ∧
      (dispatchEventsWithInfo 45 500 500 300 300 0 0 0).1._yraw1 ≠ -1 := by
  decide

/-- Claim C38. For every entry of `alps_model_data` and for the sync pair
that `set_protocol` assigns for every version other than V8,
`(byte0 & mask0) == byte0`, and no byte `b` with `(b & mask0) == byte0`
satisfies `(b & 0xc8) == 0x08`, the test for a bare PS/2 packet. -/
theorem C38_sync_pairs_exclude_ps2 (byte0 mask0 : Nat)
    (h : (∃ e ∈ alps_model_data, byte0 = e.byte0 ∧ mask0 = e.mask0) ∨
      (∃ v : ProtoVersion, v ≠ ALPS_PROTO_V8 ∧ (byte0, mask0) = set_protocol_sync v)) :
    byte0 &&& mask0 = byte0 ∧ ∀ b : Nat, b &&& mask0 = byte0 → b &&& 0xc8 ≠ 0x08 := by
  have key : byte0 &&& mask0 = byte0 ∧ byte0 &&& 0xc0 ≠ 0 := by
    rcases h with ⟨e, he, h1, h2⟩ | ⟨v, hv, hp⟩
    · have hall : ∀ e ∈ alps_model_data, e.byte0 &&& e.mask0 = e.byte0 ∧
          e.byte0 &&& 0xc0 ≠ 0 := by decide
      rw [h1, h2]
      exact hall e he
    · have h1 : byte0 = (set_protocol_sync v).1 := congrArg Prod.fst hp
      have h2 : mask0 = (set_protocol_sync v).2 := congrArg Prod.snd hp
      rw [h1, h2]
      cases v <;> first | exact absurd rfl hv | decide
  exact ⟨key.1, fun b hb => sync_not_ps2 b mask0 byte0 key.2 hb⟩

theorem C38_sync_pairs_exclude_ps2_witness :
    (0x88 : Nat) &&& 0xf8 = 0x88 ∧ ∀ b : Nat, b &&& 0xf8 = 0x88 → b &&& 0xc8 ≠ 0x08 :=
  C38_sync_pairs_exclude_ps2 0x88 0xf8
    (Or.inl ⟨⟨[0x33, 0x02, 0x0a], 0x00, ALPS_PROTO_V1, 0x88, 0xf8, 0⟩, by decide, rfl, rfl⟩)

/-! ## Bit widths: auxiliary facts -/

theorem and_shl_lt (a m k n : Nat) (h : m * 2 ^ k < 2 ^ n) : (a &&& m) <<< k < 2 ^ n := by
  rw [Nat.shiftLeft_eq]
  exact Nat.lt_of_le_of_lt (Nat.mul_le_mul_right _ Nat.and_le_right) h

theorem and_shr_lt (a m k n : Nat) (h : m < 2 ^ n) : (a &&& m) >>> k < 2 ^ n := by
  rw [Nat.shiftRight_eq_div_pow]
  exact Nat.lt_of_le_of_lt (Nat.le_trans (Nat.div_le_self _ _) Nat.and_le_right) h

theorem and_lt (a m n : Nat) (h : m < 2 ^ n) : a &&& m < 2 ^ n :=
  Nat.lt_of_le_of_lt Nat.and_le_right h

theorem v4_maps_lt (md : Nat → Nat) : v4_x_map md < 2 ^ 15 ∧ v4_y_map md < 2 ^ 11 := by
  unfold v4_x_map v4_y_map
  exact ⟨Nat.or_lt_two_pow (Nat.or_lt_two_pow (Nat.or_lt_two_pow
      (and_shl_lt _ _ _ _ (by decide)) (and_shl_lt _ _ _ _ (by decide)))
      (and_shl_lt _ _ _ _ (by decide))) (and_shr_lt _ _ _ _ (by decide)),
    Nat.or_lt_two_pow (Nat.or_lt_two_pow (and_shl_lt _ _ _ _ (by decide))
      (and_shl_lt _ _ _ _ (by decide))) (and_lt _ _ _ (by decide))⟩

theorem decodePinnacle_maps_lt (f : alps_fields) (p : Nat → Nat)
    (hx : f.x_map < 2 ^ 15) (hy : f.y_map < 2 ^ 11) :
    (decodePinnacle f p).x_map < 2 ^ 15 ∧ (decodePinnacle f p).y_map < 2 ^ 11 := by
  unfold decodePinnacle
  by_cases h : notnot (p 0 &&& 0x40) ≠ 0
  · rw [if_pos h]
    exact ⟨Nat.or_lt_two_pow (Nat.or_lt_two_pow (and_shl_lt _ _ _ _ (by decide))
        (and_shl_lt _ _ _ _ (by decide))) (and_shr_lt _ _ _ _ (by decide)),
      Nat.or_lt_two_pow (Nat.or_lt_two_pow (and_shl_lt _ _ _ _ (by decide))
        (and_shl_lt _ _ _ _ (by decide))) (and_lt _ _ _ (by decide))⟩
  · rw [if_neg h]
    exact ⟨hx, hy⟩

theorem decodeRushmore_maps_lt (f : alps_fields) (p : Nat → Nat)
    (hx : f.x_map < 2 ^ 16) (hy : f.y_map < 2 ^ 12) :
    (decodeRushmore f p).x_map < 2 ^ 16 ∧ (decodeRushmore f p).y_map < 2 ^ 12 := by
  unfold decodeRushmore
  by_cases h : notnot (p 5 &&& 0x40) ≠ 0
  · rw [if_pos h]
    exact ⟨Nat.or_lt_two_pow (Nat.or_lt_two_pow (Nat.or_lt_two_pow
        (and_shl_lt _ _ _ _ (by decide)) (and_shl_lt _ _ _ _ (by decide)))
        (and_shl_lt _ _ _ _ (by decide))) (and_shr_lt _ _ _ _ (by decide)),
      Nat.or_lt_two_pow (Nat.or_lt_two_pow (Nat.or_lt_two_pow
        (and_shl_lt _ _ _ _ (by decide)) (and_shl_lt _ _ _ _ (by decide)))
        (and_shl_lt _ _ _ _ (by decide))) (and_lt _ _ _ (by decide))⟩
  · rw [if_neg h]
    exact ⟨hx, hy⟩

theorem and_BIT_lt (a : Nat) (b : Int) : (a &&& (BIT b - 1)) % 2 ^ 32 < 2 ^ b.toNat := by
  have hb : BIT b = 2 ^ b.toNat := by
    unfold BIT
    rw [Nat.shiftLeft_eq, Nat.one_mul]
  have hpos : 0 < 2 ^ b.toNat := Nat.pow_pos (by decide)
  rw [hb]
  have h1 : a &&& (2 ^ b.toNat - 1) ≤ 2 ^ b.toNat - 1 := Nat.and_le_right
  have h2 : (a &&& (2 ^ b.toNat - 1)) % 2 ^ 32 ≤ a &&& (2 ^ b.toNat - 1) := Nat.mod_le _ _
  omega

theorem decodeDolphin_maps_lt (priv : alps_data) (f : alps_fields) (p : Nat → Nat)
    (hx : f.x_map < 2 ^ priv.x_bits.toNat) (hy : f.y_map < 2 ^ priv.y_bits.toNat) :
    (decodeDolphin priv f p).x_map < 2 ^ priv.x_bits.toNat ∧
      (decodeDolphin priv f p).y_map < 2 ^ priv.y_bits.toNat := by
  unfold decodeDolphin
  by_cases h : notnot (p 0 &&& 0x20) = 0
  · rw [if_pos h]
    exact ⟨hx, hy⟩
  · rw [if_neg h]
    exact ⟨and_BIT_lt _ _, and_BIT_lt _ _⟩

/-! ## Bit widths: the claims -/

/-- Claim C39. The bitmaps left by each decoder fit the widths that
`set_protocol` configures for its version: starting from fields whose bitmaps
fit 15 and 11 bits (cleared fields in particular), `decodePinnacle` leaves
`x_map < 2^15` and `y_map < 2^11`, `decodeRushmore` leaves `x_map < 2^16` and
`y_map < 2^12`, `decodeDolphin` (with `x_bits = 23`, `y_bits = 12`) leaves
`x_map < 2^23` and `y_map < 2^12`, and the bitmaps that `processPacketV4`
builds from `multi_data` satisfy `x_map < 2^15` and `y_map < 2^11`. -/
theorem C39_bitmap_widths (priv : alps_data) (f : alps_fields) (p multi_data : Nat → Nat)
    (hx : f.x_map < 2 ^ 15) (hy : f.y_map < 2 ^ 11)
    (hbits : (priv.x_bits, priv.y_bits) = set_protocol_bits ALPS_PROTO_V5) :
    ((decodePinnacle f p).x_map < 2 ^ (set_protocol_bits ALPS_PROTO_V3).1.toNat ∧
        (decodePinnacle f p).y_map < 2 ^ (set_protocol_bits ALPS_PROTO_V3).2.toNat) ∧
      ((decodeRushmore f p).x_map < 2 ^ (set_protocol_bits ALPS_PROTO_V3_RUSHMORE).1.toNat ∧
        (decodeRushmore f p).y_map < 2 ^ (set_protocol_bits ALPS_PROTO_V3_RUSHMORE).2.toNat) ∧
      ((decodeDolphin priv f p).x_map < 2 ^ (set_protocol_bits ALPS_PROTO_V5).1.toNat ∧
        (decodeDolphin priv f p).y_map < 2 ^ (set_protocol_bits ALPS_PROTO_V5).2.toNat) ∧
      (v4_x_map multi_data < 2 ^ (set_protocol_bits ALPS_PROTO_V4).1.toNat ∧
        v4_y_map multi_data < 2 ^ (set_protocol_bits ALPS_PROTO_V4).2.toNat) ∧
      (set_protocol_bits ALPS_PROTO_V3 = (15, 11) ∧
        set_protocol_bits ALPS_PROTO_V3_RUSHMORE = (16, 12) ∧
        set_protocol_bits ALPS_PROTO_V5 = (23, 12) ∧
        set_protocol_bits ALPS_PROTO_V4 = (15, 11)) := by
  have hxb : priv.x_bits = 23 := congrArg Prod.fst hbits
  have hyb : priv.y_bits = 12 := congrArg Prod.snd hbits
  have hx16 : f.x_map < 2 ^ 16 := Nat.lt_trans hx (by decide)
  have hy12 : f.y_map < 2 ^ 12 := Nat.lt_trans hy (by decide)
  have hd := decodeDolphin_maps_lt priv f p
    (by rw [hxb]; exact Nat.lt_trans hx (by decide))
    (by rw [hyb]; exact hy12)
  rw [hxb, hyb] at hd
  exact ⟨decodePinnacle_maps_lt f p hx hy, decodeRushmore_maps_lt f p hx16 hy12, hd,
    v4_maps_lt multi_data, rfl, rfl, rfl, rfl⟩

theorem C39_bitmap_widths_witness :
    ((decodePinnacle {} (packetOf [0xff, 0x7f, 0x7f, 0x7f, 0x7f, 0x7f])).x_map <
          2 ^ (set_protocol_bits ALPS_PROTO_V3).1.toNat ∧
        (decodePinnacle {} (packetOf [0xff, 0x7f, 0x7f, 0x7f, 0x7f, 0x7f])).y_map <
          2 ^ (set_protocol_bits ALPS_PROTO_V3).2.toNat) ∧
      ((decodeRushmore {} (packetOf [0xff, 0x7f, 0x7f, 0x7f, 0x7f, 0x7f])).x_map <
          2 ^ (set_protocol_bits ALPS_PROTO_V3_RUSHMORE).1.toNat ∧
        (decodeRushmore {} (packetOf [0xff, 0x7f, 0x7f, 0x7f, 0x7f, 0x7f])).y_map <
          2 ^ (set_protocol_bits ALPS_PROTO_V3_RUSHMORE).2.toNat) ∧
      ((decodeDolphin { proto_version := ALPS_PROTO_V5, x_bits := 23, y_bits := 12 } {}
            (packetOf [0xff, 0x7f, 0x7f, 0x7f, 0x7f, 0x7f])).x_map <
          2 ^ (set_protocol_bits ALPS_PROTO_V5).1.toNat ∧
        (decodeDolphin { proto_version := ALPS_PROTO_V5, x_bits := 23, y_bits := 12 } {}
            (packetOf [0xff, 0x7f, 0x7f, 0x7f, 0x7f, 0x7f])).y_map <
          2 ^ (set_protocol_bits ALPS_PROTO_V5).2.toNat) ∧
      (v4_x_map (packetOf [0xff, 0xff, 0xff, 0xff, 0xff, 0xff]) <
          2 ^ (set_protocol_bits ALPS_PROTO_V4).1.toNat ∧
        v4_y_map (packetOf [0xff, 0xff, 0xff, 0xff, 0xff, 0xff]) <
          2 ^ (set_protocol_bits ALPS_PROTO_V4).2.toNat) ∧
      (set_protocol_bits ALPS_PROTO_V3 = (15, 11) ∧
        set_protocol_bits ALPS_PROTO_V3_RUSHMORE = (16, 12) ∧
        set_protocol_bits ALPS_PROTO_V5 = (23, 12) ∧
        set_protocol_bits ALPS_PROTO_V4 = (15, 11)) :=
  C39_bitmap_widths { proto_version := ALPS_PROTO_V5, x_bits := 23, y_bits := 12 } {}
    (packetOf [0xff, 0x7f, 0x7f, 0x7f, 0x7f, 0x7f])
    (packetOf [0xff, 0xff, 0xff, 0xff, 0xff, 0xff]) (by decide) (by decide) rfl

/-! ## V7 contacts: auxiliary facts -/

theorem v7_mt0_x_lt (pkt : Nat → Nat) : v7_mt0_x pkt < 2 ^ 12 := by
  unfold v7_mt0_x
  exact Nat.or_lt_two_pow (Nat.or_lt_two_pow (Nat.or_lt_two_pow
    (and_shl_lt _ _ _ _ (by decide)) (and_shl_lt _ _ _ _ (by decide)))
    (and_shr_lt _ _ _ _ (by decide))) (and_lt _ _ _ (by decide))

theorem v7_mt0_y_lt (pkt : Nat → Nat) (h : pkt 1 < 256) : v7_mt0_y pkt < 2 ^ 11 := by
  unfold v7_mt0_y
  refine Nat.or_lt_two_pow ?_ (and_lt _ _ _ (by decide))
  rw [Nat.shiftLeft_eq]
  omega

theorem v7_mt1_x_lt (pkt : Nat → Nat) : v7_mt1_x pkt < 2 ^ 12 := by
  unfold v7_mt1_x
  exact Nat.or_lt_two_pow (Nat.or_lt_two_pow (and_shl_lt _ _ _ _ (by decide))
    (and_shl_lt _ _ _ _ (by decide))) (and_shl_lt _ _ _ _ (by decide))

theorem v7_mt1_y_lt (pkt : Nat → Nat) : v7_mt1_y pkt < 2 ^ 11 := by
  unfold v7_mt1_y
  exact Nat.or_lt_two_pow (and_shl_lt _ _ _ _ (by decide)) (and_shl_lt _ _ _ _ (by decide))

theorem v7_coordinate_0 (mt : Nat → input_mt_pos) (pkt : Nat → Nat) (pkt_id : V7PacketId) :
    alps_get_finger_coordinate_v7 mt pkt pkt_id 0 =
      { x := (v7_mt0_x pkt : Int), y := 0x7FF - (v7_mt0_y pkt : Int) } := by
  unfold alps_get_finger_coordinate_v7
  rw [Function.update_noteq (by decide), Function.update_same]

theorem v7_coordinate_1 (mt : Nat → input_mt_pos) (pkt : Nat → Nat) (pkt_id : V7PacketId) :
    ∃ x1 y1 : Nat, x1 < 2 ^ 12 ∧ y1 < 2 ^ 11 ∧
      alps_get_finger_coordinate_v7 mt pkt pkt_id 1 =
        { x := (x1 : Int), y := 0x7FF - (y1 : Int) } := by
  have hx := v7_mt1_x_lt pkt
  have hy := v7_mt1_y_lt pkt
  have hxm : ∀ m : Nat, v7_mt1_x pkt &&& m < 2 ^ 12 := fun m =>
    Nat.lt_of_le_of_lt Nat.and_le_left hx
  have hym : ∀ m : Nat, v7_mt1_y pkt &&& m < 2 ^ 11 := fun m =>
    Nat.lt_of_le_of_lt Nat.and_le_left hy
  unfold alps_get_finger_coordinate_v7
  rw [Function.update_same]
  cases pkt_id
  · exact ⟨_, _, hx, hy, rfl⟩
  · refine ⟨_, _, ?_, ?_, rfl⟩
    · simp only
      split_ifs
      · decide
      · exact hxm _
    · exact Nat.or_lt_two_pow hy (by decide)
  · refine ⟨_, _, hxm _, ?_, rfl⟩
    exact Nat.or_lt_two_pow (Nat.or_lt_two_pow (hym _) (and_shl_lt _ _ _ _ (by decide)))
      (by decide)
  · refine ⟨_, _, ?_, ?_, rfl⟩
    · exact Nat.or_lt_two_pow (hxm _) (and_lt _ _ _ (by decide))
    · exact Nat.or_lt_two_pow hy (by decide)
  · exact ⟨_, _, hx, hy, rfl⟩

theorem mt_count_cleared (a b : input_mt_pos) :
    alps_get_mt_count (Function.update (Function.update (fun _ => {}) 0 a) 1 b) =
      (if a.x ≠ 0 ∨ a.y ≠ 0 then 1 else 0) + (if b.x ≠ 0 ∨ b.y ≠ 0 then 1 else 0) := by
  unfold alps_get_mt_count MAX_TOUCHES
  have hr : List.range 4 = [0, 1, 2, 3] := by decide
  rw [hr]
  simp only [List.foldl, Function.update_apply]
  simp only [show ((0 : Nat) = 1) = False by simp, show ((2 : Nat) = 1) = False by simp,
    show ((3 : Nat) = 1) = False by simp, show ((2 : Nat) = 0) = False by simp,
    show ((3 : Nat) = 0) = False by simp, if_true, if_false, ne_eq, not_true_eq_false,
    or_self]
  split_ifs <;> rfl

theorem decodeV7_two_form (priv : alps_data) (f : alps_fields) (p : Nat → Nat)
    (htwo : alps_get_packet_id_v7 p = V7_PACKET_ID_TWO) :
    (decodeV7 priv f p).1 =
      decodeV7_single_touch
        (decodeV7_buttons priv
          { f with
            mt := alps_get_finger_coordinate_v7 f.mt p V7_PACKET_ID_TWO
            fingers :=
              alps_get_mt_count (alps_get_finger_coordinate_v7 f.mt p V7_PACKET_ID_TWO) } p) := by
  have e1 : (V7_PACKET_ID_TWO = V7_PACKET_ID_IDLE) = False := eq_false (by decide)
  have e2 : (V7_PACKET_ID_TWO = V7_PACKET_ID_UNKNOWN) = False := eq_false (by decide)
  have e3 : (V7_PACKET_ID_TWO = V7_PACKET_ID_NEW) = False := eq_false (by decide)
  unfold decodeV7
  simp only [htwo, e1, e2, e3, if_false, if_true]

theorem decodeV7_single_touch_slot0 (f2 : alps_fields)
    (h : (decodeV7_single_touch f2).fingers = 1)
    (hcount : f2.fingers =
      (if (f2.mt 0).x ≠ 0 ∨ (f2.mt 0).y ≠ 0 then 1 else 0) +
        (if (f2.mt 1).x ≠ 0 ∨ (f2.mt 1).y ≠ 0 then 1 else 0)) :
    (((decodeV7_single_touch f2).mt 0).x ≠ 0 ∨ ((decodeV7_single_touch f2).mt 0).y ≠ 0) ∧
      (decodeV7_single_touch f2).mt 1 = { x := 0, y := 0 } := by
  unfold decodeV7_single_touch at h ⊢
  by_cases hc : f2.fingers = 1 ∧ (f2.mt 0).x = 0 ∧ (f2.mt 0).y = 0
  · rw [if_pos hc]
    obtain ⟨hf, hx0, hy0⟩ := hc
    have h0 : ¬((f2.mt 0).x ≠ 0 ∨ (f2.mt 0).y ≠ 0) := by
      intro hne
      rcases hne with hne | hne
      · exact hne hx0
      · exact hne hy0
    rw [hf, if_neg h0] at hcount
    have h1 : (f2.mt 1).x ≠ 0 ∨ (f2.mt 1).y ≠ 0 := by
      by_contra hno
      rw [if_neg hno] at hcount
      exact absurd hcount (by decide)
    refine ⟨?_, ?_⟩
    · simpa [Function.update] using h1
    · simp [Function.update]
  · rw [if_neg hc] at h ⊢
    have h0 : (f2.mt 0).x ≠ 0 ∨ (f2.mt 0).y ≠ 0 := by
      by_contra hno
      apply hc
      refine ⟨h, ?_, ?_⟩
      · by_contra hx
        exact hno (Or.inl hx)
      · by_contra hy
        exact hno (Or.inr hy)
    refine ⟨h0, ?_⟩
    rw [h, if_pos h0] at hcount
    have h1 : ¬((f2.mt 1).x ≠ 0 ∨ (f2.mt 1).y ≠ 0) := by
      intro hyes
      rw [if_pos hyes] at hcount
      exact absurd hcount (by decide)
    have hx1 : (f2.mt 1).x = 0 := by
      by_contra hx
      exact h1 (Or.inl hx)
    have hy1 : (f2.mt 1).y = 0 := by
      by_contra hy
      exact h1 (Or.inr hy)
    cases hm : f2.mt 1 with
    | mk x y =>
      rw [hm] at hx1 hy1
      simp only at hx1 hy1
      rw [hx1, hy1]

/-! ## V7 contacts: the claims -/

/-- Claim C35. For every packet of bytes and every packet id,
`alps_get_finger_coordinate_v7` leaves `0 <= mt[i].x <= 0xfff` and
`0 <= mt[i].y <= 0x7ff` for `i = 0` and `i = 1`; these bounds are the `x_max`
and `y_max` that `set_protocol` assigns for V7. -/
theorem C35_v7_coordinates_in_range (mt : Nat → input_mt_pos) (pkt : Nat → Nat)
    (pkt_id : V7PacketId) (hbyte : ∀ i, i < 6 → pkt i < 256) :
    (0 ≤ (alps_get_finger_coordinate_v7 mt pkt pkt_id 0).x ∧
        (alps_get_finger_coordinate_v7 mt pkt pkt_id 0).x ≤ 0xfff ∧
        0 ≤ (alps_get_finger_coordinate_v7 mt pkt pkt_id 0).y ∧
        (alps_get_finger_coordinate_v7 mt pkt pkt_id 0).y ≤ 0x7ff) ∧
      (0 ≤ (alps_get_finger_coordinate_v7 mt pkt pkt_id 1).x ∧
        (alps_get_finger_coordinate_v7 mt pkt pkt_id 1).x ≤ 0xfff ∧
        0 ≤ (alps_get_finger_coordinate_v7 mt pkt pkt_id 1).y ∧
        (alps_get_finger_coordinate_v7 mt pkt pkt_id 1).y ≤ 0x7ff) ∧
      set_protocol_max ALPS_PROTO_V7 = (0xfff, 0x7ff) := by
  have h0x := v7_mt0_x_lt pkt
  have h0y := v7_mt0_y_lt pkt (hbyte 1 (by decide))
  obtain ⟨x1, y1, h1x, h1y, h1⟩ := v7_coordinate_1 mt pkt pkt_id
  rw [v7_coordinate_0, h1]
  simp only
  refine ⟨⟨?_, ?_, ?_, ?_⟩, ⟨?_, ?_, ?_, ?_⟩, rfl⟩ <;> omega

theorem C35_v7_coordinates_in_range_witness :
    (0 ≤ (alps_get_finger_coordinate_v7 (fun _ => {})
          (packetOf [0x48, 0xff, 0xff, 0xff, 0xff, 0xbf]) V7_PACKET_ID_TWO 0).x ∧
        (alps_get_finger_coordinate_v7 (fun _ => {})
          (packetOf [0x48, 0xff, 0xff, 0xff, 0xff, 0xbf]) V7_PACKET_ID_TWO 0).x ≤ 0xfff ∧
        0 ≤ (alps_get_finger_coordinate_v7 (fun _ => {})
          (packetOf [0x48, 0xff, 0xff, 0xff, 0xff, 0xbf]) V7_PACKET_ID_TWO 0).y ∧
        (alps_get_finger_coordinate_v7 (fun _ => {})
          (packetOf [0x48, 0xff, 0xff, 0xff, 0xff, 0xbf]) V7_PACKET_ID_TWO 0).y ≤ 0x7ff) ∧
      (0 ≤ (alps_get_finger_coordinate_v7 (fun _ => {})
          (packetOf [0x48, 0xff, 0xff, 0xff, 0xff, 0xbf]) V7_PACKET_ID_TWO 1).x ∧
        (alps_get_finger_coordinate_v7 (fun _ => {})
          (packetOf [0x48, 0xff, 0xff, 0xff, 0xff, 0xbf]) V7_PACKET_ID_TWO 1).x ≤ 0xfff ∧
        0 ≤ (alps_get_finger_coordinate_v7 (fun _ => {})
          (packetOf [0x48, 0xff, 0xff, 0xff, 0xff, 0xbf]) V7_PACKET_ID_TWO 1).y ∧
        (alps_get_finger_coordinate_v7 (fun _ => {})
          (packetOf [0x48, 0xff, 0xff, 0xff, 0xff, 0xbf]) V7_PACKET_ID_TWO 1).y ≤ 0x7ff) ∧
      set_protocol_max ALPS_PROTO_V7 = (0xfff, 0x7ff) :=
  C35_v7_coordinates_in_range (fun _ => {}) (packetOf [0x48, 0xff, 0xff, 0xff, 0xff, 0xbf])
    V7_PACKET_ID_TWO (by decide)

/-- Claim C36. On a V7 device without `ALPS_BUTTONPAD`, for a packet
identified as `V7_PACKET_ID_TWO` and decoded by `decodeV7` into cleared
fields: if the resulting finger count is 1, then `mt[0]` is not `(0, 0)` and
`mt[1]` is `(0, 0)`. -/
theorem C36_v7_single_touch_in_slot0 (priv : alps_data) (p : Nat → Nat)
    (hbp : priv.flags &&& ALPS_BUTTONPAD = 0)
    (htwo : alps_get_packet_id_v7 p = V7_PACKET_ID_TWO)
    (h1 : (decodeV7 priv {} p).1.fingers = 1) :
    (((decodeV7 priv {} p).1.mt 0).x ≠ 0 ∨ ((decodeV7 priv {} p).1.mt 0).y ≠ 0) ∧
      (decodeV7 priv {} p).1.mt 1 = { x := 0, y := 0 } := by
  rw [decodeV7_two_form priv {} p htwo] at h1 ⊢
  obtain ⟨hmt, hfin⟩ := decodeV7_buttons_mt_fingers priv
    { ({} : alps_fields) with
      mt := alps_get_finger_coordinate_v7 ({} : alps_fields).mt p V7_PACKET_ID_TWO
      fingers := alps_get_mt_count
        (alps_get_finger_coordinate_v7 ({} : alps_fields).mt p V7_PACKET_ID_TWO) } p
  rw [if_neg (not_not.mpr hbp), add_zero] at hfin
  apply decodeV7_single_touch_slot0 _ h1
  rw [hfin, hmt]
  have hform : alps_get_finger_coordinate_v7 ({} : alps_fields).mt p V7_PACKET_ID_TWO =
      Function.update (Function.update (fun _ => {}) 0
        (alps_get_finger_coordinate_v7 ({} : alps_fields).mt p V7_PACKET_ID_TWO 0)) 1
        (alps_get_finger_coordinate_v7 ({} : alps_fields).mt p V7_PACKET_ID_TWO 1) := by
    funext i
    unfold alps_get_finger_coordinate_v7
    simp only [Function.update_apply]
    split_ifs <;> simp_all
  show alps_get_mt_count (alps_get_finger_coordinate_v7 ({} : alps_fields).mt p
    V7_PACKET_ID_TWO) = _
  conv_lhs => rw [hform]
  rw [mt_count_cleared]

theorem C36_v7_single_touch_in_slot0_witness :
    (((decodeV7 { proto_version := ALPS_PROTO_V7, byte0 := 0x48, mask0 := 0x48 } {}
          (packetOf [0x4f, 0xff, 0x40, 0x48, 0x41, 0x02])).1.mt 0).x ≠ 0 ∨
        ((decodeV7 { proto_version := ALPS_PROTO_V7, byte0 := 0x48, mask0 := 0x48 } {}
          (packetOf [0x4f, 0xff, 0x40, 0x48, 0x41, 0x02])).1.mt 0).y ≠ 0) ∧
      (decodeV7 { proto_version := ALPS_PROTO_V7, byte0 := 0x48, mask0 := 0x48 } {}
        (packetOf [0x4f, 0xff, 0x40, 0x48, 0x41, 0x02])).1.mt 1 = { x := 0, y := 0 } :=
  C36_v7_single_touch_in_slot0 { proto_version := ALPS_PROTO_V7, byte0 := 0x48, mask0 := 0x48 }
    (packetOf [0x4f, 0xff, 0x40, 0x48, 0x41, 0x02]) (by decide) (by decide) (by decide)

/-! ## The stuck byte counter: auxiliary facts -/

theorem processBitmap_keeps_multi (priv : alps_data) (fields : alps_fields) :
    (processBitmap priv fields).1.multi_packet = priv.multi_packet ∧
      (processBitmap priv fields).1.multi_data = priv.multi_data := by
  by_cases hz : fields.x_map = 0 ∨ fields.y_map = 0
  · rw [processBitmap_zero priv fields hz]
    exact ⟨rfl, rfl⟩
  · rw [processBitmap_nonzero priv fields hz]
    exact ⟨rfl, rfl⟩

theorem processPacketV4_early (priv : alps_data) (packet : Nat → Nat)
    (h0 : 0 ≤ v4_position priv packet) (h1 : v4_position priv packet < 2) :
    (processPacketV4 priv packet).1.multi_packet = v4_position priv packet + 1 ∧
      (processPacketV4 priv packet).1.multi_data =
        Function.update
          (Function.update priv.multi_data (2 * v4_position priv packet).toNat (packet 6))
          (2 * v4_position priv packet + 1).toNat (packet 7) ∧
      (processPacketV4 priv packet).1.second_touch = priv.second_touch ∧
      ∃ (x y z : Int) (b : Nat),
        (processPacketV4 priv packet).2 = [Event.eventsWithInfo x y 0 0 z 0 b] := by
  unfold v4_position at h0 h1 ⊢
  unfold processPacketV4
  by_cases hs : packet 6 &&& 0x40 ≠ 0
  · have c1 : ¬ ((0 : Int) > 2) := by decide
    have c2 : ¬ ((0 : Int) + 1 > 2) := by decide
    simp only [if_pos hs, if_neg c1, if_neg c2]
    exact ⟨trivial, trivial, trivial, _, _, _, _, rfl⟩
  · rw [if_neg hs] at h0 h1
    have c1 : ¬ priv.multi_packet > 2 := by omega
    have c2 : ¬ priv.multi_packet + 1 > 2 := by omega
    simp only [if_neg hs, if_neg c1, if_neg c2]
    exact ⟨trivial, trivial, trivial, _, _, _, _, rfl⟩

theorem processPacketV4_last (priv : alps_data) (packet : Nat → Nat)
    (h2 : v4_position priv packet = 2) :
    (processPacketV4 priv packet).1.multi_packet = 0 ∧
      (processPacketV4 priv packet).1.multi_data =
        Function.update (Function.update priv.multi_data 4 (packet 6)) 5 (packet 7) ∧
      ∃ (x y z : Int) (b : Nat),
        (processPacketV4 priv packet).2 =
          [Event.eventsWithInfo x y 0 0 z
            (v4_bitmap_fingers
              (Function.update (Function.update priv.multi_data 4 (packet 6)) 5 (packet 7)))
            b] := by
  unfold v4_position at h2
  by_cases hs : packet 6 &&& 0x40 ≠ 0
  · rw [if_pos hs] at h2
    exact absurd h2 (by decide)
  · rw [if_neg hs] at h2
    have c1 : ¬ priv.multi_packet > 2 := by omega
    have c2 : priv.multi_packet + 1 > 2 := by omega
    have e4 : (2 * priv.multi_packet).toNat = 4 := by rw [h2]; rfl
    have e5 : (2 * priv.multi_packet + 1).toNat = 5 := by rw [h2]; rfl
    unfold processPacketV4
    simp only [if_neg hs, if_neg c1, if_pos c2, e4, e5]
    refine ⟨(processBitmap_keeps_multi _ _).1, (processBitmap_keeps_multi _ _).2, ?_⟩
    rw [processBitmap_ret]
    exact ⟨_, _, _, _, rfl⟩

theorem v4_position_range (priv : alps_data) (packet : Nat → Nat)
    (h0 : 0 ≤ priv.multi_packet) (h2 : priv.multi_packet ≤ 2) :
    0 ≤ v4_position priv packet ∧ v4_position priv packet ≤ 2 := by
  unfold v4_position
  split_ifs
  · decide
  · exact ⟨h0, h2⟩

theorem processPacketV4_next (priv : alps_data) (packet : Nat → Nat)
    (h0 : 0 ≤ priv.multi_packet) (h2 : priv.multi_packet ≤ 2) :
    (processPacketV4 priv packet).1.multi_packet =
        (if v4_position priv packet = 2 then 0 else v4_position priv packet + 1) ∧
      0 ≤ (processPacketV4 priv packet).1.multi_packet ∧
      (processPacketV4 priv packet).1.multi_packet ≤ 2 := by
  obtain ⟨k0, k2⟩ := v4_position_range priv packet h0 h2
  by_cases hk : v4_position priv packet = 2
  · rw [if_pos hk, (processPacketV4_last priv packet hk).1]
    exact ⟨rfl, by decide, by decide⟩
  · rw [if_neg hk, (processPacketV4_early priv packet k0 (by omega)).1]
    exact ⟨rfl, by omega, by omega⟩

theorem v4_position_eq_one (priv : alps_data) (packet : Nat → Nat)
    (h : v4_position priv packet = 1) : priv.multi_packet = 1 := by
  unfold v4_position at h
  by_cases hs : packet 6 &&& 0x40 ≠ 0
  · rw [if_pos hs] at h
    exact absurd h (by decide)
  · rw [if_neg hs] at h
    exact h

theorem v4_position_eq_two (priv : alps_data) (packet : Nat → Nat)
    (h : v4_position priv packet = 2) : priv.multi_packet = 2 := by
  unfold v4_position at h
  by_cases hs : packet 6 &&& 0x40 ≠ 0
  · rw [if_pos hs] at h
    exact absurd h (by decide)
  · rw [if_neg hs] at h
    exact h

theorem v4_three_packets (priv : alps_data) (p1 p2 p3 : Nat → Nat)
    (h0 : 0 ≤ priv.multi_packet) (h2 : priv.multi_packet ≤ 2)
    (hdec : v4_position (processPacketV4 (processPacketV4 priv p1).1 p2).1 p3 = 2) :
    v4_position priv p1 = 0 ∧ v4_position (processPacketV4 priv p1).1 p2 = 1 ∧
      (processPacketV4 (processPacketV4 (processPacketV4 priv p1).1 p2).1 p3).1.multi_data =
        Function.update (Function.update (Function.update (Function.update
          (Function.update (Function.update priv.multi_data 0 (p1 6)) 1 (p1 7))
          2 (p2 6)) 3 (p2 7)) 4 (p3 6)) 5 (p3 7) := by
  obtain ⟨n1, a1, b1⟩ := processPacketV4_next priv p1 h0 h2
  obtain ⟨n2, a2, b2⟩ := processPacketV4_next (processPacketV4 priv p1).1 p2 a1 b1
  obtain ⟨r1lo, r1hi⟩ := v4_position_range priv p1 h0 h2
  obtain ⟨r2lo, r2hi⟩ := v4_position_range (processPacketV4 priv p1).1 p2 a1 b1
  have m2 := v4_position_eq_two _ _ hdec
  have k2 : v4_position (processPacketV4 priv p1).1 p2 = 1 := by
    rw [m2] at n2
    by_cases hk : v4_position (processPacketV4 priv p1).1 p2 = 2
    · rw [if_pos hk] at n2
      exact absurd n2 (by decide)
    · rw [if_neg hk] at n2
      omega
  have m1 := v4_position_eq_one _ _ k2
  have k1 : v4_position priv p1 = 0 := by
    rw [m1] at n1
    by_cases hk : v4_position priv p1 = 2
    · rw [if_pos hk] at n1
      exact absurd n1 (by decide)
    · rw [if_neg hk] at n1
      omega
  refine ⟨k1, k2, ?_⟩
  rw [(processPacketV4_last _ p3 hdec).2.1,
    (processPacketV4_early _ p2 (by omega) (by omega)).2.1,
    (processPacketV4_early priv p1 (by omega) (by omega)).2.1, k1, k2]
  rfl

theorem v4_maps_of_six (md : Nat → Nat) (a0 a1 a2 a3 a4 a5 : Nat) :
    v4_x_map (Function.update (Function.update (Function.update (Function.update
        (Function.update (Function.update md 0 a0) 1 a1) 2 a2) 3 a3) 4 a4) 5 a5) =
        v4_x_map (packetOf [a0, a1, a2, a3, a4, a5]) ∧
      v4_y_map (Function.update (Function.update (Function.update (Function.update
        (Function.update (Function.update md 0 a0) 1 a1) 2 a2) 3 a3) 4 a4) 5 a5) =
        v4_y_map (packetOf [a0, a1, a2, a3, a4, a5]) := by
  unfold v4_x_map v4_y_map packetOf
  simp [Function.update]

/-! ## The V4 bitmap sequence: the claims -/

/-- Claim C33. `processPacketV4` preserves `0 <= multi_packet <= 2`. Under
this invariant the early return is not taken (one event is dispatched),
`multi_data` is unchanged at every offset from 6 on, and with `k` the value of
`multi_packet` after the sync check: the new `multi_packet` is 0 if `k = 2`
and `k + 1` otherwise, and the finger count dispatched is the one that
`processBitmap` returns for the bitmaps built from `multi_data` if `k = 2`,
and the constant 0 otherwise. -/
theorem C33_v4_sequence_position (priv : alps_data) (packet : Nat → Nat)
    (h0 : 0 ≤ priv.multi_packet) (h2 : priv.multi_packet ≤ 2) :
    (0 ≤ (processPacketV4 priv packet).1.multi_packet ∧
        (processPacketV4 priv packet).1.multi_packet ≤ 2) ∧
      (processPacketV4 priv packet).1.multi_packet =
        (if v4_position priv packet = 2 then 0 else v4_position priv packet + 1) ∧
      (processPacketV4 priv packet).2.length = 1 ∧
      (∀ i, 6 ≤ i → (processPacketV4 priv packet).1.multi_data i = priv.multi_data i) ∧
      ∃ (x y z : Int) (b : Nat),
        (processPacketV4 priv packet).2 =
          [Event.eventsWithInfo x y 0 0 z
            (if v4_position priv packet = 2 then
              v4_bitmap_fingers (processPacketV4 priv packet).1.multi_data
            else 0) b] := by
  obtain ⟨k0, k2⟩ := v4_position_range priv packet h0 h2
  by_cases hk : v4_position priv packet = 2
  · obtain ⟨e1, e2, x, y, z, b, e3⟩ := processPacketV4_last priv packet hk
    rw [if_pos hk, if_pos hk, e1, e2, e3]
    refine ⟨by decide, rfl, rfl, ?_, x, y, z, b, rfl⟩
    intro i hi
    rw [Function.update_noteq (by omega), Function.update_noteq (by omega)]
  · have hlt : v4_position priv packet < 2 := by omega
    obtain ⟨e1, e2, _, x, y, z, b, e3⟩ := processPacketV4_early priv packet k0 hlt
    rw [if_neg hk, if_neg hk, e1, e2, e3]
    refine ⟨by omega, rfl, rfl, ?_, x, y, z, b, rfl⟩
    intro i hi
    rw [Function.update_noteq (by omega), Function.update_noteq (by omega)]

theorem C33_v4_sequence_position_witness :
    (0 ≤ (processPacketV4 ({ proto_version := ALPS_PROTO_V4, pktsize := 8, multi_packet := 2 } : alps_data) (packetOf [0x00, 0x10, 0x20, 0x00, 0x00, 0x30, 0x01, 0x03])).1.multi_packet ∧
        (processPacketV4 ({ proto_version := ALPS_PROTO_V4, pktsize := 8, multi_packet := 2 } : alps_data) (packetOf [0x00, 0x10, 0x20, 0x00, 0x00, 0x30, 0x01, 0x03])).1.multi_packet ≤ 2) ∧
      (processPacketV4 ({ proto_version := ALPS_PROTO_V4, pktsize := 8, multi_packet := 2 } : alps_data) (packetOf [0x00, 0x10, 0x20, 0x00, 0x00, 0x30, 0x01, 0x03])).1.multi_packet =
        (if v4_position ({ proto_version := ALPS_PROTO_V4, pktsize := 8, multi_packet := 2 } : alps_data) (packetOf [0x00, 0x10, 0x20, 0x00, 0x00, 0x30, 0x01, 0x03]) = 2 then 0 else v4_position ({ proto_version := ALPS_PROTO_V4, pktsize := 8, multi_packet := 2 } : alps_data) (packetOf [0x00, 0x10, 0x20, 0x00, 0x00, 0x30, 0x01, 0x03]) + 1) ∧
      (processPacketV4 ({ proto_version := ALPS_PROTO_V4, pktsize := 8, multi_packet := 2 } : alps_data) (packetOf [0x00, 0x10, 0x20, 0x00, 0x00, 0x30, 0x01, 0x03])).2.length = 1 ∧
      (∀ i, 6 ≤ i → (processPacketV4 ({ proto_version := ALPS_PROTO_V4, pktsize := 8, multi_packet := 2 } : alps_data) (packetOf [0x00, 0x10, 0x20, 0x00, 0x00, 0x30, 0x01, 0x03])).1.multi_data i = ({ proto_version := ALPS_PROTO_V4, pktsize := 8, multi_packet := 2 } : alps_data).multi_data i) ∧
      ∃ (x y z : Int) (b : Nat),
        (processPacketV4 ({ proto_version := ALPS_PROTO_V4, pktsize := 8, multi_packet := 2 } : alps_data) (packetOf [0x00, 0x10, 0x20, 0x00, 0x00, 0x30, 0x01, 0x03])).2 =
          [Event.eventsWithInfo x y 0 0 z
            (if v4_position ({ proto_version := ALPS_PROTO_V4, pktsize := 8, multi_packet := 2 } : alps_data) (packetOf [0x00, 0x10, 0x20, 0x00, 0x00, 0x30, 0x01, 0x03]) = 2 then
              v4_bitmap_fingers (processPacketV4 ({ proto_version := ALPS_PROTO_V4, pktsize := 8, multi_packet := 2 } : alps_data) (packetOf [0x00, 0x10, 0x20, 0x00, 0x00, 0x30, 0x01, 0x03])).1.multi_data
            else 0) b] :=
  C33_v4_sequence_position ({ proto_version := ALPS_PROTO_V4, pktsize := 8, multi_packet := 2 } : alps_data)
    (packetOf [0x00, 0x10, 0x20, 0x00, 0x00, 0x30, 0x01, 0x03]) (by decide) (by decide)

/-- Claim C34. Let `processPacketV4` handle three consecutive packets `p1`,
`p2`, `p3`, starting with `0 <= multi_packet <= 2`, and let the third call
decode a bitmap (it finds `multi_packet = 2` after the sync check). Then `p1`
was at position 0 of the sequence and `p2` at position 1, the accumulator
`multi_data[0..5]` holds bytes 6 and 7 of `p1`, `p2`, `p3`, and the decoded
`x_map` and `y_map`, hence the finger count dispatched, are those computed from
these six bytes alone, whatever `multi_data` held before. -/
theorem C34_v4_bitmap_from_last_three (priv : alps_data) (p1 p2 p3 : Nat → Nat)
    (h0 : 0 ≤ priv.multi_packet) (h2 : priv.multi_packet ≤ 2)
    (hdec : v4_position (processPacketV4 (processPacketV4 priv p1).1 p2).1 p3 = 2) :
    v4_position priv p1 = 0 ∧
      v4_position (processPacketV4 priv p1).1 p2 = 1 ∧
      (∀ i, i < 6 →
        (processPacketV4 (processPacketV4 (processPacketV4 priv p1).1 p2).1 p3).1.multi_data i =
          packetOf [p1 6, p1 7, p2 6, p2 7, p3 6, p3 7] i) ∧
      v4_x_map
          (processPacketV4 (processPacketV4 (processPacketV4 priv p1).1 p2).1 p3).1.multi_data =
        v4_x_map (packetOf [p1 6, p1 7, p2 6, p2 7, p3 6, p3 7]) ∧
      v4_y_map
          (processPacketV4 (processPacketV4 (processPacketV4 priv p1).1 p2).1 p3).1.multi_data =
        v4_y_map (packetOf [p1 6, p1 7, p2 6, p2 7, p3 6, p3 7]) ∧
      ∃ (x y z : Int) (b : Nat),
        (processPacketV4 (processPacketV4 (processPacketV4 priv p1).1 p2).1 p3).2 =
          [Event.eventsWithInfo x y 0 0 z
            (v4_bitmap_fingers (packetOf [p1 6, p1 7, p2 6, p2 7, p3 6, p3 7])) b] := by
  obtain ⟨k1, k2, hmd⟩ := v4_three_packets priv p1 p2 p3 h0 h2 hdec
  obtain ⟨hx, hy⟩ := v4_maps_of_six priv.multi_data (p1 6) (p1 7) (p2 6) (p2 7) (p3 6) (p3 7)
  obtain ⟨_, e2, x, y, z, b, e3⟩ := processPacketV4_last _ p3 hdec
  rw [← e2, hmd] at e3
  have hf : v4_bitmap_fingers (Function.update (Function.update (Function.update
      (Function.update (Function.update (Function.update priv.multi_data 0 (p1 6)) 1 (p1 7))
      2 (p2 6)) 3 (p2 7)) 4 (p3 6)) 5 (p3 7)) =
      v4_bitmap_fingers (packetOf [p1 6, p1 7, p2 6, p2 7, p3 6, p3 7]) := by
    unfold v4_bitmap_fingers
    rw [hx, hy]
  rw [hf] at e3
  rw [hmd]
  refine ⟨k1, k2, ?_, hx, hy, x, y, z, b, e3⟩
  intro i hi
  interval_cases i <;> simp [Function.update, packetOf]

theorem C34_v4_bitmap_from_last_three_witness :
    v4_position { proto_version := ALPS_PROTO_V4, multi_packet := 1, multi_data := fun _ => 0xff } (packetOf [0, 0, 0, 0, 0, 0, 0x41, 0x02]) = 0 ∧
      v4_position (processPacketV4 { proto_version := ALPS_PROTO_V4, multi_packet := 1, multi_data := fun _ => 0xff } (packetOf [0, 0, 0, 0, 0, 0, 0x41, 0x02])).1 (packetOf [0, 0, 0, 0, 0, 0, 0x03, 0x04]) = 1 ∧
      (∀ i, i < 6 →
        (processPacketV4 (processPacketV4 (processPacketV4 { proto_version := ALPS_PROTO_V4, multi_packet := 1, multi_data := fun _ => 0xff } (packetOf [0, 0, 0, 0, 0, 0, 0x41, 0x02])).1 (packetOf [0, 0, 0, 0, 0, 0, 0x03, 0x04])).1 (packetOf [0, 0, 0, 0, 0, 0, 0x05, 0x06])).1.multi_data i =
          packetOf [(packetOf [0, 0, 0, 0, 0, 0, 0x41, 0x02]) 6, (packetOf [0, 0, 0, 0, 0, 0, 0x41, 0x02]) 7, (packetOf [0, 0, 0, 0, 0, 0, 0x03, 0x04]) 6, (packetOf [0, 0, 0, 0, 0, 0, 0x03, 0x04]) 7, (packetOf [0, 0, 0, 0, 0, 0, 0x05, 0x06]) 6, (packetOf [0, 0, 0, 0, 0, 0, 0x05, 0x06]) 7] i) ∧
      v4_x_map
          (processPacketV4 (processPacketV4 (processPacketV4 { proto_version := ALPS_PROTO_V4, multi_packet := 1, multi_data := fun _ => 0xff } (packetOf [0, 0, 0, 0, 0, 0, 0x41, 0x02])).1 (packetOf [0, 0, 0, 0, 0, 0, 0x03, 0x04])).1 (packetOf [0, 0, 0, 0, 0, 0, 0x05, 0x06])).1.multi_data =
        v4_x_map (packetOf [(packetOf [0, 0, 0, 0, 0, 0, 0x41, 0x02]) 6, (packetOf [0, 0, 0, 0, 0, 0, 0x41, 0x02]) 7, (packetOf [0, 0, 0, 0, 0, 0, 0x03, 0x04]) 6, (packetOf [0, 0, 0, 0, 0, 0, 0x03, 0x04]) 7, (packetOf [0, 0, 0, 0, 0, 0, 0x05, 0x06]) 6, (packetOf [0, 0, 0, 0, 0, 0, 0x05, 0x06]) 7]) ∧
      v4_y_map
          (processPacketV4 (processPacketV4 (processPacketV4 { proto_version := ALPS_PROTO_V4, multi_packet := 1, multi_data := fun _ => 0xff } (packetOf [0, 0, 0, 0, 0, 0, 0x41, 0x02])).1 (packetOf [0, 0, 0, 0, 0, 0, 0x03, 0x04])).1 (packetOf [0, 0, 0, 0, 0, 0, 0x05, 0x06])).1.multi_data =
        v4_y_map (packetOf [(packetOf [0, 0, 0, 0, 0, 0, 0x41, 0x02]) 6, (packetOf [0, 0, 0, 0, 0, 0, 0x41, 0x02]) 7, (packetOf [0, 0, 0, 0, 0, 0, 0x03, 0x04]) 6, (packetOf [0, 0, 0, 0, 0, 0, 0x03, 0x04]) 7, (packetOf [0, 0, 0, 0, 0, 0, 0x05, 0x06]) 6, (packetOf [0, 0, 0, 0, 0, 0, 0x05, 0x06]) 7]) ∧
      ∃ (x y z : Int) (b : Nat),
        (processPacketV4 (processPacketV4 (processPacketV4 { proto_version := ALPS_PROTO_V4, multi_packet := 1, multi_data := fun _ => 0xff } (packetOf [0, 0, 0, 0, 0, 0, 0x41, 0x02])).1 (packetOf [0, 0, 0, 0, 0, 0, 0x03, 0x04])).1 (packetOf [0, 0, 0, 0, 0, 0, 0x05, 0x06])).2 =
          [Event.eventsWithInfo x y 0 0 z
            (v4_bitmap_fingers (packetOf [(packetOf [0, 0, 0, 0, 0, 0, 0x41, 0x02]) 6, (packetOf [0, 0, 0, 0, 0, 0, 0x41, 0x02]) 7, (packetOf [0, 0, 0, 0, 0, 0, 0x03, 0x04]) 6, (packetOf [0, 0, 0, 0, 0, 0, 0x03, 0x04]) 7, (packetOf [0, 0, 0, 0, 0, 0, 0x05, 0x06]) 6, (packetOf [0, 0, 0, 0, 0, 0, 0x05, 0x06]) 7])) b] :=
  C34_v4_bitmap_from_last_three
    { proto_version := ALPS_PROTO_V4, multi_packet := 1, multi_data := fun _ => 0xff }
    (packetOf [0, 0, 0, 0, 0, 0, 0x41, 0x02]) (packetOf [0, 0, 0, 0, 0, 0, 0x03, 0x04])
    (packetOf [0, 0, 0, 0, 0, 0, 0x05, 0x06]) (by decide) (by decide) (by decide)

/-! ## Split runs and corner ranges: auxiliary facts -/

theorem testBit_lt_of_lt_two_pow (map bits j : Nat) (hlt : map < 2 ^ bits)
    (hj : map.testBit j = true) : j < bits := by
  by_contra hge
  have h := Nat.testBit_eq_false_of_lt (Nat.lt_of_lt_of_le hlt
    (Nat.pow_le_pow_right (by decide) (Nat.le_of_not_lt hge)))
  rw [h] at hj
  exact absurd hj (by decide)

theorem get_bitmap_points_shape (map : Nat) (hne : map ≠ 0) :
    (∃ s m : Nat, (alps_get_bitmap_points map {} {} 0).fingers = 1 ∧
        (alps_get_bitmap_points map {} {} 0).low = ⟨s, m⟩ ∧ IsMaximalRun map s m ∧
        (∀ j, j < s → map.testBit j = false) ∧ (∀ j, s + m ≤ j → map.testBit j = false)) ∨
      (∃ s m s2 m2 : Nat, 2 ≤ (alps_get_bitmap_points map {} {} 0).fingers ∧
        (alps_get_bitmap_points map {} {} 0).low = ⟨s, m⟩ ∧
        (alps_get_bitmap_points map {} {} 0).high = ⟨s2, m2⟩ ∧ IsMaximalRun map s m ∧
        0 < m2 ∧ s + m < s2 ∧ (∀ j, j < m2 → map.testBit (s2 + j) = true) ∧
        map.testBit (s2 - 1) = false) := by
  obtain ⟨i, prev, hend, hinv⟩ := get_bitmap_points_inv map {} {} 0
  rcases hinv with ⟨_, _, _, _, _, hz⟩ | ⟨_, _, hf, _, s, m, hl, hm, hsm, hz, hset⟩ |
    ⟨_, s, m, hl, hrun, hz, hsm, hc⟩
  · exfalso
    apply hne
    apply Nat.eq_of_testBit_eq
    intro j
    rw [Nat.zero_testBit]
    by_cases hj : j < i
    · exact hz j hj
    · exact hend j (Nat.le_of_not_lt hj)
  · left
    refine ⟨s, m, by rw [hf]; rfl, hl, ⟨hm, hset, hend _ (by omega), ?_⟩, hz, ?_⟩
    · by_cases h0 : s = 0
      · exact Or.inl h0
      · exact Or.inr (hz _ (by omega))
    · intro j hj
      exact hend j (by omega)
  · rcases hc with ⟨hf, _, _, hclr⟩ | ⟨hf, s2, m2, hh, hm2, hlt, _, hr2, hbelow, _, _⟩
    · left
      refine ⟨s, m, by rw [hf]; rfl, hl, hrun, hz, ?_⟩
      intro j hj
      by_cases hji : j < i
      · exact hclr j hj hji
      · exact hend j (Nat.le_of_not_lt hji)
    · right
      exact ⟨s, m, s2, m2, by omega, hl, hh, hrun, hm2, hlt, hr2, hbelow⟩

theorem single_run_scan (map s n : Nat) (hrun : IsMaximalRun map s n)
    (huniq : ∀ s1 n1, IsMaximalRun map s1 n1 → s1 = s ∧ n1 = n) :
    (alps_get_bitmap_points map {} {} 0).fingers = 1 ∧
      (alps_get_bitmap_points map {} {} 0).low = ⟨s, n⟩ := by
  have hne : map ≠ 0 := by
    intro h0
    have hb := hrun.2.1 0 hrun.1
    rw [h0, Nat.zero_testBit] at hb
    exact absurd hb (by decide)
  rcases get_bitmap_points_shape map hne with
    ⟨s0, m0, hf, hl, hr0, _, _⟩ | ⟨s0, m0, s2, m2, _, _, _, hr0, hm2, hlt, hr2, hbelow⟩
  · obtain ⟨e1, e2⟩ := huniq s0 m0 hr0
    rw [e1, e2] at hl
    exact ⟨hf, hl⟩
  · exfalso
    have hstart : isRunStart map s2 = true := by
      unfold isRunStart
      have hb := hr2 0 hm2
      rw [Nat.add_zero] at hb
      rw [hb, hbelow]
      simp
    obtain ⟨n2, hrun2⟩ := (isRunStart_iff_maximalRun map s2).mp hstart
    obtain ⟨e1, _⟩ := huniq s0 m0 hr0
    obtain ⟨e2, _⟩ := huniq s2 n2 hrun2
    omega

theorem run_eq_of_only (map s0 m0 s1 n1 : Nat) (hr0 : IsMaximalRun map s0 m0)
    (hlo : ∀ j, j < s0 → map.testBit j = false)
    (hhi : ∀ j, s0 + m0 ≤ j → map.testBit j = false)
    (h1 : IsMaximalRun map s1 n1) : s1 = s0 ∧ n1 = m0 := by
  obtain ⟨hn1, hset1, habove1, hbelow1⟩ := h1
  obtain ⟨_, hset0, _, _⟩ := hr0
  have ne_of : ∀ j, map.testBit j = true → s0 ≤ j ∧ j < s0 + m0 := by
    intro j hj
    constructor
    · by_contra hlt
      rw [hlo j (by omega)] at hj
      exact absurd hj (by decide)
    · by_contra hge
      rw [hhi j (by omega)] at hj
      exact absurd hj (by decide)
  have in0 : ∀ j, s0 ≤ j → j < s0 + m0 → map.testBit j = true := by
    intro j h1 h2
    have := hset0 (j - s0) (by omega)
    rwa [show s0 + (j - s0) = j by omega] at this
  have a1 := ne_of s1 (by simpa using hset1 0 hn1)
  have a2 := ne_of (s1 + (n1 - 1)) (hset1 (n1 - 1) (by omega))
  have e1 : s1 = s0 := by
    by_contra hne
    rcases hbelow1 with h | h
    · omega
    · rw [in0 (s1 - 1) (by omega) (by omega)] at h
      exact absurd h (by decide)
  have e2 : s1 + n1 = s0 + m0 := by
    by_contra hne
    rw [in0 (s1 + n1) (by omega) (by omega)] at habove1
    exact absurd habove1 (by decide)
  exact ⟨e1, by omega⟩

theorem unique_run_of_runCount (map s n : Nat) (hmap : map < 2 ^ 32) (h1 : runCount map = 1)
    (hrun : IsMaximalRun map s n) :
    ∀ s1 n1, IsMaximalRun map s1 n1 → s1 = s ∧ n1 = n := by
  have hne : map ≠ 0 := by
    intro h0
    have hb := hrun.2.1 0 hrun.1
    rw [h0, Nat.zero_testBit] at hb
    exact absurd hb (by decide)
  have hf := get_bitmap_points_fingers map hmap {} {} 0
  rw [h1] at hf
  rcases get_bitmap_points_shape map hne with
    ⟨s0, m0, _, _, hr0, hlo, hhi⟩ | ⟨_, _, _, _, h2, _⟩
  · intro s1 n1 hr1
    obtain ⟨a1, a2⟩ := run_eq_of_only map s0 m0 s1 n1 hr0 hlo hhi hr1
    obtain ⟨b1, b2⟩ := run_eq_of_only map s0 m0 s n hr0 hlo hhi hrun
    exact ⟨by rw [a1, b1], by rw [a2, b2]⟩
  · rw [hf] at h2
    exact absurd h2 (by decide)

theorem axis_points_in_range (map bits : Nat) (hne : map ≠ 0) (hlt : map < 2 ^ bits) :
    ∃ a b c d : Nat,
      splitSingle (alps_get_bitmap_points map {} {} 0).fingers
          (alps_get_bitmap_points map {} {} 0).low
          (alps_get_bitmap_points map {} {} 0).high =
        (⟨a, b⟩, ⟨c, d⟩) ∧
      1 ≤ b ∧ a + b ≤ bits ∧ 1 ≤ d ∧ c + d ≤ bits := by
  rcases get_bitmap_points_shape map hne with
    ⟨s, m, hf, hl, hr, _, _⟩ | ⟨s, m, s2, m2, hf, hl, hh, hr, hm2, _, hr2, _⟩
  · have hm : 0 < m := hr.1
    have hb := testBit_lt_of_lt_two_pow map bits _ hlt (hr.2.1 (m - 1) (by omega))
    have ht : Int.tdiv (m : Int) 2 = ((m / 2 : Nat) : Int) := rfl
    refine ⟨s, m - m / 2, s + m / 2, max (m / 2) 1, ?_, by omega, by omega, by omega, by omega⟩
    rw [hf, hl]
    unfold splitSingle
    simp only [if_true, ht]
    rw [Prod.mk.injEq, alps_bitmap_point.mk.injEq, alps_bitmap_point.mk.injEq]
    exact ⟨⟨rfl, by omega⟩, by omega, by omega⟩
  · have hm : 0 < m := hr.1
    have hb := testBit_lt_of_lt_two_pow map bits _ hlt (hr.2.1 (m - 1) (by omega))
    have hb2 := testBit_lt_of_lt_two_pow map bits _ hlt (hr2 (m2 - 1) (by omega))
    refine ⟨s, m, s2, m2, ?_, by omega, by omega, by omega, by omega⟩
    rw [hl, hh]
    unfold splitSingle
    rw [if_neg (by omega)]

theorem cornerCoord_range (vmax bits : Int) (a b : Nat) (hv : 0 ≤ vmax) (hb : 2 ≤ bits)
    (h1 : 1 ≤ b) (h2 : (a : Int) + (b : Int) ≤ bits) :
    0 ≤ cornerCoord vmax bits ⟨a, b⟩ ∧ cornerCoord vmax bits ⟨a, b⟩ ≤ vmax := by
  unfold cornerCoord
  simp only
  have hk0 : (0 : Int) ≤ 2 * (a : Int) + (b : Int) - 1 := by omega
  have hk1 : 2 * (a : Int) + (b : Int) - 1 ≤ 2 * (bits - 1) := by omega
  have hd : (0 : Int) < 2 * (bits - 1) := by omega
  have hnum : 0 ≤ vmax * (2 * (a : Int) + (b : Int) - 1) := Int.mul_nonneg hv hk0
  rw [Int.tdiv_eq_ediv hnum (Int.le_of_lt hd)]
  exact ⟨Int.ediv_nonneg hnum (Int.le_of_lt hd),
    Int.ediv_le_of_le_mul hd (Int.mul_le_mul_of_nonneg_left hk1 hv)⟩

theorem bitmapCorners_in_range (priv : alps_data) (fields : alps_fields)
    (hxm : 0 ≤ priv.x_max) (hym : 0 ≤ priv.y_max)
    (hxb : 2 ≤ priv.x_bits) (hyb : 2 ≤ priv.y_bits)
    (hx : fields.x_map ≠ 0) (hy : fields.y_map ≠ 0)
    (hxl : fields.x_map < 2 ^ priv.x_bits.toNat)
    (hyl : fields.y_map < 2 ^ priv.y_bits.toNat) (i : Nat) :
    0 ≤ (bitmapCorners priv fields i).x ∧ (bitmapCorners priv fields i).x ≤ priv.x_max ∧
      0 ≤ (bitmapCorners priv fields i).y ∧ (bitmapCorners priv fields i).y ≤ priv.y_max := by
  obtain ⟨a, b, c, d, hsx, hb, hab, hd, hcd⟩ :=
    axis_points_in_range fields.x_map priv.x_bits.toNat hx hxl
  obtain ⟨e, f, g, k, hsy, hf, hef, hk, hgk⟩ :=
    axis_points_in_range fields.y_map priv.y_bits.toNat hy hyl
  have hbx : ((priv.x_bits.toNat : Nat) : Int) = priv.x_bits := Int.toNat_of_nonneg (by omega)
  have hby : ((priv.y_bits.toNat : Nat) : Int) = priv.y_bits := Int.toNat_of_nonneg (by omega)
  have X1 := cornerCoord_range priv.x_max priv.x_bits a b hxm hxb hb (by omega)
  have X2 := cornerCoord_range priv.x_max priv.x_bits c d hxm hxb hd (by omega)
  have Y1 := cornerCoord_range priv.y_max priv.y_bits e f hym hyb hf (by omega)
  have Y2 := cornerCoord_range priv.y_max priv.y_bits g k hym hyb hk (by omega)
  unfold bitmapCorners
  simp only [hsx, hsy]
  by_cases h5 : priv.proto_version = ALPS_PROTO_V5
  · by_cases h34 : priv.proto_version = ALPS_PROTO_V3 ∨ priv.proto_version = ALPS_PROTO_V4
    · rw [if_pos h5, if_pos h34]
      rcases i with _ | _ | _ | i <;> simp only <;> omega
    · rw [if_pos h5, if_neg h34]
      rcases i with _ | _ | _ | i <;> simp only <;> omega
  · by_cases h34 : priv.proto_version = ALPS_PROTO_V3 ∨ priv.proto_version = ALPS_PROTO_V4
    · rw [if_neg h5, if_pos h34]
      rcases i with _ | _ | _ | i <;> simp only <;> omega
    · rw [if_neg h5, if_neg h34]
      rcases i with _ | _ | _ | i <;> simp only <;> omega

theorem set_protocol_max_nonneg (v : ProtoVersion) :
    0 ≤ (set_protocol_max v).1 ∧ 0 ≤ (set_protocol_max v).2 := by
  cases v <;> decide

theorem set_protocol_bits_ge_two (v : ProtoVersion) :
    2 ≤ (set_protocol_bits v).1 ∧ 2 ≤ (set_protocol_bits v).2 := by
  cases v <;> decide

/-! ## Split runs and corner ranges: the claims -/

/-- Claim C31. If an axis bitmap has exactly one maximal run of set bits, with
start `s` and length `n`, the scan of `alps_get_bitmap_points` counts one
finger and the block `if (fingers == 1)` of `processBitmap` sets
`low = (s, n - n/2)` and `high = (s + n/2, max(n/2, 1))` (integer division);
both lengths are at least 1 and both parts lie inside `[s, s + n - 1]`. -/
theorem C31_single_run_split (map s n : Nat) (hrun : IsMaximalRun map s n)
    (huniq : ∀ s1 n1, IsMaximalRun map s1 n1 → s1 = s ∧ n1 = n) :
    (splitSingle (alps_get_bitmap_points map {} {} 0).fingers
          (alps_get_bitmap_points map {} {} 0).low
          (alps_get_bitmap_points map {} {} 0).high).1 =
        { start_bit := (s : Int), num_bits := ((n - n / 2 : Nat) : Int) } ∧
      (splitSingle (alps_get_bitmap_points map {} {} 0).fingers
          (alps_get_bitmap_points map {} {} 0).low
          (alps_get_bitmap_points map {} {} 0).high).2 =
        { start_bit := ((s + n / 2 : Nat) : Int), num_bits := ((max (n / 2) 1 : Nat) : Int) } ∧
      1 ≤ n - n / 2 ∧ 1 ≤ max (n / 2) 1 ∧
      s + (n - n / 2) ≤ s + n ∧ s ≤ s + n / 2 ∧ s + n / 2 + max (n / 2) 1 ≤ s + n := by
  obtain ⟨hf, hl⟩ := single_run_scan map s n hrun huniq
  have hn : 0 < n := hrun.1
  have ht : Int.tdiv (n : Int) 2 = ((n / 2 : Nat) : Int) := rfl
  rw [hf, hl]
  unfold splitSingle
  simp only [if_true, ht]
  refine ⟨?_, ?_, by omega, by omega, by omega, by omega, by omega⟩
  · rw [alps_bitmap_point.mk.injEq]
    exact ⟨rfl, by omega⟩
  · rw [alps_bitmap_point.mk.injEq]
    exact ⟨by omega, by omega⟩

theorem C31_single_run_split_witness :
    (splitSingle (alps_get_bitmap_points 0b0111000 {} {} 0).fingers
          (alps_get_bitmap_points 0b0111000 {} {} 0).low
          (alps_get_bitmap_points 0b0111000 {} {} 0).high).1 =
        { start_bit := ((3 : Nat) : Int), num_bits := ((3 - 3 / 2 : Nat) : Int) } ∧
      (splitSingle (alps_get_bitmap_points 0b0111000 {} {} 0).fingers
          (alps_get_bitmap_points 0b0111000 {} {} 0).low
          (alps_get_bitmap_points 0b0111000 {} {} 0).high).2 =
        { start_bit := ((3 + 3 / 2 : Nat) : Int), num_bits := ((max (3 / 2) 1 : Nat) : Int) } ∧
      1 ≤ 3 - 3 / 2 ∧ 1 ≤ max (3 / 2) 1 ∧
      3 + (3 - 3 / 2) ≤ 3 + 3 ∧ 3 ≤ 3 + 3 / 2 ∧ 3 + 3 / 2 + max (3 / 2) 1 ≤ 3 + 3 :=
  C31_single_run_split 0b0111000 3 3 (by decide)
    (unique_run_of_runCount 0b0111000 3 3 (by decide) (by decide) (by decide))

/-- Claim C32. For non-zero bitmaps `x_map < 2 ^ x_bits` and
`y_map < 2 ^ y_bits` with `x_bits, y_bits ≥ 2`, on a device whose configured
maxima `x_max`, `y_max` are not negative (every value that `set_protocol`
assigns is positive, see `set_protocol_max_nonneg`), each corner computed by
`processBitmap`, after the per-version axis reversals, has `0 ≤ x ≤ x_max` and
`0 ≤ y ≤ y_max`, and so has the corner that `processBitmap` stores as `mt[1]`;
the divisors `2 * (x_bits - 1)` and `2 * (y_bits - 1)` are not zero. -/
theorem C32_corners_in_range (priv : alps_data) (fields : alps_fields)
    (hxm : 0 ≤ priv.x_max) (hym : 0 ≤ priv.y_max)
    (hxb : 2 ≤ priv.x_bits) (hyb : 2 ≤ priv.y_bits)
    (hx : fields.x_map ≠ 0) (hy : fields.y_map ≠ 0)
    (hxl : fields.x_map < 2 ^ priv.x_bits.toNat)
    (hyl : fields.y_map < 2 ^ priv.y_bits.toNat) :
    (∀ i : Nat,
        0 ≤ (bitmapCorners priv fields i).x ∧ (bitmapCorners priv fields i).x ≤ priv.x_max ∧
        0 ≤ (bitmapCorners priv fields i).y ∧ (bitmapCorners priv fields i).y ≤ priv.y_max) ∧
      2 * (priv.x_bits - 1) ≠ 0 ∧ 2 * (priv.y_bits - 1) ≠ 0 ∧
      0 ≤ ((processBitmap priv fields).2.1.mt 1).x ∧
      ((processBitmap priv fields).2.1.mt 1).x ≤ priv.x_max ∧
      0 ≤ ((processBitmap priv fields).2.1.mt 1).y ∧
      ((processBitmap priv fields).2.1.mt 1).y ≤ priv.y_max := by
  have hall := bitmapCorners_in_range priv fields hxm hym hxb hyb hx hy hxl hyl
  refine ⟨hall, by omega, by omega, ?_⟩
  have hne : ¬ (fields.x_map = 0 ∨ fields.y_map = 0) := fun h => h.elim hx hy
  rw [processBitmap_nonzero priv fields hne]
  simp only [Function.update_same]
  exact hall _

/-- The instance of claim C32 on a V3 device with the default maxima
`2000 / 1400` and the default widths `15 / 11`, for the bitmaps `0b0110` and
`0b1`. -/
theorem C32_corners_in_range_witness :
    (0 : Int) ≤ ({ proto_version := ALPS_PROTO_V3 } : alps_data).x_max ∧
      (fields_6_1.x_map ≠ 0 ∧ fields_6_1.y_map ≠ 0) ∧
      ((∀ i : Nat,
        0 ≤ (bitmapCorners { proto_version := ALPS_PROTO_V3 } fields_6_1 i).x ∧
        (bitmapCorners { proto_version := ALPS_PROTO_V3 } fields_6_1 i).x ≤
          ({ proto_version := ALPS_PROTO_V3 } : alps_data).x_max ∧
        0 ≤ (bitmapCorners { proto_version := ALPS_PROTO_V3 } fields_6_1 i).y ∧
        (bitmapCorners { proto_version := ALPS_PROTO_V3 } fields_6_1 i).y ≤
          ({ proto_version := ALPS_PROTO_V3 } : alps_data).y_max) ∧
      2 * (({ proto_version := ALPS_PROTO_V3 } : alps_data).x_bits - 1) ≠ 0 ∧
      2 * (({ proto_version := ALPS_PROTO_V3 } : alps_data).y_bits - 1) ≠ 0 ∧
      0 ≤ ((processBitmap { proto_version := ALPS_PROTO_V3 } fields_6_1).2.1.mt 1).x ∧
      ((processBitmap { proto_version := ALPS_PROTO_V3 } fields_6_1).2.1.mt 1).x ≤
        ({ proto_version := ALPS_PROTO_V3 } : alps_data).x_max ∧
      0 ≤ ((processBitmap { proto_version := ALPS_PROTO_V3 } fields_6_1).2.1.mt 1).y ∧
      ((processBitmap { proto_version := ALPS_PROTO_V3 } fields_6_1).2.1.mt 1).y ≤
        ({ proto_version := ALPS_PROTO_V3 } : alps_data).y_max) :=
  ⟨by decide, ⟨by decide, by decide⟩,
    C32_corners_in_range { proto_version := ALPS_PROTO_V3 } fields_6_1
      (by decide) (by decide) (by decide) (by decide) (by decide) (by decide)
      (by decide) (by decide)⟩

end Alps
